import Mathlib

/-!
# Boss Budget API: the user service over its repository and storage

A shallow embedding of `src/services/usuarioService.js`,
`src/repositories/usuarioRepository.js`, the `Usuario` model declared in
`src/model/model_general.js`, the handlers of `src/controller/usuarioController.js` and
the database manager of `src/config/database.js`.

* The table `usuarios` is a list of rows together with the auto-increment
  counter; every call the repository makes on the ORM model is appended to a
  log, so that "no storage access" is a statement about the log.
* What the JavaScript runtime and the libraries compute (the clock, bcrypt,
  the `Date` parser, the validators the ORM runs for a column, the engine in
  use) is taken as a parameter, collected in `Env`.
* Request bodies are records whose fields are `undefined`, `null` or a value of
  the type the model declares for the column.
* The service does three things with the value it receives as `id`: it tests `!id`, it
  tests `isNaN(id)`, and it hands the value to the storage as a filter on the primary
  key. These are the operations of the class `Ident`. The handlers pass the route
  parameter, a string (`IdRuta`); the service itself passes the identifier of a row, a
  number (the instance for `Nat`).
* The operations of the repository on the table are taken after `ensureInitialized` has
  succeeded and on a storage that answers its queries; the readiness wait and the start
  of the database manager are embedded apart, over the outcomes of the library calls they
  make. A handler is its `try`/`catch` on the outcome of the service call it awaits, so
  its `catch` block is embedded on every error, also on those of a storage that fails.
-/

namespace BossBudget

/-! ## JavaScript values -/

/-- A field of a request body as JavaScript sees it. -/
inductive Campo (α : Type) where
  | undefined : Campo α
  | null : Campo α
  | valor (a : α) : Campo α
  deriving DecidableEq, Repr

/-- White space and line terminators of ECMAScript: the class `\s` of a regular
expression and the characters `String.prototype.trim` removes. -/
def jsWhiteSpace (c : Char) : Bool :=
  let n := c.toNat
  n == 9 || n == 10 || n == 11 || n == 12 || n == 13 || n == 32 || n == 0xA0 ||
  n == 0x1680 || (0x2000 ≤ n && n ≤ 0x200A) || n == 0x2028 || n == 0x2029 ||
  n == 0x202F || n == 0x205F || n == 0x3000 || n == 0xFEFF

/-- Number of UTF-16 code units of a list of code points (`String.prototype.length`). -/
def utf16Length : List Char → Nat
  | [] => 0
  | c :: cs => (if c.toNat < 0x10000 then 1 else 2) + utf16Length cs

/-- The `length` property of a JavaScript string. -/
def jsLength (s : String) : Nat := utf16Length s.data

/-- The characters `String.prototype.trim` keeps. -/
def trimChars (cs : List Char) : List Char :=
  ((cs.dropWhile jsWhiteSpace).reverse.dropWhile jsWhiteSpace).reverse

/-- `String.prototype.trim`. -/
def jsTrim (s : String) : String := ⟨trimChars s.data⟩

/-- Truthiness of a string-valued field: `undefined`, `null` and `''` are falsy. -/
def Campo.truthy : Campo String → Bool
  | .valor s => s != ""
  | _ => false

/-- The value `x !== undefined`. -/
def Campo.defined {α : Type} : Campo α → Bool
  | .undefined => false
  | _ => true

/-! ## Data model (`src/model/model_general.js`) -/

/-- A row of the table `usuarios`. -/
structure Usuario where
  id : Nat
  nombre : String
  email : String
  password : String
  telefono : Option String
  fecha_nacimiento : Option String
  activo : Bool
  rol : String
  fecha_registro : Nat
  ultima_actividad : Option Nat
  deriving DecidableEq, Repr

/-- A request body (`usuarioData`, `updateData`): the attributes of the model other
than the auto-assigned identifier. -/
structure UsuarioData where
  nombre : Campo String
  email : Campo String
  password : Campo String
  telefono : Campo String
  fecha_nacimiento : Campo String
  activo : Campo Bool
  rol : Campo String
  fecha_registro : Campo Nat
  ultima_actividad : Campo Nat
  deriving DecidableEq, Repr

/-- The empty request body. -/
def UsuarioData.vacio : UsuarioData :=
  ⟨.undefined, .undefined, .undefined, .undefined, .undefined, .undefined, .undefined,
   .undefined, .undefined⟩

/-- Storage engines of `src/config/database.js`. -/
inductive Motor where
  | mysql
  | sqlite
  deriving DecidableEq, Repr

/-- Text columns of the model. -/
inductive Columna where
  | nombre
  | email
  | password
  | telefono
  | rol
  | fecha_nacimiento
  deriving DecidableEq, Repr

/-- What the runtime and the libraries supply to one call of the service. -/
structure Env where
  /-- Value of `new Date()`, as a timestamp. -/
  now : Nat
  /-- Result of `bcrypt.hash(password, 10)` in this call. -/
  hash : String → String
  /-- Result of `bcrypt.compare(password, hashedPassword)`. -/
  compare : String → String → Bool
  /-- Result of `new Date(dateString)`; `none` is the invalid date. -/
  parseDate : String → Option Nat
  /-- Outcome of the validators and type checks that the ORM and the engine run on a
  value written to a column (`validate` blocks and column types of the model). -/
  validate : Columna → String → Bool
  /-- Engine the connection uses. -/
  motor : Motor

/-- Errors a call can raise. -/
inductive ErrorJs where
  /-- Thrown by the service: `new Error(message)`. -/
  | error (message : String)
  /-- Raised by the ORM when a validator or a not-null rule rejects a value. -/
  | validationError
  /-- Raised by the ORM when a unique index rejects a write. -/
  | uniqueConstraintError
  /-- Raised by bcryptjs when it is given something that is not a string. -/
  | illegalArguments
  /-- Raised by the ORM when the engine rejects a query. -/
  | databaseError
  /-- Raised by the runtime when a property of `undefined` is read. -/
  | typeError
  deriving DecidableEq, Repr

/-- Calls on the ORM model `Usuario`. -/
inductive OrmCall where
  | create
  | findAndCountAll
  | findAll
  | findByPk
  | findOne
  | update
  | destroy
  | count
  deriving DecidableEq, Repr

/-- The table `usuarios`. -/
structure Store where
  rows : List Usuario
  nextId : Nat
  deriving DecidableEq, Repr

/-- The table together with the log of the calls made on the model, oldest first. -/
structure Db where
  store : Store
  log : List OrmCall
  deriving DecidableEq, Repr

/-- Record one call on the model. -/
def Db.registrar (db : Db) (c : OrmCall) : Db := { db with log := db.log ++ [c] }

/-! ## The argument `id` -/

/-- What the code reads of a value passed as `id`: whether it is falsy (the test `!id`),
whether `isNaN(id)` holds, and which primary key the storage compares equal to it in a
filter `where: { id }`; a value equals at most one key. -/
class Ident (ι : Type) where
  falsy : ι → Bool
  esNaN : ι → Bool
  coincide : ι → Nat → Bool
  unica : ∀ id k1 k2, coincide id k1 = true → coincide id k2 = true → k1 = k2

/-- A number, as the identifier `usuario.id` of a row: `0` is falsy, a natural number is
never `NaN`, and it equals the key of its own value. -/
instance Ident.deNat : Ident Nat where
  falsy n := n == 0
  esNaN _ := false
  coincide n k := k == n
  unica := by
    intro id k1 k2 h1 h2
    rw [beq_iff_eq] at h1 h2
    rw [h1, h2]

/-- A decimal digit. -/
def esDigito (c : Char) : Bool := decide ('0'.toNat ≤ c.toNat) && decide (c.toNat ≤ '9'.toNat)

/-- A hexadecimal digit. -/
def esDigitoHex (c : Char) : Bool :=
  esDigito c || (decide ('a'.toNat ≤ c.toNat) && decide (c.toNat ≤ 'f'.toNat)) ||
    (decide ('A'.toNat ≤ c.toNat) && decide (c.toNat ≤ 'F'.toNat))

/-- A non-empty run of characters of one class. -/
def digitos (clase : Char → Bool) (cs : List Char) : Bool := !cs.isEmpty && cs.all clase

/-- `ExponentPart`, or nothing: `e` or `E`, an optional sign, decimal digits. -/
def exponenteOpcional : List Char → Bool
  | [] => true
  | c :: cs =>
    (c == 'e' || c == 'E') &&
      (match cs with
       | '+' :: ds => digitos esDigito ds
       | '-' :: ds => digitos esDigito ds
       | ds => digitos esDigito ds)

/-- `StrUnsignedDecimalLiteral`: `Infinity`, or digits with an optional fraction, or a
fraction alone, each with an optional exponent. -/
def decimalSinSigno (cs : List Char) : Bool :=
  cs == "Infinity".data ||
    (let entera := cs.takeWhile esDigito
     match cs.dropWhile esDigito with
     | '.' :: resto =>
       (!entera.isEmpty || !(resto.takeWhile esDigito).isEmpty) &&
         exponenteOpcional (resto.dropWhile esDigito)
     | resto => !entera.isEmpty && exponenteOpcional resto)

/-- `NonDecimalIntegerLiteral`: binary, octal or hexadecimal digits after their prefix. -/
def enteroNoDecimal : List Char → Bool
  | '0' :: x :: ds =>
    ((x == 'x' || x == 'X') && digitos esDigitoHex ds) ||
    ((x == 'o' || x == 'O') && digitos (fun c => esDigito c && c.toNat ≤ '7'.toNat) ds) ||
    ((x == 'b' || x == 'B') && digitos (fun c => c == '0' || c == '1') ds)
  | _ => false

/-- The text is a `StringNumericLiteral`: `Number(text)` is not `NaN`. White space around
the literal is skipped and the text without a literal is the number `0`. -/
def esNumeral (s : String) : Bool :=
  match trimChars s.data with
  | [] => true
  | '+' :: cs => decimalSinSigno cs
  | '-' :: cs => decimalSinSigno cs
  | cs => enteroNoDecimal cs || decimalSinSigno cs

/-- The route parameter `:id` of a request, a string: its text, and the primary key the
storage engine takes the text for when it compares it with the column `id` (`none` when
the text equals no key). -/
structure IdRuta where
  texto : String
  clave : Option Nat
  deriving DecidableEq, Repr

/-- A string: the empty one is falsy, `isNaN` holds when the text is not a numeral. -/
instance Ident.deRuta : Ident IdRuta where
  falsy p := p.texto == ""
  esNaN p := !esNumeral p.texto
  coincide p k := p.clave == some k
  unica := by
    intro id k1 k2 h1 h2
    rw [beq_iff_eq] at h1 h2
    rw [h1] at h2
    exact Option.some.inj h2

/-! ## Validation (`src/services/usuarioService.js`, lines 10-54) -/

/-- The character class `[^\s@]`. -/
def claseEmail (c : Char) : Bool := !jsWhiteSpace c && c != '@'

/-- Every remainder of the input after a match of `[^\s@]+` at its start. -/
def restosClase : List Char → List (List Char)
  | [] => []
  | c :: cs => if claseEmail c then cs :: restosClase cs else []

/-- `isValidEmail`: the test of `/^[^\s@]+@[^\s@]+\.[^\s@]+$/`. -/
def isValidEmail (email : String) : Bool :=
  (restosClase email.data).any fun r1 =>
    match r1 with
    | '@' :: r2 =>
      (restosClase r2).any fun r3 =>
        match r3 with
        | '.' :: r4 => (restosClase r4).any fun r5 => r5.isEmpty
        | _ => false
    | _ => false

/-- `isValidDate`: the parsed date is not the invalid date. -/
def isValidDate (env : Env) (dateString : String) : Bool := (env.parseDate dateString).isSome

/-- The condition `!usuarioData.nombre || usuarioData.nombre.trim().length < 2`. -/
def nombreInvalido : Campo String → Bool
  | .valor s => s == "" || decide (jsLength (jsTrim s) < 2)
  | _ => true

/-- The condition `!usuarioData.email || !this.isValidEmail(usuarioData.email)`. -/
def emailInvalido : Campo String → Bool
  | .valor s => s == "" || !isValidEmail s
  | _ => true

/-- The condition `!usuarioData.password || usuarioData.password.length < 6`. -/
def passwordInvalido : Campo String → Bool
  | .valor s => s == "" || decide (jsLength s < 6)
  | _ => true

/-- The condition `usuarioData.telefono && usuarioData.telefono.length > 20`. -/
def telefonoInvalido : Campo String → Bool
  | .valor s => s != "" && decide (jsLength s > 20)
  | _ => false

/-- The condition `usuarioData.rol && !['admin', 'usuario', 'moderador'].includes(rol)`. -/
def rolInvalido : Campo String → Bool
  | .valor s => s != "" && !(["admin", "usuario", "moderador"].contains s)
  | _ => false

/-- The condition `usuarioData.fecha_nacimiento && !this.isValidDate(fecha_nacimiento)`. -/
def fechaInvalida (env : Env) : Campo String → Bool
  | .valor s => s != "" && !isValidDate env s
  | _ => false

def msgNombre : String := "El nombre debe tener al menos 2 caracteres"

def msgEmail : String := "El email debe ser válido"

def msgPassword : String := "La contraseña debe tener al menos 6 caracteres"

def msgTelefono : String := "El teléfono no puede tener más de 20 caracteres"

def msgRol : String := "El rol debe ser: admin, usuario o moderador"

def msgFecha : String := "La fecha de nacimiento debe ser válida"

/-- `errors.push(m)` when the condition holds. -/
def pushSi (cond : Bool) (m : String) (errors : List String) : List String :=
  if cond then errors ++ [m] else errors

/-- `validateUsuarioData(usuarioData, isUpdate)`. -/
def validateUsuarioData (env : Env) (usuarioData : UsuarioData) (isUpdate : Bool) :
    List String :=
  let errors : List String := []
  let errors := pushSi ((!isUpdate || usuarioData.nombre.defined) &&
    nombreInvalido usuarioData.nombre) msgNombre errors
  let errors := pushSi ((!isUpdate || usuarioData.email.defined) &&
    emailInvalido usuarioData.email) msgEmail errors
  let errors := pushSi ((!isUpdate || usuarioData.password.defined) &&
    passwordInvalido usuarioData.password) msgPassword errors
  let errors := pushSi (telefonoInvalido usuarioData.telefono) msgTelefono errors
  let errors := pushSi (rolInvalido usuarioData.rol) msgRol errors
  let errors := pushSi (fechaInvalida env usuarioData.fecha_nacimiento) msgFecha errors
  errors

/-! ## The ORM model `Usuario` over the table

`allowNull`, `defaultValue`, `unique` and `autoIncrement` are those the model
declares; the validators of a column are `Env.validate`. -/

/-- Value written on insert to a column with a default: `undefined` takes the default,
`null` is kept (and a not-null column rejects it). -/
def Campo.conDefecto {α : Type} (c : Campo α) (d : α) : Option α :=
  match c with
  | .undefined => some d
  | .null => none
  | .valor a => some a

/-- Value written on insert to a column without default. -/
def Campo.aOpcion {α : Type} : Campo α → Option α
  | .valor a => some a
  | _ => none

/-- New value of a not-null column on update: `undefined` leaves the column as it is. -/
def Campo.sobre {α : Type} (c : Campo α) (old : α) : α :=
  match c with
  | .valor a => a
  | _ => old

/-- New value of a nullable column on update. -/
def Campo.sobreOpcion {α : Type} (c : Campo α) (old : Option α) : Option α :=
  match c with
  | .undefined => old
  | .null => none
  | .valor a => some a

/-- Validators of one text column on a supplied value. -/
def campoValido (env : Env) (col : Columna) : Campo String → Bool
  | .valor s => env.validate col s
  | _ => true

/-- Validators of all the text columns on the values supplied. -/
def camposValidos (env : Env) (v : UsuarioData) : Bool :=
  campoValido env .nombre v.nombre && campoValido env .email v.email &&
  campoValido env .password v.password && campoValido env .telefono v.telefono &&
  campoValido env .rol v.rol && campoValido env .fecha_nacimiento v.fecha_nacimiento

/-- The row an insert of the values builds; `none` when a not-null column has no value. -/
def construir (env : Env) (id : Nat) (v : UsuarioData) : Option Usuario :=
  match v.nombre.aOpcion, v.email.aOpcion, v.password.aOpcion, v.activo.conDefecto true,
      v.rol.conDefecto "usuario", v.fecha_registro.conDefecto env.now with
  | some nombre, some email, some password, some activo, some rol, some fecha_registro =>
    some { id := id, nombre := nombre, email := email, password := password,
           telefono := v.telefono.aOpcion, fecha_nacimiento := v.fecha_nacimiento.aOpcion,
           activo := activo, rol := rol, fecha_registro := fecha_registro,
           ultima_actividad := v.ultima_actividad.aOpcion }
  | _, _, _, _, _, _ => none

/-- The row after an update has set the values supplied. -/
def aplicar (v : UsuarioData) (u : Usuario) : Usuario :=
  { id := u.id
    nombre := v.nombre.sobre u.nombre
    email := v.email.sobre u.email
    password := v.password.sobre u.password
    telefono := v.telefono.sobreOpcion u.telefono
    fecha_nacimiento := v.fecha_nacimiento.sobreOpcion u.fecha_nacimiento
    activo := v.activo.sobre u.activo
    rol := v.rol.sobre u.rol
    fecha_registro := v.fecha_registro.sobre u.fecha_registro
    ultima_actividad := v.ultima_actividad.sobreOpcion u.ultima_actividad }

/-- An update writes `null` to a not-null column. -/
def violaNotNull (v : UsuarioData) : Bool :=
  v.nombre == .null || v.email == .null || v.password == .null || v.activo == .null ||
  v.rol == .null || v.fecha_registro == .null

/-- An update of the rows with this id to the supplied email would break the unique
index on `email`. -/
def violaUnico {ι : Type} [Ident ι] (rows : List Usuario) (id : ι) : Campo String → Bool
  | .valor e =>
    rows.any (fun r => Ident.coincide id r.id) &&
      rows.any (fun r => !Ident.coincide id r.id && r.email == e)
  | _ => false

namespace Orm

/-- The not-null rules and the validators of the model accept an insert of the values. -/
def acepta (env : Env) (values : UsuarioData) : Bool :=
  (construir env 0 values).isSome && camposValidos env values

/-- `Usuario.create(values)`. -/
def create (env : Env) (values : UsuarioData) (db : Db) : Except ErrorJs Usuario × Db :=
  let db1 := db.registrar .create
  match construir env db.store.nextId values with
  | none => (.error .validationError, db1)
  | some u =>
    if !camposValidos env values then (.error .validationError, db1)
    else if db.store.rows.any (fun r => r.email == u.email) then
      (.error .uniqueConstraintError, db1)
    else
      (.ok u, { db1 with store := { rows := db.store.rows ++ [u],
                                    nextId := db.store.nextId + 1 } })

/-- `Usuario.findByPk(id)`. -/
def findByPk {ι : Type} [Ident ι] (id : ι) (db : Db) : Option Usuario × Db :=
  (db.store.rows.find? (fun r => Ident.coincide id r.id), db.registrar .findByPk)

/-- `Usuario.findOne({ where })`. -/
def findOne (where_ : Usuario → Bool) (db : Db) : Option Usuario × Db :=
  (db.store.rows.find? where_, db.registrar .findOne)

/-- `Usuario.count({ where })`. -/
def count (where_ : Usuario → Bool) (db : Db) : Nat × Db :=
  (db.store.rows.countP where_, db.registrar .count)

/-- Number of rows an update reports: SQLite counts the rows matched, MySQL (as the
ORM configures the connection) the rows whose content changed. -/
def affectedRows {ι : Type} [Ident ι] (motor : Motor) (values : UsuarioData) (id : ι)
    (rows : List Usuario) : Nat :=
  match motor with
  | .sqlite => rows.countP (fun r => Ident.coincide id r.id)
  | .mysql => rows.countP (fun r => Ident.coincide id r.id && aplicar values r != r)

/-- `Usuario.update(values, { where: { id } })`; the result is the number of
affected rows. -/
def update {ι : Type} [Ident ι] (env : Env) (values : UsuarioData) (id : ι) (db : Db) :
    Except ErrorJs Nat × Db :=
  let db1 := db.registrar .update
  if violaNotNull values || !camposValidos env values then (.error .validationError, db1)
  else if violaUnico db.store.rows id values.email then (.error .uniqueConstraintError, db1)
  else
    (.ok (affectedRows env.motor values id db.store.rows),
     { db1 with store := { db.store with
         rows := db.store.rows.map
           (fun r => if Ident.coincide id r.id then aplicar values r else r) } })

/-- `Usuario.destroy({ where: { id } })`; the result is the number of rows removed. -/
def destroy {ι : Type} [Ident ι] (id : ι) (db : Db) : Nat × Db :=
  (db.store.rows.countP (fun r => Ident.coincide id r.id),
   { (db.registrar .destroy) with store := { db.store with
       rows := db.store.rows.filter (fun r => !Ident.coincide id r.id) } })

end Orm

/-! ## Repository (`src/repositories/usuarioRepository.js`) -/

namespace UsuarioRepository

/-- `create(usuarioData)`. -/
def create (env : Env) (usuarioData : UsuarioData) (db : Db) : Except ErrorJs Usuario × Db :=
  Orm.create env usuarioData db

/-- `findById(id)`. -/
def findById {ι : Type} [Ident ι] (id : ι) (db : Db) : Option Usuario × Db :=
  Orm.findByPk id db

/-- `findByEmail(email)`. -/
def findByEmail (email : String) (db : Db) : Option Usuario × Db :=
  Orm.findOne (fun r => r.email == email) db

/-- `update(id, updateData)`: `null` when no row was affected, else the row read back. -/
def update {ι : Type} [Ident ι] (env : Env) (id : ι) (updateData : UsuarioData) (db : Db) :
    Except ErrorJs (Option Usuario) × Db :=
  match Orm.update env updateData id db with
  | (.error e, db1) => (.error e, db1)
  | (.ok affectedRows, db1) =>
    if affectedRows == 0 then (.ok none, db1)
    else
      let (usuarioActualizado, db2) := findById id db1
      (.ok usuarioActualizado, db2)

/-- `delete(id)`: the soft delete. -/
def delete {ι : Type} [Ident ι] (env : Env) (id : ι) (db : Db) : Except ErrorJs Bool × Db :=
  match Orm.update env { UsuarioData.vacio with activo := .valor false } id db with
  | (.error e, db1) => (.error e, db1)
  | (.ok affectedRows, db1) => (.ok (decide (affectedRows > 0)), db1)

/-- `destroy(id)`: the hard delete. -/
def destroy {ι : Type} [Ident ι] (id : ι) (db : Db) : Bool × Db :=
  let (affectedRows, db1) := Orm.destroy id db
  (decide (affectedRows > 0), db1)

/-- The operators of the ORM, as far as the repository uses them: the key `Op.ne`. -/
structure Operadores where
  ne : Unit
  deriving DecidableEq, Repr

/-- The property `Op` of the object that `databaseManager.getConnection()` returns. That
object is the connection, an instance of the class `Sequelize`; the operators are a
property of the class and not of its instances, so on the connection the property is
`undefined`. -/
def conexionOp : Option Operadores := none

/-- `emailExists(email, excludeId = null)`: no row equals a field that carries no
string. With a truthy `excludeId` the filter on `id` is built from
`getConnection().Op.ne`; reading `ne` of `undefined` raises a `TypeError` before any
query is made. -/
def emailExists {ι : Type} [Ident ι] (email : Campo String) (excludeId : Option ι) (db : Db) :
    Except ErrorJs Bool × Db :=
  let contar := fun (where_ : Usuario → Bool) =>
    let (count, db1) := Orm.count where_ db
    ((.ok (decide (count > 0)) : Except ErrorJs Bool), db1)
  match excludeId with
  | some id =>
    if !Ident.falsy id then
      match conexionOp with
      | none => (.error .typeError, db)
      | some _ => contar (fun r => Campo.valor r.email == email && !Ident.coincide id r.id)
    else contar (fun r => Campo.valor r.email == email)
  | none => contar (fun r => Campo.valor r.email == email)

/-- `updateLastActivity(id)`. -/
def updateLastActivity {ι : Type} [Ident ι] (env : Env) (id : ι) (db : Db) :
    Except ErrorJs Bool × Db :=
  match Orm.update env { UsuarioData.vacio with ultima_actividad := .valor env.now } id db with
  | (.error e, db1) => (.error e, db1)
  | (.ok affectedRows, db1) => (.ok (decide (affectedRows > 0)), db1)

end UsuarioRepository

/-! ## Service (`src/services/usuarioService.js`) -/

/-- The test `!id || isNaN(id)`. -/
def idInvalido {ι : Type} [Ident ι] (id : ι) : Bool := Ident.falsy id || Ident.esNaN id

/-- `hashPassword(password)`. -/
def hashPassword (env : Env) : Campo String → Except ErrorJs String
  | .valor password => .ok (env.hash password)
  | _ => .error .illegalArguments

/-- `verifyPassword(password, hashedPassword)`. -/
def verifyPassword (env : Env) (password hashedPassword : String) : Bool :=
  env.compare password hashedPassword

/-- The error `Datos inválidos: ...` built from the validation messages. -/
def datosInvalidos (validationErrors : List String) : ErrorJs :=
  .error ("Datos inválidos: " ++ ", ".intercalate validationErrors)

/-- The object `newUsuarioData` of `createUsuario`: the body spread, then `password`,
`fecha_registro` and `activo` overwritten. -/
def newUsuarioData (env : Env) (usuarioData : UsuarioData) (hashedPassword : String) :
    UsuarioData :=
  { usuarioData with
    password := .valor hashedPassword
    fecha_registro := .valor env.now
    activo := .valor true }

/-- `createUsuario(usuarioData)`. -/
def createUsuario (env : Env) (usuarioData : UsuarioData) (db : Db) :
    Except ErrorJs Usuario × Db :=
  let validationErrors := validateUsuarioData env usuarioData false
  if validationErrors.length > 0 then (.error (datosInvalidos validationErrors), db)
  else
    match UsuarioRepository.emailExists usuarioData.email (none : Option Nat) db with
    | (.error e, db1) => (.error e, db1)
    | (.ok true, db1) => (.error (.error "Ya existe un usuario con este email"), db1)
    | (.ok false, db1) =>
      match hashPassword env usuarioData.password with
      | .error e => (.error e, db1)
      | .ok hashedPassword =>
        UsuarioRepository.create env (newUsuarioData env usuarioData hashedPassword) db1

/-- `getUsuarioById(id)`. -/
def getUsuarioById {ι : Type} [Ident ι] (id : ι) (db : Db) : Except ErrorJs Usuario × Db :=
  if idInvalido id then (.error (.error "ID de usuario inválido"), db)
  else
    match UsuarioRepository.findById id db with
    | (none, db1) => (.error (.error "Usuario no encontrado"), db1)
    | (some usuario, db1) => (.ok usuario, db1)

/-- `updateUsuario(id, updateData)`. -/
def updateUsuario {ι : Type} [Ident ι] (env : Env) (id : ι) (updateData : UsuarioData)
    (db : Db) : Except ErrorJs (Option Usuario) × Db :=
  if idInvalido id then (.error (.error "ID de usuario inválido"), db)
  else
    match UsuarioRepository.findById id db with
    | (none, db1) => (.error (.error "Usuario no encontrado"), db1)
    | (some _, db1) =>
      let validationErrors := validateUsuarioData env updateData true
      if validationErrors.length > 0 then (.error (datosInvalidos validationErrors), db1)
      else
        match (if updateData.email.truthy then
            UsuarioRepository.emailExists updateData.email (some id) db1
          else (.ok false, db1)) with
        | (.error e, db2) => (.error e, db2)
        | (.ok true, db2) => (.error (.error "Ya existe un usuario con este email"), db2)
        | (.ok false, db2) =>
          if updateData.password.truthy then
            match hashPassword env updateData.password with
            | .error e => (.error e, db2)
            | .ok hashed =>
              UsuarioRepository.update env id { updateData with password := .valor hashed } db2
          else UsuarioRepository.update env id updateData db2

/-- `deleteUsuario(id)`: the soft delete; the result is the message. -/
def deleteUsuario {ι : Type} [Ident ι] (env : Env) (id : ι) (db : Db) :
    Except ErrorJs String × Db :=
  if idInvalido id then (.error (.error "ID de usuario inválido"), db)
  else
    match UsuarioRepository.findById id db with
    | (none, db1) => (.error (.error "Usuario no encontrado"), db1)
    | (some _, db1) =>
      match UsuarioRepository.delete env id db1 with
      | (.error e, db2) => (.error e, db2)
      | (.ok false, db2) => (.error (.error "No se pudo eliminar el usuario"), db2)
      | (.ok true, db2) => (.ok "Usuario eliminado correctamente", db2)

/-- `destroyUsuario(id)`: the hard delete; the result is the message. -/
def destroyUsuario {ι : Type} [Ident ι] (id : ι) (db : Db) : Except ErrorJs String × Db :=
  if idInvalido id then (.error (.error "ID de usuario inválido"), db)
  else
    match UsuarioRepository.destroy id db with
    | (false, db1) => (.error (.error "No se pudo eliminar el usuario permanentemente"), db1)
    | (true, db1) => (.ok "Usuario eliminado permanentemente", db1)

/-- What `toggleUsuarioStatus` returns. -/
structure ToggleResult where
  message : String
  usuario : Option Usuario
  deriving DecidableEq, Repr

/-- `toggleUsuarioStatus(id)`. -/
def toggleUsuarioStatus {ι : Type} [Ident ι] (env : Env) (id : ι) (db : Db) :
    Except ErrorJs ToggleResult × Db :=
  if idInvalido id then (.error (.error "ID de usuario inválido"), db)
  else
    match UsuarioRepository.findById id db with
    | (none, db1) => (.error (.error "Usuario no encontrado"), db1)
    | (some usuario, db1) =>
      let newStatus := !usuario.activo
      match UsuarioRepository.update env id
          { UsuarioData.vacio with activo := .valor newStatus } db1 with
      | (.error e, db2) => (.error e, db2)
      | (.ok usuarioActualizado, db2) =>
        (.ok { message := "Usuario " ++ (if newStatus then "activado" else "desactivado") ++
                 " correctamente",
               usuario := usuarioActualizado }, db2)

/-- `authenticateUsuario(email, password)`. -/
def authenticateUsuario (env : Env) (email password : String) (db : Db) :
    Except ErrorJs Usuario × Db :=
  if email == "" || password == "" then
    (.error (.error "Email y contraseña son requeridos"), db)
  else
    match UsuarioRepository.findByEmail email db with
    | (none, db1) => (.error (.error "Credenciales inválidas"), db1)
    | (some usuario, db1) =>
      if !usuario.activo then (.error (.error "Usuario inactivo"), db1)
      else if !verifyPassword env password usuario.password then
        (.error (.error "Credenciales inválidas"), db1)
      else
        match UsuarioRepository.updateLastActivity env usuario.id db1 with
        | (.error e, db2) => (.error e, db2)
        | (.ok _, db2) => (.ok usuario, db2)

/-! ## Sequences of calls and the constraints of the table -/

/-- A call on the service that can write to the table. -/
inductive Llamada (ι : Type) where
  | create (usuarioData : UsuarioData)
  | update (id : ι) (updateData : UsuarioData)
  | delete (id : ι)
  | destroy (id : ι)
  | toggle (id : ι)
  | authenticate (email password : String)

/-- The state after a call; its result, success or failure, is dropped. -/
def Llamada.ejecutar {ι : Type} [Ident ι] (env : Env) : Llamada ι → Db → Db
  | .create usuarioData, db => (createUsuario env usuarioData db).2
  | .update id updateData, db => (updateUsuario env id updateData db).2
  | .delete id, db => (deleteUsuario env id db).2
  | .destroy id, db => (destroyUsuario id db).2
  | .toggle id, db => (toggleUsuarioStatus env id db).2
  | .authenticate email password, db => (authenticateUsuario env email password db).2

/-- The state after a sequence of calls, each made in its own environment. -/
def ejecutarTodas {ι : Type} [Ident ι] : List (Env × Llamada ι) → Db → Db
  | [], db => db
  | (env, c) :: cs, db => ejecutarTodas cs (c.ejecutar env db)

/-- No two rows share an email. -/
def Store.EmailsUnicos (s : Store) : Prop := (s.rows.map (fun r => r.email)).Nodup

/-- The primary key with auto-increment: no two rows share an identifier and every
identifier is below the counter. -/
def Store.ClavePrimaria (s : Store) : Prop :=
  (s.rows.map (fun r => r.id)).Nodup ∧ ∀ r ∈ s.rows, r.id < s.nextId

instance (s : Store) : Decidable s.EmailsUnicos :=
  inferInstanceAs (Decidable (s.rows.map (fun r : Usuario => r.email)).Nodup)

instance (s : Store) : Decidable s.ClavePrimaria :=
  inferInstanceAs (Decidable ((s.rows.map (fun r : Usuario => r.id)).Nodup ∧
    ∀ r ∈ s.rows, r.id < s.nextId))

/-- The constraints the storage engine keeps on the table: the primary key and the
unique index on `email`. -/
def Store.Integra (s : Store) : Prop := s.ClavePrimaria ∧ s.EmailsUnicos

instance (s : Store) : Decidable s.Integra :=
  inferInstanceAs (Decidable (s.ClavePrimaria ∧ s.EmailsUnicos))

/-! ## Listing and statistics (`getAllUsuarios`, `findAll`, `getStats`) -/

/-- The object `whereClause` of `getAllUsuarios`: a key that is absent does not filter. -/
structure WhereClause where
  rol : Option String
  activo : Option Bool
  deriving DecidableEq, Repr

/-- A row satisfies the conjunction of the keys of a `whereClause`. -/
def WhereClause.cumple (w : WhereClause) (r : Usuario) : Bool :=
  (match w.rol with
   | some rol => r.rol == rol
   | none => true) &&
  (match w.activo with
   | some activo => r.activo == activo
   | none => true)

/-- The order `fecha_registro DESC`: the first row is not older than the second. -/
def masReciente (a b : Usuario) : Prop := b.fecha_registro ≤ a.fecha_registro

instance : DecidableRel masReciente := fun a b =>
  inferInstanceAs (Decidable (b.fecha_registro ≤ a.fecha_registro))

instance : IsTotal Usuario masReciente := ⟨fun a b => Nat.le_total b.fecha_registro a.fecha_registro⟩

instance : IsTrans Usuario masReciente := ⟨fun _ _ _ hab hbc => Nat.le_trans hbc hab⟩

/-- The rows that satisfy a `whereClause`, ordered by `fecha_registro DESC`; rows with the
same timestamp keep the order of the table. -/
def seleccionar (w : WhereClause) (rows : List Usuario) : List Usuario :=
  (rows.filter w.cumple).insertionSort masReciente

/-- The result of `findAll` of the repository. -/
structure Pagina where
  data : List Usuario
  total : Nat
  limit : Nat
  offset : Int
  deriving DecidableEq, Repr

namespace Orm

/-- `Usuario.findAndCountAll({ where, limit, offset, order: fecha_registro DESC })`:
the page and the number of rows that satisfy `where`. MySQL rejects a negative offset,
SQLite reads it as zero. -/
def findAndCountAll (motor : Motor) (where_ : WhereClause) (limit : Nat) (offset : Int)
    (db : Db) : Except ErrorJs (List Usuario × Nat) × Db :=
  let db1 := db.registrar .findAndCountAll
  if offset < 0 && motor == .mysql then (.error .databaseError, db1)
  else
    (.ok (((seleccionar where_ db.store.rows).drop offset.toNat).take limit,
          (db.store.rows.filter where_.cumple).length), db1)

/-- `Usuario.findAll` grouped by `rol` with `COUNT(id)`: one raw row per role that
occurs. -/
def countByRol (db : Db) : List (String × Nat) × Db :=
  (((db.store.rows.map (fun r => r.rol)).dedup).map
      (fun rol => (rol, db.store.rows.countP (fun r => r.rol == rol))),
   db.registrar .findAll)

end Orm

namespace UsuarioRepository

/-- `findAll({ limit, offset, where })`. -/
def findAll (env : Env) (limit : Nat) (offset : Int) (where_ : WhereClause) (db : Db) :
    Except ErrorJs Pagina × Db :=
  match Orm.findAndCountAll env.motor where_ limit offset db with
  | (.error e, db1) => (.error e, db1)
  | (.ok (rows, count), db1) =>
    (.ok { data := rows, total := count, limit := limit, offset := offset }, db1)

end UsuarioRepository

/-- What `getStats` returns; `porRol` is the object built from the groups, as its list of
keys and values. -/
structure Stats where
  total : Nat
  activos : Nat
  inactivos : Nat
  porRol : List (String × Nat)
  deriving DecidableEq, Repr

/-- The assignment `acc[key] = value` on an object. -/
def asignar (acc : List (String × Nat)) (key : String) (value : Nat) : List (String × Nat) :=
  if acc.any (fun p => p.1 == key) then
    acc.map (fun p => if p.1 == key then (key, value) else p)
  else acc ++ [(key, value)]

namespace UsuarioRepository

/-- `getStats()`: three counts, the grouped query, and the reduction of its rows into an
object. -/
def getStats (db : Db) : Stats × Db :=
  let (total, db1) := Orm.count (fun _ => true) db
  let (activos, db2) := Orm.count (fun r => r.activo == true) db1
  let (inactivos, db3) := Orm.count (fun r => r.activo == false) db2
  let (porRol, db4) := Orm.countByRol db3
  ({ total := total, activos := activos, inactivos := inactivos,
     porRol := porRol.foldl (fun acc item => asignar acc item.1 item.2) [] }, db4)

end UsuarioRepository

/-- The options of a listing: `page` and `limit` are the numbers `parseInt` reads. -/
structure ListOptions where
  page : Nat
  limit : Nat
  search : String
  rol : String
  activo : String
  deriving DecidableEq, Repr

/-- The `whereClause` that `getAllUsuarios` builds: `search` adds nothing to it. -/
def whereClauseDe (options : ListOptions) : WhereClause :=
  { rol := if options.rol != "" then some options.rol else none
    activo := if options.activo != "" then some (options.activo == "true") else none }

/-- `getAllUsuarios(options)`. -/
def getAllUsuarios (env : Env) (options : ListOptions) (db : Db) : Except ErrorJs Pagina × Db :=
  let whereClause := whereClauseDe options
  let offset : Int := ((options.page : Int) - 1) * (options.limit : Int)
  UsuarioRepository.findAll env options.limit offset whereClause db

/-- `getStats()` of the service. -/
def getStats (db : Db) : Except ErrorJs Stats × Db :=
  let (stats, db1) := UsuarioRepository.getStats db
  (.ok stats, db1)

/-- The name rule as the specification words it, `name length >= 2`: the rule is violated
when the name is missing (`undefined`, `null` or empty) or its length is below 2. -/
def nombreCortoSegunSpec : Campo String → Bool
  | .valor s => s == "" || decide (jsLength s < 2)
  | _ => true

/-- The shape `local@domain.tld` as the specification words it: no white space, exactly
one `@`, a non-empty part before it, and after it a part with a `.` that is neither its
first nor its last character. -/
def formaEmailSegunSpec (e : String) : Prop :=
  (∀ c ∈ e.data, jsWhiteSpace c = false) ∧
  e.data.count '@' = 1 ∧
  ∃ antes despues : List Char, e.data = antes ++ '@' :: despues ∧ antes ≠ [] ∧
    ∃ i, 0 < i ∧ i + 1 < despues.length ∧ despues[i]? = some '.'

/-- The validation rules of the specification, in the order the service checks them. -/
inductive Regla where
  | nombre
  | email
  | password
  | telefono
  | rol
  | fechaNacimiento
  deriving DecidableEq, Repr

/-- The message that reports a rule. -/
def Regla.mensaje : Regla → String
  | .nombre => "El nombre debe tener al menos 2 caracteres"
  | .email => "El email debe ser válido"
  | .password => "La contraseña debe tener al menos 6 caracteres"
  | .telefono => "El teléfono no puede tener más de 20 caracteres"
  | .rol => "El rol debe ser: admin, usuario o moderador"
  | .fechaNacimiento => "La fecha de nacimiento debe ser válida"

/-- A creation body violates a rule, as the specification words the rules. The name, the
email and the password are required: their rule is violated unless the field is a string
with, for the name, at least 2 characters once trimmed, for the email, the shape
`local@domain.tld`, for the password, at least 6 characters. The phone, the role and the
birth date are checked only when present (a non-empty string): the phone is violated by
more than 20 characters, the role by a value other than the three roles, the birth date
by a text that does not parse to a date. -/
def Regla.violadaSegunSpec (env : Env) (d : UsuarioData) : Regla → Prop
  | .nombre => ¬ ∃ s, d.nombre = .valor s ∧ 2 ≤ jsLength (jsTrim s)
  | .email => ¬ ∃ s, d.email = .valor s ∧ formaEmailSegunSpec s
  | .password => ¬ ∃ s, d.password = .valor s ∧ 6 ≤ jsLength s
  | .telefono => ∃ s, d.telefono = .valor s ∧ 20 < jsLength s
  | .rol => ∃ s, d.rol = .valor s ∧ s ≠ "" ∧ s ≠ "admin" ∧ s ≠ "usuario" ∧ s ≠ "moderador"
  | .fechaNacimiento => ∃ s, d.fecha_nacimiento = .valor s ∧ s ≠ "" ∧ env.parseDate s = none

/-! ## External representation (`toJSON`) and controller
(`src/controller/usuarioController.js`) -/

/-- A scalar value of a JSON document. -/
inductive JsValor where
  | null
  | bool (b : Bool)
  | num (n : Nat)
  | str (s : String)
  deriving DecidableEq, Repr

/-- A flat object: its keys with their values. -/
abbrev JsObjeto := List (String × JsValor)

/-- A nullable text column as a value. -/
def JsValor.deTexto : Option String → JsValor
  | some s => .str s
  | none => .null

/-- A nullable timestamp column as a value. -/
def JsValor.deFecha : Option Nat → JsValor
  | some n => .num n
  | none => .null

/-- The statement `delete values[key]`. -/
def borrar (key : String) (values : JsObjeto) : JsObjeto :=
  values.filter (fun p => p.1 != key)

/-- An instance of the model `Usuario`: its `dataValues`, the attributes it holds with
their values. -/
structure Instancia where
  dataValues : JsObjeto
  deriving DecidableEq, Repr

/-- `this.get()`: the values the instance holds. -/
def Instancia.get (i : Instancia) : JsObjeto := i.dataValues

/-- `Usuario.prototype.toJSON`: a copy of the values with `password` deleted. -/
def Instancia.toJSON (i : Instancia) : JsObjeto :=
  let values := i.get
  borrar "password" values

/-- The instance a query (`findByPk`, `findOne`, `findAndCountAll`) builds from a row of
the table: it holds every attribute of the model. -/
def Usuario.instancia (u : Usuario) : Instancia :=
  ⟨[("id", .num u.id), ("nombre", .str u.nombre), ("email", .str u.email),
    ("password", .str u.password), ("telefono", .deTexto u.telefono),
    ("fecha_nacimiento", .deTexto u.fecha_nacimiento), ("activo", .bool u.activo),
    ("rol", .str u.rol), ("fecha_registro", .num u.fecha_registro),
    ("ultima_actividad", .deFecha u.ultima_actividad)]⟩

/-- The object `this.get()` of an instance read from the table. -/
def Usuario.get (u : Usuario) : JsObjeto := u.instancia.get

/-- `toJSON` of an instance read from the table. -/
def Usuario.toJSON (u : Usuario) : JsObjeto := u.instancia.toJSON

/-- The values given to `Usuario.create` have the key. -/
def UsuarioData.tiene (values : UsuarioData) (key : String) : Bool :=
  (key == "nombre" && values.nombre.defined) || (key == "email" && values.email.defined) ||
  (key == "password" && values.password.defined) ||
  (key == "telefono" && values.telefono.defined) ||
  (key == "fecha_nacimiento" && values.fecha_nacimiento.defined) ||
  (key == "activo" && values.activo.defined) || (key == "rol" && values.rol.defined) ||
  (key == "fecha_registro" && values.fecha_registro.defined) ||
  (key == "ultima_actividad" && values.ultima_actividad.defined)

/-- The instance `Usuario.create(values)` returns for the row it has inserted: it holds the
keys of `values`, the identifier, and the attributes the model declares a default for
(`activo`, `rol`, `fecha_registro`); an attribute without default that `values` leaves out
is not in its `dataValues`. -/
def Usuario.instanciaCreada (values : UsuarioData) (u : Usuario) : Instancia :=
  ⟨u.instancia.dataValues.filter (fun p =>
      p.1 == "id" || p.1 == "activo" || p.1 == "rol" || p.1 == "fecha_registro" ||
        values.tiene p.1)⟩

/-- The value of `values[key]`; `none` when the object has no such key. -/
def JsObjeto.valor (o : JsObjeto) (key : String) : Option JsValor :=
  (o.find? (fun p => p.1 == key)).map (fun p => p.2)

/-- `String.prototype.includes`. -/
def jsIncludes (s searchString : String) : Bool := decide (searchString.data <:+: s.data)

/-- The object `pagination` of a listing; `totalPages` is `none` when the quotient is not
a finite number, which JSON writes as `null`. -/
structure Pagination where
  total : Nat
  page : Nat
  limit : Nat
  totalPages : Option Nat
  deriving DecidableEq, Repr

/-- The field `data` of a response body. -/
inductive Datos where
  | nulo
  | usuario (o : JsObjeto)
  | usuarios (l : List JsObjeto)
  | stats (s : Stats)
  deriving DecidableEq, Repr

/-- A response: the HTTP status code and the JSON body; an absent key is `none`. -/
structure Respuesta where
  code : Nat
  status : String
  message : String
  data : Option Datos
  pagination : Option Pagination
  error : Option String
  deriving DecidableEq, Repr

/-- What the process supplies to the controller: `NODE_ENV` and the text of the message
of an error raised by a library. -/
structure Proceso where
  nodeEnv : Option String
  mensajeLib : ErrorJs → String

/-- The test `process.env.NODE_ENV === 'development'`. -/
def Proceso.desarrollo (proc : Proceso) : Bool := proc.nodeEnv == some "development"

/-- The property `error.message`. -/
def Proceso.mensaje (proc : Proceso) : ErrorJs → String
  | .error message => message
  | e => proc.mensajeLib e

/-- The answer `res.status(code).json({ status: 'error', message: error.message })`. -/
def errorCliente (code : Nat) (message : String) : Respuesta :=
  { code := code, status := "error", message := message, data := none, pagination := none,
    error := none }

/-- The answer 500: the message of the error is in the body in development only. -/
def errorInterno (desarrollo : Bool) (message : String) : Respuesta :=
  { code := 500, status := "error", message := "Error interno del servidor", data := none,
    pagination := none, error := if desarrollo then some message else none }

/-- A successful answer. -/
def exito (code : Nat) (message : String) (data : Option Datos) (pagination : Option Pagination) :
    Respuesta :=
  { code := code, status := "success", message := message, data := data,
    pagination := pagination, error := none }

/-- The value of `data` for an entity read from the table that may be `null`. -/
def Datos.deUsuario : Option Usuario → Datos
  | some u => .usuario u.toJSON
  | none => .nulo

namespace Controller

/-- The `catch` block of the handler `createUsuario`. -/
def catchCreateUsuario (desarrollo : Bool) (message : String) : Respuesta :=
  if jsIncludes message "Ya existe un usuario con este email" then errorCliente 409 message
  else if jsIncludes message "Datos inválidos" then errorCliente 400 message
  else errorInterno desarrollo message

/-- The `catch` block of the handlers `getAllUsuarios` and `getStats`. -/
def catchSinReglas (desarrollo : Bool) (message : String) : Respuesta :=
  errorInterno desarrollo message

/-- The `catch` block of the handlers `getUsuarioById`, `deleteUsuario` and
`toggleUsuarioStatus`. -/
def catchPorId (desarrollo : Bool) (message : String) : Respuesta :=
  if jsIncludes message "ID de usuario inválido" then errorCliente 400 message
  else if jsIncludes message "Usuario no encontrado" then errorCliente 404 message
  else errorInterno desarrollo message

/-- The `catch` block of the handler `updateUsuario`. -/
def catchUpdateUsuario (desarrollo : Bool) (message : String) : Respuesta :=
  if jsIncludes message "ID de usuario inválido" then errorCliente 400 message
  else if jsIncludes message "Usuario no encontrado" then errorCliente 404 message
  else if jsIncludes message "Ya existe un usuario con este email" then errorCliente 409 message
  else if jsIncludes message "Datos inválidos" then errorCliente 400 message
  else errorInterno desarrollo message

/-- The `catch` block of the handler `destroyUsuario`. -/
def catchDestroyUsuario (desarrollo : Bool) (message : String) : Respuesta :=
  if jsIncludes message "ID de usuario inválido" then errorCliente 400 message
  else errorInterno desarrollo message

/-- The `catch` block of the handler `authenticateUsuario`. -/
def catchAuthenticateUsuario (desarrollo : Bool) (message : String) : Respuesta :=
  if jsIncludes message "Email y contraseña son requeridos" ||
      jsIncludes message "Email inválido" ||
      jsIncludes message "Credenciales inválidas" ||
      jsIncludes message "Usuario inactivo" then errorCliente 401 message
  else errorInterno desarrollo message

/-- A handler on the outcome of the service call it awaits: the answer of its `try` block
to a result, of its `catch` block to an error, by `error.message`. -/
def responder {α : Type} (proc : Proceso) (exitoDe : α → Respuesta)
    (catch_ : Bool → String → Respuesta) (resultado : Except ErrorJs α × Db) : Respuesta × Db :=
  match resultado with
  | (.ok a, db1) => (exitoDe a, db1)
  | (.error e, db1) => (catch_ proc.desarrollo (proc.mensaje e), db1)

/-- The handler `createUsuario` on the outcome of `usuarioService.createUsuario`. The
entity it serialises is the instance `Usuario.create` returned, whose values were
`newUsuarioData` with the hash that the row carries. -/
def responderCreateUsuario (proc : Proceso) (env : Env) (body : UsuarioData) :
    Except ErrorJs Usuario × Db → Respuesta × Db :=
  responder proc
    (fun usuario => exito 201 "Usuario creado correctamente"
      (some (.usuario
        (usuario.instanciaCreada (newUsuarioData env body usuario.password)).toJSON)) none)
    catchCreateUsuario

/-- The handler `createUsuario`. -/
def createUsuario (proc : Proceso) (env : Env) (body : UsuarioData) (db : Db) : Respuesta × Db :=
  responderCreateUsuario proc env body (BossBudget.createUsuario env body db)

/-- The value `Math.ceil(total / limit)`. -/
def totalPages (total limit : Nat) : Option Nat :=
  if limit = 0 then none else some ((total + limit - 1) / limit)

/-- The handler `getAllUsuarios` on the outcome of `usuarioService.getAllUsuarios`. -/
def responderGetAllUsuarios (proc : Proceso) (options : ListOptions) :
    Except ErrorJs Pagina × Db → Respuesta × Db :=
  responder proc
    (fun result => exito 200 "Usuarios obtenidos correctamente"
      (some (.usuarios (result.data.map Usuario.toJSON)))
      (some { total := result.total, page := options.page, limit := options.limit,
              totalPages := totalPages result.total options.limit }))
    catchSinReglas

/-- The handler `getAllUsuarios`, on the options read from the query. -/
def getAllUsuarios (proc : Proceso) (env : Env) (options : ListOptions) (db : Db) :
    Respuesta × Db :=
  responderGetAllUsuarios proc options (BossBudget.getAllUsuarios env options db)

/-- The handler `getUsuarioById` on the outcome of `usuarioService.getUsuarioById`. -/
def responderGetUsuarioById (proc : Proceso) : Except ErrorJs Usuario × Db → Respuesta × Db :=
  responder proc
    (fun usuario => exito 200 "Usuario obtenido correctamente" (some (.usuario usuario.toJSON))
      none)
    catchPorId

/-- The handler `getUsuarioById`; `id` is `req.params.id`, passed on as it is. -/
def getUsuarioById {ι : Type} [Ident ι] (proc : Proceso) (id : ι) (db : Db) : Respuesta × Db :=
  responderGetUsuarioById proc (BossBudget.getUsuarioById id db)

/-- The handler `updateUsuario` on the outcome of `usuarioService.updateUsuario`. -/
def responderUpdateUsuario (proc : Proceso) :
    Except ErrorJs (Option Usuario) × Db → Respuesta × Db :=
  responder proc
    (fun usuario => exito 200 "Usuario actualizado correctamente"
      (some (Datos.deUsuario usuario)) none)
    catchUpdateUsuario

/-- The handler `updateUsuario`. -/
def updateUsuario {ι : Type} [Ident ι] (proc : Proceso) (env : Env) (id : ι)
    (body : UsuarioData) (db : Db) : Respuesta × Db :=
  responderUpdateUsuario proc (BossBudget.updateUsuario env id body db)

/-- The handler `deleteUsuario` on the outcome of `usuarioService.deleteUsuario`. -/
def responderDeleteUsuario (proc : Proceso) : Except ErrorJs String × Db → Respuesta × Db :=
  responder proc (fun message => exito 200 message none none) catchPorId

/-- The handler `deleteUsuario`. -/
def deleteUsuario {ι : Type} [Ident ι] (proc : Proceso) (env : Env) (id : ι) (db : Db) :
    Respuesta × Db :=
  responderDeleteUsuario proc (BossBudget.deleteUsuario env id db)

/-- The handler `destroyUsuario` on the outcome of `usuarioService.destroyUsuario`. -/
def responderDestroyUsuario (proc : Proceso) : Except ErrorJs String × Db → Respuesta × Db :=
  responder proc (fun message => exito 200 message none none) catchDestroyUsuario

/-- The handler `destroyUsuario`. -/
def destroyUsuario {ι : Type} [Ident ι] (proc : Proceso) (id : ι) (db : Db) : Respuesta × Db :=
  responderDestroyUsuario proc (BossBudget.destroyUsuario id db)

/-- The handler `toggleUsuarioStatus` on the outcome of
`usuarioService.toggleUsuarioStatus`. -/
def responderToggleUsuarioStatus (proc : Proceso) :
    Except ErrorJs ToggleResult × Db → Respuesta × Db :=
  responder proc
    (fun result => exito 200 result.message (some (Datos.deUsuario result.usuario)) none)
    catchPorId

/-- The handler `toggleUsuarioStatus`. -/
def toggleUsuarioStatus {ι : Type} [Ident ι] (proc : Proceso) (env : Env) (id : ι) (db : Db) :
    Respuesta × Db :=
  responderToggleUsuarioStatus proc (BossBudget.toggleUsuarioStatus env id db)

/-- The handler `getStats` on the outcome of `usuarioService.getStats`. -/
def responderGetStats (proc : Proceso) : Except ErrorJs Stats × Db → Respuesta × Db :=
  responder proc
    (fun stats => exito 200 "Estadísticas obtenidas correctamente" (some (.stats stats)) none)
    catchSinReglas

/-- The handler `getStats`. -/
def getStats (proc : Proceso) (db : Db) : Respuesta × Db :=
  responderGetStats proc (BossBudget.getStats db)

/-- The handler `authenticateUsuario` on the outcome of
`usuarioService.authenticateUsuario`. -/
def responderAuthenticateUsuario (proc : Proceso) :
    Except ErrorJs Usuario × Db → Respuesta × Db :=
  responder proc
    (fun usuario => exito 200 "Autenticación exitosa" (some (.usuario usuario.toJSON)) none)
    catchAuthenticateUsuario

/-- The handler `authenticateUsuario`; a field of the body that is `undefined` or `null`
is as falsy for the service as the empty string. -/
def authenticateUsuario (proc : Proceso) (env : Env) (email password : Campo String) (db : Db) :
    Respuesta × Db :=
  responderAuthenticateUsuario proc
    (BossBudget.authenticateUsuario env (email.sobre "") (password.sobre "") db)

end Controller

/-- A message carries none of the texts the controller looks for. -/
def sinPatron (message : String) : Bool :=
  !(jsIncludes message "Datos inválidos" ||
    jsIncludes message "Ya existe un usuario con este email" ||
    jsIncludes message "Usuario no encontrado" ||
    jsIncludes message "ID de usuario inválido" ||
    jsIncludes message "Email y contraseña son requeridos" ||
    jsIncludes message "Email inválido" ||
    jsIncludes message "Credenciales inválidas" ||
    jsIncludes message "Usuario inactivo")

/-- The HTTP status the specification gives to an error, by the content of its message:
validation 400, duplicate email 409, not found 404, invalid id 400, the four
authentication failures 401, anything else 500. -/
def estadoSegunSpec (message : String) : Nat :=
  if jsIncludes message "Datos inválidos" then 400
  else if jsIncludes message "Ya existe un usuario con este email" then 409
  else if jsIncludes message "Usuario no encontrado" then 404
  else if jsIncludes message "ID de usuario inválido" then 400
  else if jsIncludes message "Email y contraseña son requeridos" ||
      jsIncludes message "Email inválido" ||
      jsIncludes message "Credenciales inválidas" ||
      jsIncludes message "Usuario inactivo" then 401
  else 500

/-- The response the specification gives to an error: the status by the message; below
500 the body carries the message of the error, at 500 it carries it in development
only. -/
def respuestaSegunSpec (desarrollo : Bool) (message : String) : Respuesta :=
  if estadoSegunSpec message = 500 then errorInterno desarrollo message
  else errorCliente (estadoSegunSpec message) message

/-! ## Database manager (`src/config/database.js`) and readiness wait of the repository -/

/-- The object `models`: the models defined on a connection. -/
structure Modelos where
  conexion : Option Motor
  deriving DecidableEq, Repr

/-- The fields of the manager; `sequelize` is the connection object, by engine. -/
structure DatabaseManager where
  sequelize : Option Motor
  models : Option Modelos
  isConnected : Bool
  deriving DecidableEq, Repr

/-- The manager as its constructor leaves it. -/
def DatabaseManager.nuevo : DatabaseManager :=
  { sequelize := none, models := none, isConnected := false }

/-- Outcome of opening one engine: of `new Sequelize(...)` and of `authenticate()`, each
`ok` or the error raised. -/
structure Apertura where
  construir : Except String Unit
  autenticar : Except String Unit

/-- Outcomes of the library calls of one start: opening MySQL, opening SQLite,
`initModels` and `sync`. -/
structure Arranque where
  mysql : Apertura
  sqlite : Apertura
  initModels : Except String Unit
  sync : Except String Unit

/-- Steps of a start that reach the storage. -/
inductive Paso where
  | conectarMysql
  | conectarSqlite
  | sincronizar
  deriving DecidableEq, Repr

namespace DatabaseManager

/-- The `try` block of `init`: open MySQL. -/
def conectarMysql (a : Arranque) (dm : DatabaseManager) : Except String Unit × DatabaseManager :=
  match a.mysql.construir with
  | .error e => (.error e, dm)
  | .ok _ =>
    let dm1 := { dm with sequelize := some .mysql }
    match a.mysql.autenticar with
    | .error e => (.error e, dm1)
    | .ok _ => (.ok (), { dm1 with isConnected := true })

/-- `setupSQLite()`: an error is logged and thrown again. -/
def setupSQLite (a : Arranque) (dm : DatabaseManager) : Except String Unit × DatabaseManager :=
  match a.sqlite.construir with
  | .error e => (.error e, dm)
  | .ok _ =>
    let dm1 := { dm with sequelize := some .sqlite }
    match a.sqlite.autenticar with
    | .error e => (.error e, dm1)
    | .ok _ => (.ok (), { dm1 with isConnected := true })

/-- `setupModels()`: an error is logged and thrown again. -/
def setupModels (a : Arranque) (dm : DatabaseManager) : Except String Unit × DatabaseManager :=
  match a.initModels with
  | .error e => (.error e, dm)
  | .ok _ =>
    let dm1 := { dm with models := some ⟨dm.sequelize⟩ }
    match a.sync with
    | .error e => (.error e, dm1)
    | .ok _ => (.ok (), dm1)

/-- `init()`: the result, the manager afterwards and the steps taken, in order. -/
def init (a : Arranque) (dm : DatabaseManager) :
    Except String Unit × DatabaseManager × List Paso :=
  match conectarMysql a dm with
  | (.ok _, dm1) =>
    let (r, dm2) := setupModels a dm1
    (r, dm2, [.conectarMysql, .sincronizar])
  | (.error _, dm1) =>
    match setupSQLite a dm1 with
    | (.error e, dm2) => (.error e, dm2, [.conectarMysql, .conectarSqlite])
    | (.ok _, dm2) =>
      let (r, dm3) := setupModels a dm2
      (r, dm3, [.conectarMysql, .conectarSqlite, .sincronizar])

/-- `getConnection()`. -/
def getConnection (dm : DatabaseManager) : Except ErrorJs (Option Motor) :=
  if !dm.isConnected then .error (.error "La base de datos no está conectada")
  else .ok dm.sequelize

/-- `getModels()`. -/
def getModels (dm : DatabaseManager) : Except ErrorJs Modelos :=
  match dm.models with
  | none => .error (.error "Los modelos no han sido inicializados")
  | some models => .ok models

/-- `close()`, given the outcome of `sequelize.close()`. -/
def close (cierre : Except String Unit) (dm : DatabaseManager) :
    Except String Unit × DatabaseManager :=
  match dm.sequelize with
  | some _ =>
    match cierre with
    | .error e => (.error e, dm)
    | .ok _ => (.ok (), { dm with isConnected := false })
  | none => (.ok (), dm)

end DatabaseManager

/-- The fields of the repository. -/
structure RepoState where
  Usuario : Option Modelos
  initialized : Bool
  deriving DecidableEq, Repr

/-- How a run of `init` of the repository ends; `sinCombustible` is a run cut short by the
bound on the number of iterations of the embedding. -/
inductive Salida where
  | retorna
  | lanza (e : ErrorJs)
  | sinCombustible
  deriving DecidableEq, Repr

/-- A run of `init` of the repository: how it ends, the repository afterwards, the number
of calls of `getModels` and the number of waits of 500 ms. -/
structure InitRun where
  salida : Salida
  repo : RepoState
  llamadas : Nat
  esperas : Nat
  deriving DecidableEq, Repr

namespace UsuarioRepository

/-- The constant `maxAttempts` of `init`. -/
def maxAttempts : Nat := 10

/-- The loop `while (attempts < maxAttempts)` of `init`; `estados k` is the manager at the
call of `getModels` number `k`. -/
def initBucle (estados : Nat → DatabaseManager) :
    Nat → Nat → Nat → Nat → RepoState → InitRun
  | 0, _, llamadas, esperas, repo => ⟨.sinCombustible, repo, llamadas, esperas⟩
  | fuel + 1, attempts, llamadas, esperas, repo =>
    if attempts < maxAttempts then
      match DatabaseManager.getModels (estados llamadas) with
      | .ok models =>
        ⟨.retorna, { Usuario := some models, initialized := true }, llamadas + 1, esperas⟩
      | .error error =>
        let attempts := attempts + 1
        if attempts ≥ maxAttempts then ⟨.lanza error, repo, llamadas + 1, esperas⟩
        else initBucle estados fuel attempts (llamadas + 1) (esperas + 1) repo
    else ⟨.retorna, repo, llamadas, esperas⟩

/-- `init()` of the repository, run for at most `fuel` iterations of its loop. -/
def init (estados : Nat → DatabaseManager) (fuel : Nat) (repo : RepoState) : InitRun :=
  if repo.initialized then ⟨.retorna, repo, 0, 0⟩
  else initBucle estados fuel 0 0 0 repo

end UsuarioRepository

/-- The outcome of a connect as the specification speaks of it: the first error of
constructing the connection and authenticating. -/
def Apertura.resultado (ap : Apertura) : Except String Unit :=
  match ap.construir with
  | .error e => .error e
  | .ok _ => ap.autenticar

/-- The outcome of the schema sync as the specification speaks of it: the first error of
building the models and synchronizing them. -/
def Arranque.esquema (a : Arranque) : Except String Unit :=
  match a.initModels with
  | .error e => .error e
  | .ok _ => a.sync

/-- The result of `init` as the specification words it: a failure of the primary engine is
not an error but leads to the fallback; a failure of the fallback is the error of `init`;
after a connection the outcome of the schema sync is the result. -/
def initSegunSpec (a : Arranque) : Except String Unit :=
  match a.mysql.resultado with
  | .ok _ => a.esquema
  | .error _ =>
    match a.sqlite.resultado with
    | .error e => .error e
    | .ok _ => a.esquema

/-- The steps of a start as the specification words them: the fallback only after a
failure of the primary engine, the schema sync only after a connection. -/
def pasosSegunSpec (a : Arranque) : List Paso :=
  match a.mysql.resultado with
  | .ok _ => [.conectarMysql, .sincronizar]
  | .error _ =>
    match a.sqlite.resultado with
    | .error _ => [.conectarMysql, .conectarSqlite]
    | .ok _ => [.conectarMysql, .conectarSqlite, .sincronizar]

/-- The engine a start ends connected to, if any. -/
def motorSegunSpec (a : Arranque) : Option Motor :=
  match a.mysql.resultado with
  | .ok _ => some .mysql
  | .error _ =>
    match a.sqlite.resultado with
    | .error _ => none
    | .ok _ => some .sqlite

deriving instance DecidableEq for Except

/-! ## Concrete data used by the witnesses and counterexamples -/

/-- An environment: clock at 1000, a hash that tags the password, MySQL. -/
def envEjemplo : Env :=
  { now := 1000
    hash := fun p => "$2a$10$" ++ p
    compare := fun p h => h == "$2a$10$" ++ p
    parseDate := fun s => if s == "2000-01-01" then some 946684800 else none
    validate := fun _ _ => true
    motor := .mysql }

/-- An active user. -/
def anaActiva : Usuario :=
  { id := 1, nombre := "Ana Gomez", email := "ana@x.com", password := "$2a$10$secret1",
    telefono := none, fecha_nacimiento := none, activo := true, rol := "usuario",
    fecha_registro := 500, ultima_actividad := none }

/-- The same user after a soft delete. -/
def anaInactiva : Usuario := { anaActiva with activo := false }

/-- A table that holds the active user only. -/
def dbActiva : Db := ⟨⟨[anaActiva], 2⟩, []⟩

/-- A table that holds the soft-deleted user only. -/
def dbInactiva : Db := ⟨⟨[anaInactiva], 2⟩, []⟩

/-- The body of the creation example of the specification. -/
def altaAna : UsuarioData :=
  { UsuarioData.vacio with
    nombre := .valor "Ana Gomez", email := .valor "ana@x.com", password := .valor "secret1" }

/-- The same body with values for the two fields the service overwrites. -/
def altaAnaForzada : UsuarioData :=
  { altaAna with activo := .valor false, fecha_registro := .valor 7 }

/-- The empty table. -/
def dbVacia : Db := ⟨⟨[], 1⟩, []⟩

/-- A second active user. -/
def luis : Usuario :=
  { id := 2, nombre := "Luis Paz", email := "luis@x.com", password := "$2a$10$secret2",
    telefono := none, fecha_nacimiento := none, activo := true, rol := "admin",
    fecha_registro := 600, ultima_actividad := none }

/-- A table with two users. -/
def dbDos : Db := ⟨⟨[anaActiva, luis], 3⟩, []⟩

/-- The user number `i` of a table filled for the pagination example. -/
def usuarioNumero (i : Nat) : Usuario :=
  { id := i + 1, nombre := "Usuario", email := String.mk (List.replicate (i + 1) 'u') ++ "@x.com",
    password := "$2a$10$secret1", telefono := none, fecha_nacimiento := none,
    activo := i % 2 == 0, rol := if i % 3 == 0 then "admin" else "usuario",
    fecha_registro := 100 + i, ultima_actividad := none }

/-- A table with fifteen users. -/
def dbQuince : Db := ⟨⟨(List.range 15).map usuarioNumero, 16⟩, []⟩

/-- The listing options `page = 2`, `limit = 10` and no filter. -/
def paginaDos : ListOptions := { page := 2, limit := 10, search := "", rol := "", activo := "" }

/-- Messages of the errors of the libraries and the runtime, as an example. -/
def mensajeEjemplo : ErrorJs → String
  | .error message => message
  | .validationError => "Validation error"
  | .uniqueConstraintError => "Validation error"
  | .illegalArguments => "Illegal arguments: undefined, string"
  | .databaseError => "SQLITE_ERROR: no such table: usuarios"
  | .typeError => "Cannot read properties of undefined (reading 'ne')"

/-- A process in production. -/
def procEjemplo : Proceso := { nodeEnv := some "production", mensajeLib := mensajeEjemplo }

/-- A process in development. -/
def procDesarrollo : Proceso := { nodeEnv := some "development", mensajeLib := mensajeEjemplo }

/-- The route parameter `1`, which the storage compares equal to the key 1. -/
def rutaUno : IdRuta := ⟨"1", some 1⟩

/-- The route parameter `2`. -/
def rutaDos : IdRuta := ⟨"2", some 2⟩

/-- The route parameter `0`: a numeral, and the key of no row. -/
def rutaCero : IdRuta := ⟨"0", some 0⟩

/-- The route parameter `99`. -/
def rutaAusente : IdRuta := ⟨"99", some 99⟩

/-- The route parameter `abc`: no numeral, and equal to no key. -/
def rutaTexto : IdRuta := ⟨"abc", none⟩

/-- The listing of the first hundred inactive administrators, with a search text. -/
def soloAdminInactivos : ListOptions :=
  { page := 1, limit := 100, search := "ana", rol := "admin", activo := "false" }

/-- A manager connected to SQLite with its models. -/
def gestorListo : DatabaseManager :=
  { sequelize := some .sqlite, models := some ⟨some .sqlite⟩, isConnected := true }

/-- A manager that is ready from the fourth call of `getModels` on. -/
def estadosEjemplo : Nat → DatabaseManager :=
  fun k => if k < 3 then DatabaseManager.nuevo else gestorListo

/-- A start where MySQL refuses the connection and everything else goes well. -/
def arranqueSinMysql : Arranque :=
  { mysql := ⟨.ok (), .error "connect ECONNREFUSED 127.0.0.1:3306"⟩
    sqlite := ⟨.ok (), .ok ()⟩
    initModels := .ok ()
    sync := .ok () }

/-- A creation body whose name is one letter followed by a blank. -/
def altaNombreConBlanco : UsuarioData := { altaAna with nombre := .valor "A " }

/-- A sequence of calls with route parameters as identifiers: a creation, a
change of name, a toggle, a soft delete, an authentication, a hard delete, and two
updates that carry an email. -/
def llamadasEjemplo : List (Env × Llamada IdRuta) :=
  [(envEjemplo, .create { altaAna with email := .valor "eva@x.com" }),
   (envEjemplo, .update rutaUno { UsuarioData.vacio with email := .valor "luis@x.com" }),
   (envEjemplo, .update rutaDos { UsuarioData.vacio with nombre := .valor "Lucho Paz" }),
   (envEjemplo, .update rutaDos { UsuarioData.vacio with email := .valor "lucho@x.com" }),
   (envEjemplo, .toggle rutaUno), (envEjemplo, .delete rutaDos),
   (envEjemplo, .authenticate "eva@x.com" "secret1"), (envEjemplo, .destroy rutaUno)]

/-! # Theorems -/

/-! ## The argument `id` -/

/-- The number `0` is the falsy one. -/
@[simp]
theorem Ident.falsy_nat (n : Nat) : Ident.falsy n = (n == 0) := rfl

/-- A natural number is not `NaN`. -/
@[simp]
theorem Ident.esNaN_nat (n : Nat) : Ident.esNaN n = false := rfl

/-- A number equals the key of its own value. -/
@[simp]
theorem Ident.coincide_nat (n k : Nat) : Ident.coincide n k = (k == n) := rfl

/-- On a number the test `!id || isNaN(id)` is `id = 0`. -/
@[simp]
theorem idInvalido_nat (n : Nat) : idInvalido n = (n == 0) := by
  simp [idInvalido]

/-- The empty route parameter is the falsy one. -/
@[simp]
theorem Ident.falsy_ruta (p : IdRuta) : Ident.falsy p = (p.texto == "") := rfl

/-- `isNaN` of a route parameter: its text is not a numeral. -/
@[simp]
theorem Ident.esNaN_ruta (p : IdRuta) : Ident.esNaN p = !esNumeral p.texto := rfl

/-- A route parameter equals the key the storage takes its text for. -/
@[simp]
theorem Ident.coincide_ruta (p : IdRuta) (k : Nat) :
    Ident.coincide p k = (p.clave == some k) := rfl

/-- An identifier that passes the test `!id || isNaN(id)` is truthy. -/
theorem falsy_of_valido {ι : Type} [Ident ι] {id : ι} (h : idInvalido id = false) :
    Ident.falsy id = false := by
  simp only [idInvalido, Bool.or_eq_false_iff] at h
  exact h.1

/-- A route parameter fails the test `!id || isNaN(id)` exactly when its text is empty or
is not a numeral. -/
theorem idInvalido_ruta_iff (p : IdRuta) :
    idInvalido p = true ↔ p.texto = "" ∨ esNumeral p.texto = false := by
  simp [idInvalido]

/-- The numerals of `Number`: decimal digits with an optional sign, fraction and
exponent, `Infinity`, the binary, octal and hexadecimal integers, white space around
them, and the text without a literal; anything else is `NaN`. -/
theorem esNumeral_ejemplos :
    esNumeral "1" = true ∧ esNumeral "0" = true ∧ esNumeral "007" = true ∧
    esNumeral " 7 " = true ∧ esNumeral "-3" = true ∧ esNumeral "1.5" = true ∧
    esNumeral ".5" = true ∧ esNumeral "5." = true ∧ esNumeral "1e3" = true ∧
    esNumeral "Infinity" = true ∧ esNumeral "0x1F" = true ∧ esNumeral "0b101" = true ∧
    esNumeral "0o17" = true ∧ esNumeral " " = true ∧
    esNumeral "abc" = false ∧ esNumeral "12px" = false ∧ esNumeral "1 2" = false ∧
    esNumeral "1e" = false ∧ esNumeral "." = false ∧ esNumeral "+" = false ∧
    esNumeral "-0x1F" = false ∧ esNumeral "0o8" = false ∧ esNumeral "1_000" = false ∧
    esNumeral "NaN" = false ∧ esNumeral "undefined" = false := by
  decide

/-! ## The email pattern -/

/-- The remainders after a match of `[^\s@]+` are the suffixes that a non-empty run of
characters of the class precedes. -/
theorem mem_restosClase {cs r : List Char} :
    r ∈ restosClase cs ↔
      ∃ pre, pre ≠ [] ∧ cs = pre ++ r ∧ ∀ c ∈ pre, claseEmail c = true := by
  induction cs with
  | nil =>
    simp only [restosClase, List.not_mem_nil, false_iff, not_exists, not_and]
    intro pre hpre h
    cases pre with
    | nil => exact absurd rfl hpre
    | cons p pre => simp at h
  | cons c cs ih =>
    unfold restosClase
    by_cases hc : claseEmail c = true
    · simp only [hc, ↓reduceIte, List.mem_cons]
      constructor
      · rintro (h | h)
        · exact ⟨[c], by simp, by simp [h], by simpa using hc⟩
        · obtain ⟨pre, hpre, heq, hall⟩ := ih.mp h
          refine ⟨c :: pre, by simp, by simp [heq], ?_⟩
          intro x hx
          rcases List.mem_cons.mp hx with hx | hx
          · rw [hx]; exact hc
          · exact hall x hx
      · rintro ⟨pre, hpre, heq, hall⟩
        cases pre with
        | nil => exact absurd rfl hpre
        | cons p pre =>
          simp only [List.cons_append, List.cons.injEq] at heq
          cases pre with
          | nil => exact Or.inl (by simpa using heq.2.symm)
          | cons q pre =>
            right
            exact ih.mpr ⟨q :: pre, by simp, heq.2,
              fun x hx => hall x (List.mem_cons_of_mem _ hx)⟩
    · simp only [hc, Bool.false_eq_true, ↓reduceIte, List.not_mem_nil, false_iff, not_exists,
        not_and]
      intro pre hpre heq hall
      cases pre with
      | nil => exact absurd rfl hpre
      | cons p pre =>
        simp only [List.cons_append, List.cons.injEq] at heq
        exact hc (heq.1 ▸ hall p (List.mem_cons_self _ _))

/-- `isValidEmail` accepts exactly the strings made of a run of the class, an `@`, a run
of the class, a `.` and a run of the class, each run non-empty. -/
theorem isValidEmail_iff_runs (e : String) :
    isValidEmail e = true ↔
      ∃ a b c : List Char, a ≠ [] ∧ b ≠ [] ∧ c ≠ [] ∧
        (∀ x ∈ a, claseEmail x = true) ∧ (∀ x ∈ b, claseEmail x = true) ∧
        (∀ x ∈ c, claseEmail x = true) ∧ e.data = a ++ '@' :: (b ++ '.' :: c) := by
  unfold isValidEmail
  simp only [List.any_eq_true]
  constructor
  · rintro ⟨r1, hr1, h1⟩
    obtain ⟨a, ha, hea, haall⟩ := mem_restosClase.mp hr1
    split at h1
    · rename_i r2
      simp only [List.any_eq_true] at h1
      obtain ⟨r3, hr3, h3⟩ := h1
      obtain ⟨b, hb, heb, hball⟩ := mem_restosClase.mp hr3
      split at h3
      · rename_i r4
        simp only [List.any_eq_true, List.isEmpty_iff] at h3
        obtain ⟨r5, hr5, h5⟩ := h3
        obtain ⟨c, hc, hec, hcall⟩ := mem_restosClase.mp hr5
        subst h5
        refine ⟨a, b, c, ha, hb, hc, haall, hball, hcall, ?_⟩
        rw [hea, heb, hec]
        simp
      · simp at h3
    · simp at h1
  · rintro ⟨a, b, c, ha, hb, hc, haall, hball, hcall, he⟩
    refine ⟨'@' :: (b ++ '.' :: c), mem_restosClase.mpr ⟨a, ha, he, haall⟩, ?_⟩
    simp only [List.any_eq_true]
    refine ⟨'.' :: c, mem_restosClase.mpr ⟨b, hb, rfl, hball⟩, ?_⟩
    simp only [List.any_eq_true, List.isEmpty_iff]
    exact ⟨[], mem_restosClase.mpr ⟨c, hc, by simp, hcall⟩, rfl⟩

/-- A character is of the class `[^\s@]` when it is neither white space nor `@`. -/
theorem claseEmail_iff (x : Char) :
    claseEmail x = true ↔ jsWhiteSpace x = false ∧ x ≠ '@' := by
  simp [claseEmail]

/-- The shape `local@domain.tld` as the specification words it is the shape of three
non-empty runs of the class around an `@` and a `.`. -/
theorem forma_iff_runs (e : String) :
    (∃ a b c : List Char, a ≠ [] ∧ b ≠ [] ∧ c ≠ [] ∧
        (∀ x ∈ a, claseEmail x = true) ∧ (∀ x ∈ b, claseEmail x = true) ∧
        (∀ x ∈ c, claseEmail x = true) ∧ e.data = a ++ '@' :: (b ++ '.' :: c)) ↔
      formaEmailSegunSpec e := by
  constructor
  · rintro ⟨a, b, c, ha, hb, hc, haall, hball, hcall, he⟩
    have hnota : ∀ l : List Char, (∀ x ∈ l, claseEmail x = true) → l.count '@' = 0 := by
      intro l hl
      rw [List.count_eq_zero]
      intro hmem
      exact ((claseEmail_iff _).mp (hl _ hmem)).2 rfl
    refine ⟨?_, ?_, a, b ++ '.' :: c, he, ha, b.length, ?_, ?_, ?_⟩
    · intro x hx
      rw [he] at hx
      simp only [List.mem_append, List.mem_cons] at hx
      rcases hx with hx | hx | hx | hx | hx
      · exact ((claseEmail_iff _).mp (haall x hx)).1
      · rw [hx]; decide
      · exact ((claseEmail_iff _).mp (hball x hx)).1
      · rw [hx]; decide
      · exact ((claseEmail_iff _).mp (hcall x hx)).1
    · rw [he]
      simp [List.count_append, List.count_cons, hnota a haall, hnota b hball, hnota c hcall]
    · exact List.length_pos.mpr hb
    · have := List.length_pos.mpr hc
      simp only [List.length_append, List.length_cons]
      omega
    · rw [List.getElem?_append_right (Nat.le_refl _)]
      simp
  · rintro ⟨hws, hcount, antes, despues, he, hantes, i, hi0, hi1, hdot⟩
    rw [he] at hcount hws
    simp only [List.count_append, List.count_cons, beq_self_eq_true, ↓reduceIte] at hcount
    have hc1 : antes.count '@' = 0 := by omega
    have hc2 : despues.count '@' = 0 := by omega
    rw [List.count_eq_zero] at hc1 hc2
    have hlt : i < despues.length := by omega
    have hget : despues[i] = '.' := by
      have := List.getElem?_eq_getElem hlt
      rw [this] at hdot
      exact Option.some.inj hdot
    have hsplit : despues = despues.take i ++ '.' :: despues.drop (i + 1) := by
      conv_lhs => rw [← List.take_append_drop i despues, List.drop_eq_getElem_cons hlt, hget]
    have hclase : ∀ l : List Char, (∀ x ∈ l, x ∈ antes ++ '@' :: despues) → '@' ∉ l →
        ∀ x ∈ l, claseEmail x = true := by
      intro l hsub hno x hx
      exact (claseEmail_iff x).mpr ⟨hws x (hsub x hx), fun h => hno (h ▸ hx)⟩
    refine ⟨antes, despues.take i, despues.drop (i + 1), hantes, ?_, ?_, ?_, ?_, ?_, ?_⟩
    · intro h
      have := congrArg List.length h
      simp only [List.length_take, List.length_nil] at this
      omega
    · intro h
      have := congrArg List.length h
      simp only [List.length_drop, List.length_nil] at this
      omega
    · exact hclase antes (fun x hx => List.mem_append_left _ hx) hc1
    · exact hclase _ (fun x hx => List.mem_append_right _
        (List.mem_cons_of_mem _ (List.mem_of_mem_take hx)))
        (fun h => hc2 (List.mem_of_mem_take h))
    · exact hclase _ (fun x hx => List.mem_append_right _
        (List.mem_cons_of_mem _ (List.mem_of_mem_drop hx)))
        (fun h => hc2 (List.mem_of_mem_drop h))
    · rw [he, ← hsplit]

/-! ## The service reads an identifier through the three tests only -/

/-- Two values passed as `id`, of whatever types, that answer the tests `!id` and
`isNaN(id)` alike and that the storage compares equal to the same keys, are served
alike: every call of the service that takes an identifier returns the same result and
leaves the same state for both. What is proved of a number as identifier holds of the
route parameter that reads as that number. -/
theorem servicio_por_lectura {ι κ : Type} [Ident ι] [Ident κ] (a : ι) (b : κ)
    (hf : Ident.falsy a = Ident.falsy b) (hn : Ident.esNaN a = Ident.esNaN b)
    (hc : ∀ k, Ident.coincide a k = Ident.coincide b k) (env : Env) (d : UsuarioData)
    (db : Db) :
    getUsuarioById a db = getUsuarioById b db ∧
    updateUsuario env a d db = updateUsuario env b d db ∧
    deleteUsuario env a db = deleteUsuario env b db ∧
    destroyUsuario a db = destroyUsuario b db ∧
    toggleUsuarioStatus env a db = toggleUsuarioStatus env b db := by
  refine ⟨?_, ?_, ?_, ?_, ?_⟩
  · simp only [getUsuarioById, idInvalido, UsuarioRepository.findById, Orm.findByPk, hf, hn, hc]
  · simp only [updateUsuario, idInvalido, UsuarioRepository.findById, Orm.findByPk,
      UsuarioRepository.emailExists, UsuarioRepository.update, Orm.update, Orm.affectedRows,
      violaUnico, hf, hn, hc]
  · simp only [deleteUsuario, idInvalido, UsuarioRepository.findById, Orm.findByPk,
      UsuarioRepository.delete, Orm.update, Orm.affectedRows, violaUnico, hf, hn, hc]
  · simp only [destroyUsuario, idInvalido, UsuarioRepository.destroy, Orm.destroy, hf, hn, hc]
  · simp only [toggleUsuarioStatus, idInvalido, UsuarioRepository.findById, Orm.findByPk,
      UsuarioRepository.update, Orm.update, Orm.affectedRows, violaUnico, hf, hn, hc]

/-- A route parameter whose text is a non-empty numeral and that the storage takes for
the key `n`, other than zero, is served as the number `n` is. -/
theorem ruta_como_numero (p : IdRuta) (n : Nat) (hn0 : n ≠ 0) (htexto : p.texto ≠ "")
    (hnum : esNumeral p.texto = true) (hclave : p.clave = some n) (env : Env)
    (d : UsuarioData) (db : Db) :
    getUsuarioById p db = getUsuarioById n db ∧
    updateUsuario env p d db = updateUsuario env n d db ∧
    deleteUsuario env p db = deleteUsuario env n db ∧
    destroyUsuario p db = destroyUsuario n db ∧
    toggleUsuarioStatus env p db = toggleUsuarioStatus env n db := by
  apply servicio_por_lectura
  · simp [htexto, hn0]
  · simp [hnum]
  · intro k
    simp only [Ident.coincide_ruta, Ident.coincide_nat, hclave]
    by_cases h : k = n
    · simp [h]
    · have h2 : ¬ n = k := fun h3 => h h3.symm
      simp [h, h2]

/-! ## Authentication -/

/-- The row `findOne` returns for an email is the first row of the table that has it. -/
theorem find_email_of_split {rows antes despues : List Usuario} {u : Usuario} {email : String}
    (hrows : rows = antes ++ u :: despues) (hantes : ∀ r ∈ antes, r.email ≠ email)
    (hue : u.email = email) :
    rows.find? (fun r => r.email == email) = some u := by
  rw [List.find?_eq_some]
  refine ⟨by simp [hue], antes, despues, hrows, ?_⟩
  intro a ha
  simp [hantes a ha]

/-- When `findOne` returns a row for an email, it is the first row of the table that has
the email. -/
theorem split_of_find_email {rows : List Usuario} {u : Usuario} {email : String}
    (h : rows.find? (fun r => r.email == email) = some u) :
    ∃ antes despues, rows = antes ++ u :: despues ∧ (∀ r ∈ antes, r.email ≠ email) ∧
      u.email = email := by
  rw [List.find?_eq_some] at h
  obtain ⟨hu, antes, despues, hrows, hantes⟩ := h
  refine ⟨antes, despues, hrows, ?_, by simpa using hu⟩
  intro r hr
  simpa using hantes r hr

/-- No row is returned for an email that no row has. -/
theorem find_email_none {rows : List Usuario} {email : String}
    (h : ∀ r ∈ rows, r.email ≠ email) : rows.find? (fun r => r.email == email) = none := by
  rw [List.find?_eq_none]
  intro r hr
  simp [h r hr]

/-- C1 (as stated, refuted): the table `dbInactiva` holds one user, soft-deleted, with the
email `ana@x.com`, and `wrong` does not verify against her hash; the call with her email
and that password is answered `Usuario inactivo`, while an email that no row has is
answered `Credenciales inválidas`: the two messages differ. -/
theorem authenticate_inactive_wrong_password_differs :
    dbInactiva.store.rows = [anaInactiva] ∧ anaInactiva.email = "ana@x.com" ∧
    anaInactiva.activo = false ∧
    envEjemplo.compare "wrong" anaInactiva.password = false ∧
    (∀ r ∈ dbInactiva.store.rows, r.email ≠ "nadie@x.com") ∧
    (authenticateUsuario envEjemplo "ana@x.com" "wrong" dbInactiva).1 =
      .error (.error "Usuario inactivo") ∧
    (authenticateUsuario envEjemplo "nadie@x.com" "wrong" dbInactiva).1 =
      .error (.error "Credenciales inválidas") ∧
    (authenticateUsuario envEjemplo "ana@x.com" "wrong" dbInactiva).1 ≠
      (authenticateUsuario envEjemplo "nadie@x.com" "wrong" dbInactiva).1 := by
  decide

/-- C1 (amended): let `u` be the user of the table with the email (the first row that has
it, the only one when emails are unique), and let the password, non-empty, not verify
against the hash of `u` (`bcrypt.compare` answers false). If `u` is ACTIVE the call fails
with `Credenciales inválidas`, the very error of a call with an email that no row has,
whatever the password and the environment of that call. If `u` is inactive the call fails
with `Usuario inactivo` instead, and it does so for every non-empty password. -/
theorem authenticate_wrong_password_uniform (env env2 : Env) (db : Db)
    (email password otro password2 : String) (antes despues : List Usuario) (u : Usuario)
    (he : email ≠ "") (hp : password ≠ "")
    (hrows : db.store.rows = antes ++ u :: despues)
    (hantes : ∀ r ∈ antes, r.email ≠ email) (hue : u.email = email)
    (hbad : env.compare password u.password = false)
    (ho : otro ≠ "") (hp2 : password2 ≠ "")
    (hno : ∀ r ∈ db.store.rows, r.email ≠ otro) :
    (authenticateUsuario env2 otro password2 db).1 =
      .error (.error "Credenciales inválidas") ∧
    (u.activo = true →
      (authenticateUsuario env email password db).1 =
        .error (.error "Credenciales inválidas") ∧
      (authenticateUsuario env email password db).1 =
        (authenticateUsuario env2 otro password2 db).1) ∧
    (u.activo = false →
      (authenticateUsuario env email password db).1 = .error (.error "Usuario inactivo") ∧
      ∀ (env3 : Env) (password3 : String), password3 ≠ "" →
        (authenticateUsuario env3 email password3 db).1 =
          .error (.error "Usuario inactivo")) := by
  have hu := find_email_of_split hrows hantes hue
  have hn := find_email_none hno
  have h1 : (authenticateUsuario env2 otro password2 db).1 =
      .error (.error "Credenciales inválidas") := by
    simp [authenticateUsuario, UsuarioRepository.findByEmail, Orm.findOne, ho, hp2, hn]
  refine ⟨h1, ?_, ?_⟩
  · intro hact
    have h2 : (authenticateUsuario env email password db).1 =
        .error (.error "Credenciales inválidas") := by
      simp [authenticateUsuario, UsuarioRepository.findByEmail, Orm.findOne, he, hp, hu, hact,
        verifyPassword, hbad]
    exact ⟨h2, h2.trans h1.symm⟩
  · intro hact
    have h3 : ∀ (env3 : Env) (password3 : String), password3 ≠ "" →
        (authenticateUsuario env3 email password3 db).1 =
          .error (.error "Usuario inactivo") := by
      intro env3 password3 hp3
      simp [authenticateUsuario, UsuarioRepository.findByEmail, Orm.findOne, he, hp3, hu, hact]
    exact ⟨h3 env password hp, h3⟩

/-- Witness of C1 (amended): the active user of `dbActiva` and the soft-deleted user of
`dbInactiva`, a wrong password, and an email that no row has. -/
theorem authenticate_wrong_password_uniform_witness :
    ((authenticateUsuario envEjemplo "ana@x.com" "wrong" dbActiva).1 =
        .error (.error "Credenciales inválidas") ∧
      (authenticateUsuario envEjemplo "ana@x.com" "wrong" dbActiva).1 =
        (authenticateUsuario envEjemplo "nadie@x.com" "x" dbActiva).1) ∧
    (authenticateUsuario envEjemplo "ana@x.com" "wrong" dbInactiva).1 =
      .error (.error "Usuario inactivo") ∧
    (authenticateUsuario envEjemplo "ana@x.com" "secret1" dbInactiva).1 =
      .error (.error "Usuario inactivo") :=
  ⟨(authenticate_wrong_password_uniform envEjemplo envEjemplo dbActiva "ana@x.com" "wrong"
      "nadie@x.com" "x" [] [] anaActiva (by decide) (by decide) rfl (by decide) (by decide)
      (by decide) (by decide) (by decide) (by decide)).2.1 (by decide),
   ((authenticate_wrong_password_uniform envEjemplo envEjemplo dbInactiva "ana@x.com" "wrong"
      "nadie@x.com" "x" [] [] anaInactiva (by decide) (by decide) rfl (by decide) (by decide)
      (by decide) (by decide) (by decide) (by decide)).2.2 (by decide)).1,
   ((authenticate_wrong_password_uniform envEjemplo envEjemplo dbInactiva "ana@x.com" "wrong"
      "nadie@x.com" "x" [] [] anaInactiva (by decide) (by decide) rfl (by decide) (by decide)
      (by decide) (by decide) (by decide) (by decide)).2.2 (by decide)).2 envEjemplo "secret1"
      (by decide)⟩

/-- Rows of a table whose identifiers are pairwise distinct are determined by their
identifier. -/
theorem eq_of_id_eq {rows : List Usuario} (hn : (rows.map (fun r => r.id)).Nodup)
    {r u : Usuario} (hr : r ∈ rows) (hu : u ∈ rows) (h : r.id = u.id) : r = u :=
  List.inj_on_of_nodup_map hn hr hu h

/-- The update of `updateLastActivity` is never rejected and sets `ultima_actividad`
of the rows with the identifier. -/
theorem updateLastActivity_eq (env : Env) (id : Nat) (db : Db) :
    ∃ b, UsuarioRepository.updateLastActivity env id db =
      (.ok b, { store := { rows := db.store.rows.map (fun r =>
                    if r.id = id then { r with ultima_actividad := some env.now } else r),
                           nextId := db.store.nextId },
                log := db.log ++ [.update] }) := by
  refine ⟨decide (Orm.affectedRows env.motor
    { UsuarioData.vacio with ultima_actividad := .valor env.now } id db.store.rows > 0), ?_⟩
  simp [UsuarioRepository.updateLastActivity, Orm.update, violaNotNull, camposValidos,
    campoValido, violaUnico, UsuarioData.vacio, Db.registrar, aplicar, Campo.sobre,
    Campo.sobreOpcion]

/-- C2: `authenticateUsuario` succeeds exactly when email and password are non-empty, a
user with that email exists in the table (`u` is the first row that has it), `u` has
`activo = true`, and `bcrypt.compare` accepts the password against the hash stored for
`u`; when emails are unique in the table, `u` is any row with the email. On success the
result is that user, and the table afterwards is the table before with `ultima_actividad`
of the rows carrying its identifier set to the current time (with distinct identifiers:
of that user alone) and nothing else changed. With an empty email or password the call
fails with `Email y contraseña son requeridos` and the state, log of storage calls
included, is untouched. -/
theorem authenticate_success_iff (env : Env) (email password : String) (db : Db) :
    ((∃ u, (authenticateUsuario env email password db).1 = .ok u) ↔
      email ≠ "" ∧ password ≠ "" ∧
      ∃ antes u despues, db.store.rows = antes ++ u :: despues ∧
        (∀ r ∈ antes, r.email ≠ email) ∧ u.email = email ∧ u.activo = true ∧
        env.compare password u.password = true) ∧
    (db.store.EmailsUnicos →
      ((∃ u, (authenticateUsuario env email password db).1 = .ok u) ↔
        email ≠ "" ∧ password ≠ "" ∧
        ∃ u ∈ db.store.rows, u.email = email ∧ u.activo = true ∧
          env.compare password u.password = true)) ∧
    (∀ u, (authenticateUsuario env email password db).1 = .ok u →
      u ∈ db.store.rows ∧ u.email = email ∧ u.activo = true ∧
      env.compare password u.password = true ∧
      (authenticateUsuario env email password db).2.store.nextId = db.store.nextId ∧
      (authenticateUsuario env email password db).2.store.rows =
        db.store.rows.map (fun r =>
          if r.id = u.id then { r with ultima_actividad := some env.now } else r) ∧
      ((db.store.rows.map (fun r => r.id)).Nodup →
        (authenticateUsuario env email password db).2.store.rows =
          db.store.rows.map (fun r =>
            if r = u then { u with ultima_actividad := some env.now } else r))) ∧
    (email = "" ∨ password = "" →
      authenticateUsuario env email password db =
        (.error (.error "Email y contraseña son requeridos"), db)) := by
  have hcode : (∃ u, (authenticateUsuario env email password db).1 = .ok u) ↔
      email ≠ "" ∧ password ≠ "" ∧
      ∃ u, db.store.rows.find? (fun r => r.email == email) = some u ∧ u.activo = true ∧
        env.compare password u.password = true := by
    by_cases he : email = ""
    · simp [authenticateUsuario, he]
    by_cases hp : password = ""
    · simp [authenticateUsuario, hp]
    cases hf : db.store.rows.find? (fun r => r.email == email) with
    | none => simp [authenticateUsuario, UsuarioRepository.findByEmail, Orm.findOne, he, hp, hf]
    | some u =>
      obtain ⟨b, hb⟩ := updateLastActivity_eq env u.id (db.registrar .findOne)
      simp only [Db.registrar] at hb
      cases ha : u.activo <;> cases hv : env.compare password u.password <;>
        simp [authenticateUsuario, UsuarioRepository.findByEmail, Orm.findOne, he, hp, hf, ha,
          verifyPassword, hv, hb, Db.registrar]
  have hfirst : (∃ u, (authenticateUsuario env email password db).1 = .ok u) ↔
      email ≠ "" ∧ password ≠ "" ∧
      ∃ antes u despues, db.store.rows = antes ++ u :: despues ∧
        (∀ r ∈ antes, r.email ≠ email) ∧ u.email = email ∧ u.activo = true ∧
        env.compare password u.password = true := by
    rw [hcode]
    constructor
    · rintro ⟨he, hp, u, hf, ha, hv⟩
      obtain ⟨antes, despues, hrows, hantes, hue⟩ := split_of_find_email hf
      exact ⟨he, hp, antes, u, despues, hrows, hantes, hue, ha, hv⟩
    · rintro ⟨he, hp, antes, u, despues, hrows, hantes, hue, ha, hv⟩
      exact ⟨he, hp, u, find_email_of_split hrows hantes hue, ha, hv⟩
  refine ⟨hfirst, ?_, ?_, ?_⟩
  · intro huniq
    rw [hcode]
    constructor
    · rintro ⟨he, hp, u, hf, ha, hv⟩
      exact ⟨he, hp, u, List.mem_of_find?_eq_some hf, by simpa using List.find?_some hf, ha, hv⟩
    · rintro ⟨he, hp, u, hmem, hue, ha, hv⟩
      refine ⟨he, hp, u, ?_, ha, hv⟩
      cases hf : db.store.rows.find? (fun r => r.email == email) with
      | none =>
        rw [List.find?_eq_none] at hf
        exact absurd (by simpa using hue) (hf u hmem)
      | some w =>
        have hwmem : w ∈ db.store.rows := List.mem_of_find?_eq_some hf
        have hwe : w.email = email := by simpa using List.find?_some hf
        have : w = u := List.inj_on_of_nodup_map huniq hwmem hmem (by rw [hwe, hue])
        rw [this]
  · intro u hu
    by_cases he : email = ""
    · simp [authenticateUsuario, he] at hu
    by_cases hp : password = ""
    · simp [authenticateUsuario, hp] at hu
    cases hf : db.store.rows.find? (fun r => r.email == email) with
    | none =>
      simp [authenticateUsuario, UsuarioRepository.findByEmail, Orm.findOne, he, hp, hf] at hu
    | some w =>
      obtain ⟨b, hb⟩ := updateLastActivity_eq env w.id (db.registrar .findOne)
      simp only [Db.registrar] at hb
      cases ha : w.activo <;> cases hv : env.compare password w.password <;>
        simp [authenticateUsuario, UsuarioRepository.findByEmail, Orm.findOne, he, hp, hf, ha,
          verifyPassword, hv, hb, Db.registrar] at hu
      subst hu
      have hmem : w ∈ db.store.rows := List.mem_of_find?_eq_some hf
      have hwe : w.email = email := by simpa using List.find?_some hf
      refine ⟨hmem, hwe, ha, hv, ?_, ?_, ?_⟩
      · simp [authenticateUsuario, UsuarioRepository.findByEmail, Orm.findOne, he, hp, hf, ha,
          verifyPassword, hv, hb, Db.registrar]
      · simp [authenticateUsuario, UsuarioRepository.findByEmail, Orm.findOne, he, hp, hf, ha,
          verifyPassword, hv, hb, Db.registrar]
      · intro hn
        simp only [authenticateUsuario, UsuarioRepository.findByEmail, Orm.findOne]
        simp [he, hp, hf, ha, verifyPassword, hv, hb, Db.registrar]
        intro r hr
        by_cases hrw : r = w
        · simp [hrw, ha]
        · have : r.id ≠ w.id := fun h => hrw (eq_of_id_eq hn hr hmem h)
          simp [hrw, this]
  · intro h
    rcases h with h | h <;> simp [authenticateUsuario, h]

/-- Witness of C2: the active user of `dbActiva` authenticates with her password, and an
empty password is refused without a storage call. -/
theorem authenticate_success_iff_witness :
    (∃ u, (authenticateUsuario envEjemplo "ana@x.com" "secret1" dbActiva).1 = .ok u) ∧
    authenticateUsuario envEjemplo "ana@x.com" "" dbActiva =
      (.error (.error "Email y contraseña son requeridos"), dbActiva) :=
  ⟨(authenticate_success_iff envEjemplo "ana@x.com" "secret1" dbActiva).1.2
      ⟨by decide, by decide, [], anaActiva, [], rfl, by decide, by decide, by decide,
        by decide⟩,
   (authenticate_success_iff envEjemplo "ana@x.com" "" dbActiva).2.2.2 (Or.inr rfl)⟩

/-! ## Validation -/

/-- The six rules in the order the service checks them: the condition under which a rule
is reported and its message. -/
theorem validateUsuarioData_eq (env : Env) (d : UsuarioData) (isUpdate : Bool) :
    validateUsuarioData env d isUpdate =
      (([((!isUpdate || d.nombre.defined) && nombreInvalido d.nombre, msgNombre),
         ((!isUpdate || d.email.defined) && emailInvalido d.email, msgEmail),
         ((!isUpdate || d.password.defined) && passwordInvalido d.password, msgPassword),
         (telefonoInvalido d.telefono, msgTelefono),
         (rolInvalido d.rol, msgRol),
         (fechaInvalida env d.fecha_nacimiento, msgFecha)].filter (fun p => p.1)).map
        (fun p => p.2)) := by
  simp only [validateUsuarioData, pushSi]
  cases (!isUpdate || d.nombre.defined) && nombreInvalido d.nombre <;>
  cases (!isUpdate || d.email.defined) && emailInvalido d.email <;>
  cases (!isUpdate || d.password.defined) && passwordInvalido d.password <;>
  cases telefonoInvalido d.telefono <;>
  cases rolInvalido d.rol <;>
  cases fechaInvalida env d.fecha_nacimiento <;> rfl

/-- A message is in the list of the reported rules exactly when its own rule is
reported. -/
theorem mem_reported (c1 c2 c3 c4 c5 c6 : Bool) :
    let l := (([(c1, msgNombre), (c2, msgEmail), (c3, msgPassword), (c4, msgTelefono),
      (c5, msgRol), (c6, msgFecha)].filter (fun p => p.1)).map (fun p => p.2))
    (msgNombre ∈ l ↔ c1 = true) ∧ (msgEmail ∈ l ↔ c2 = true) ∧
    (msgPassword ∈ l ↔ c3 = true) ∧ (msgTelefono ∈ l ↔ c4 = true) ∧
    (msgRol ∈ l ↔ c5 = true) ∧ (msgFecha ∈ l ↔ c6 = true) := by
  revert c1 c2 c3 c4 c5 c6
  decide

/-- The conflict message is not a validation error. -/
theorem conflicto_ne_datosInvalidos (m : String) :
    "Ya existe un usuario con este email" ≠ "Datos inválidos: " ++ m := by
  intro h
  have h2 := congrArg String.data h
  rw [String.data_append] at h2
  exact absurd h2 (by simp)

/-- What `Usuario.create` returns is a row or an error of the ORM, never an error of the
service. -/
theorem Orm.create_ne_error (env : Env) (v : UsuarioData) (db : Db) (m : String) :
    (Orm.create env v db).1 ≠ .error (.error m) := by
  unfold Orm.create
  cases construir env db.store.nextId v with
  | none => simp
  | some u =>
    by_cases h1 : camposValidos env v = true
    · by_cases h2 : (db.store.rows.any fun r => r.email == u.email) = true
      · simp [h1, h2]
      · simp [h1, h2]
    · simp [h1]

/-- The condition the service tests for the name is the name rule. -/
theorem nombreInvalido_iff (env : Env) (d : UsuarioData) :
    nombreInvalido d.nombre = true ↔ Regla.violadaSegunSpec env d .nombre := by
  simp only [Regla.violadaSegunSpec]
  cases h : d.nombre with
  | undefined => simp [nombreInvalido]
  | null => simp [nombreInvalido]
  | valor s =>
    simp only [nombreInvalido, Bool.or_eq_true, beq_iff_eq, decide_eq_true_eq, Campo.valor.injEq,
      exists_eq_left', not_le]
    constructor
    · rintro (h1 | h1)
      · rw [h1]; decide
      · exact h1
    · exact Or.inr

/-- The condition the service tests for the email is the email rule. -/
theorem emailInvalido_iff (env : Env) (d : UsuarioData) :
    emailInvalido d.email = true ↔ Regla.violadaSegunSpec env d .email := by
  simp only [Regla.violadaSegunSpec]
  cases h : d.email with
  | undefined => simp [emailInvalido]
  | null => simp [emailInvalido]
  | valor s =>
    have hforma : isValidEmail s = true ↔ formaEmailSegunSpec s :=
      (isValidEmail_iff_runs s).trans (forma_iff_runs s)
    simp only [emailInvalido, Bool.or_eq_true, beq_iff_eq, Bool.not_eq_true', Campo.valor.injEq,
      exists_eq_left', ← hforma, Bool.not_eq_true]
    constructor
    · rintro (h1 | h1)
      · rw [h1]; decide
      · exact h1
    · exact Or.inr

/-- The condition the service tests for the password is the password rule. -/
theorem passwordInvalido_iff (env : Env) (d : UsuarioData) :
    passwordInvalido d.password = true ↔ Regla.violadaSegunSpec env d .password := by
  simp only [Regla.violadaSegunSpec]
  cases h : d.password with
  | undefined => simp [passwordInvalido]
  | null => simp [passwordInvalido]
  | valor s =>
    simp only [passwordInvalido, Bool.or_eq_true, beq_iff_eq, decide_eq_true_eq,
      Campo.valor.injEq, exists_eq_left', not_le]
    constructor
    · rintro (h1 | h1)
      · rw [h1]; decide
      · exact h1
    · exact Or.inr

/-- The condition the service tests for the phone is the phone rule. -/
theorem telefonoInvalido_iff (env : Env) (d : UsuarioData) :
    telefonoInvalido d.telefono = true ↔ Regla.violadaSegunSpec env d .telefono := by
  simp only [Regla.violadaSegunSpec]
  cases h : d.telefono with
  | undefined => simp [telefonoInvalido]
  | null => simp [telefonoInvalido]
  | valor s =>
    simp only [telefonoInvalido, Bool.and_eq_true, bne_iff_ne, ne_eq, decide_eq_true_eq,
      Campo.valor.injEq, exists_eq_left', gt_iff_lt]
    constructor
    · exact fun h1 => h1.2
    · intro h1
      refine ⟨?_, h1⟩
      intro h0
      rw [h0] at h1
      exact absurd h1 (by decide)

/-- The condition the service tests for the role is the role rule. -/
theorem rolInvalido_iff (env : Env) (d : UsuarioData) :
    rolInvalido d.rol = true ↔ Regla.violadaSegunSpec env d .rol := by
  simp only [Regla.violadaSegunSpec]
  cases h : d.rol with
  | undefined => simp [rolInvalido]
  | null => simp [rolInvalido]
  | valor s =>
    simp [rolInvalido]

/-- The condition the service tests for the birth date is the birth date rule. -/
theorem fechaInvalida_iff (env : Env) (d : UsuarioData) :
    fechaInvalida env d.fecha_nacimiento = true ↔
      Regla.violadaSegunSpec env d .fechaNacimiento := by
  simp only [Regla.violadaSegunSpec]
  cases h : d.fecha_nacimiento with
  | undefined => simp [fechaInvalida]
  | null => simp [fechaInvalida]
  | valor s =>
    simp [fechaInvalida, isValidDate]

/-- C3: on creation `validateUsuarioData` returns one message for each violated rule, not
only the first. A rule's message is in the list exactly when the body violates the rule
(a required name, email or password that is missing or too short or ill-formed; a phone,
role or birth date that is present and out of its bounds); the messages come in the
fixed order name, email, password, phone, role, birth date, each at most once; and
`createUsuario` fails with the one error `Datos inválidos: ` followed by those messages
joined with `, `, state untouched, exactly when the list is non-empty: with an empty list
it raises no `Datos inválidos` error. -/
theorem create_reports_all_violations (env : Env) (d : UsuarioData) (db : Db) :
    (∀ regla : Regla,
      regla.mensaje ∈ validateUsuarioData env d false ↔ regla.violadaSegunSpec env d) ∧
    (validateUsuarioData env d false).Sublist
      [Regla.nombre.mensaje, Regla.email.mensaje, Regla.password.mensaje,
       Regla.telefono.mensaje, Regla.rol.mensaje, Regla.fechaNacimiento.mensaje] ∧
    (validateUsuarioData env d false ≠ [] ↔ ∃ regla : Regla, regla.violadaSegunSpec env d) ∧
    (validateUsuarioData env d false ≠ [] →
      createUsuario env d db =
        (.error (.error ("Datos inválidos: " ++
          ", ".intercalate (validateUsuarioData env d false))), db)) ∧
    (validateUsuarioData env d false = [] →
      ∀ m, (createUsuario env d db).1 ≠ .error (.error ("Datos inválidos: " ++ m))) := by
  have heq := validateUsuarioData_eq env d false
  simp only [Bool.not_false, Bool.true_or, Bool.true_and] at heq
  have hmem : ∀ regla : Regla,
      regla.mensaje ∈ validateUsuarioData env d false ↔ regla.violadaSegunSpec env d := by
    have hm := mem_reported (nombreInvalido d.nombre) (emailInvalido d.email)
      (passwordInvalido d.password) (telefonoInvalido d.telefono) (rolInvalido d.rol)
      (fechaInvalida env d.fecha_nacimiento)
    simp only [← heq] at hm
    obtain ⟨m1, m2, m3, m4, m5, m6⟩ := hm
    intro regla
    cases regla with
    | nombre => exact m1.trans (nombreInvalido_iff env d)
    | email => exact m2.trans (emailInvalido_iff env d)
    | password => exact m3.trans (passwordInvalido_iff env d)
    | telefono => exact m4.trans (telefonoInvalido_iff env d)
    | rol => exact m5.trans (rolInvalido_iff env d)
    | fechaNacimiento => exact m6.trans (fechaInvalida_iff env d)
  have hsub : (validateUsuarioData env d false).Sublist
      [Regla.nombre.mensaje, Regla.email.mensaje, Regla.password.mensaje,
       Regla.telefono.mensaje, Regla.rol.mensaje, Regla.fechaNacimiento.mensaje] := by
    rw [heq]
    exact (List.filter_sublist _).map _
  refine ⟨hmem, hsub, ?_, ?_, ?_⟩
  · constructor
    · intro hne
      obtain ⟨m, hm⟩ := List.exists_mem_of_ne_nil _ hne
      have := hsub.subset hm
      simp only [List.mem_cons, List.mem_singleton, List.not_mem_nil, or_false] at this
      rcases this with h | h | h | h | h | h
      · exact ⟨.nombre, (hmem _).mp (h ▸ hm)⟩
      · exact ⟨.email, (hmem _).mp (h ▸ hm)⟩
      · exact ⟨.password, (hmem _).mp (h ▸ hm)⟩
      · exact ⟨.telefono, (hmem _).mp (h ▸ hm)⟩
      · exact ⟨.rol, (hmem _).mp (h ▸ hm)⟩
      · exact ⟨.fechaNacimiento, (hmem _).mp (h ▸ hm)⟩
    · rintro ⟨regla, hr⟩ hnil
      have := (hmem regla).mpr hr
      rw [hnil] at this
      exact absurd this (List.not_mem_nil _)
  · intro hne
    have hlen : (validateUsuarioData env d false).length > 0 := List.length_pos.mpr hne
    simp [createUsuario, hlen, datosInvalidos]
  · intro hnil m
    unfold createUsuario
    simp only [hnil, List.length_nil, gt_iff_lt, lt_self_iff_false, ↓reduceIte]
    cases hx : UsuarioRepository.emailExists d.email (none : Option Nat) db with
    | mk b db1 =>
      cases b with
      | error e =>
        simp only [UsuarioRepository.emailExists, Orm.count] at hx
        simp at hx
      | ok b =>
        cases b with
        | true =>
          simp only [ne_eq, Except.error.injEq, ErrorJs.error.injEq]
          exact conflicto_ne_datosInvalidos m
        | false =>
          cases hh : hashPassword env d.password with
          | error e =>
            cases hd : d.password <;> simp [hashPassword, hd] at hh
            all_goals subst hh; simp
          | ok hashed =>
            exact Orm.create_ne_error env _ db1 _

/-- Witness of C3: an empty body violates the name, email and password rules at once,
and no other. -/
theorem create_reports_all_violations_witness :
    Regla.violadaSegunSpec envEjemplo UsuarioData.vacio .nombre ∧
    Regla.violadaSegunSpec envEjemplo UsuarioData.vacio .email ∧
    Regla.violadaSegunSpec envEjemplo UsuarioData.vacio .password ∧
    ¬ Regla.violadaSegunSpec envEjemplo UsuarioData.vacio .telefono ∧
    validateUsuarioData envEjemplo UsuarioData.vacio false =
      ["El nombre debe tener al menos 2 caracteres", "El email debe ser válido",
       "La contraseña debe tener al menos 6 caracteres"] ∧
    createUsuario envEjemplo UsuarioData.vacio dbActiva =
      (.error (.error ("Datos inválidos: El nombre debe tener al menos 2 caracteres, " ++
        "El email debe ser válido, La contraseña debe tener al menos 6 caracteres")),
       dbActiva) :=
  ⟨((create_reports_all_violations envEjemplo UsuarioData.vacio dbActiva).1 .nombre).mp
      (by decide),
   ((create_reports_all_violations envEjemplo UsuarioData.vacio dbActiva).1 .email).mp
      (by decide),
   ((create_reports_all_violations envEjemplo UsuarioData.vacio dbActiva).1 .password).mp
      (by decide),
   fun h => absurd
     (((create_reports_all_violations envEjemplo UsuarioData.vacio dbActiva).1 .telefono).mpr h)
     (by decide),
   by decide,
   ((create_reports_all_violations envEjemplo UsuarioData.vacio dbActiva).2.2.2.1
      (by decide)).trans (by decide)⟩

/-- A field other than `undefined` passes the test `!== undefined`. -/
theorem Campo.defined_of_ne {α : Type} {c : Campo α} (h : c ≠ .undefined) :
    c.defined = true := by
  cases c with
  | undefined => exact absurd rfl h
  | null => rfl
  | valor a => rfl

/-- C4: on update the name, email and password rules are skipped for a field that is
`undefined` (so the empty body yields no error at all), and a field that is present,
`null` included, is checked by the very rule of creation; the phone, role and birth date
rules do not depend on the mode. -/
theorem validate_update_only_present (env : Env) (d : UsuarioData) :
    (d.nombre = .undefined → msgNombre ∉ validateUsuarioData env d true) ∧
    (d.email = .undefined → msgEmail ∉ validateUsuarioData env d true) ∧
    (d.password = .undefined → msgPassword ∉ validateUsuarioData env d true) ∧
    validateUsuarioData env UsuarioData.vacio true = [] ∧
    (d.nombre ≠ .undefined →
      (msgNombre ∈ validateUsuarioData env d true ↔ nombreInvalido d.nombre = true) ∧
      (msgNombre ∈ validateUsuarioData env d true ↔
        msgNombre ∈ validateUsuarioData env d false)) ∧
    (d.email ≠ .undefined →
      (msgEmail ∈ validateUsuarioData env d true ↔ emailInvalido d.email = true) ∧
      (msgEmail ∈ validateUsuarioData env d true ↔
        msgEmail ∈ validateUsuarioData env d false)) ∧
    (d.password ≠ .undefined →
      (msgPassword ∈ validateUsuarioData env d true ↔ passwordInvalido d.password = true) ∧
      (msgPassword ∈ validateUsuarioData env d true ↔
        msgPassword ∈ validateUsuarioData env d false)) ∧
    ((msgTelefono ∈ validateUsuarioData env d true ↔
        msgTelefono ∈ validateUsuarioData env d false) ∧
     (msgRol ∈ validateUsuarioData env d true ↔ msgRol ∈ validateUsuarioData env d false) ∧
     (msgFecha ∈ validateUsuarioData env d true ↔
        msgFecha ∈ validateUsuarioData env d false)) := by
  have ht := validateUsuarioData_eq env d true
  have hf := validateUsuarioData_eq env d false
  have mt := mem_reported ((!true || d.nombre.defined) && nombreInvalido d.nombre)
    ((!true || d.email.defined) && emailInvalido d.email)
    ((!true || d.password.defined) && passwordInvalido d.password)
    (telefonoInvalido d.telefono) (rolInvalido d.rol) (fechaInvalida env d.fecha_nacimiento)
  have mf := mem_reported ((!false || d.nombre.defined) && nombreInvalido d.nombre)
    ((!false || d.email.defined) && emailInvalido d.email)
    ((!false || d.password.defined) && passwordInvalido d.password)
    (telefonoInvalido d.telefono) (rolInvalido d.rol) (fechaInvalida env d.fecha_nacimiento)
  simp only [← ht] at mt
  simp only [← hf] at mf
  obtain ⟨t1, t2, t3, t4, t5, t6⟩ := mt
  obtain ⟨f1, f2, f3, f4, f5, f6⟩ := mf
  refine ⟨?_, ?_, ?_, rfl, ?_, ?_, ?_, ?_⟩
  · intro h; rw [t1]; simp [h, Campo.defined]
  · intro h; rw [t2]; simp [h, Campo.defined]
  · intro h; rw [t3]; simp [h, Campo.defined]
  · intro h
    have hd : d.nombre.defined = true := Campo.defined_of_ne h
    rw [t1, f1]; simp [hd]
  · intro h
    have hd : d.email.defined = true := Campo.defined_of_ne h
    rw [t2, f2]; simp [hd]
  · intro h
    have hd : d.password.defined = true := Campo.defined_of_ne h
    rw [t3, f3]; simp [hd]
  · rw [t4, f4, t5, f5, t6, f6]; simp

/-- Witness of C4: a body that carries a one-letter name only is reported for the name
and for nothing else. -/
theorem validate_update_only_present_witness :
    msgEmail ∉ validateUsuarioData envEjemplo
      { UsuarioData.vacio with nombre := .valor "A" } true ∧
    (msgNombre ∈ validateUsuarioData envEjemplo
        { UsuarioData.vacio with nombre := .valor "A" } true ↔
      nombreInvalido (Campo.valor "A") = true) :=
  ⟨(validate_update_only_present envEjemplo
      { UsuarioData.vacio with nombre := .valor "A" }).2.1 rfl,
   ((validate_update_only_present envEjemplo
      { UsuarioData.vacio with nombre := .valor "A" }).2.2.2.2.1 (by decide)).1⟩

/-! ## Creation -/

/-- A body that passes the validation of creation carries a name, an email and a
password, none of them empty, and the email has the shape the service asks for. -/
theorem valid_create_fields {env : Env} {d : UsuarioData}
    (hv : validateUsuarioData env d false = []) :
    ∃ n e p, d.nombre = .valor n ∧ d.email = .valor e ∧ d.password = .valor p ∧
      e ≠ "" ∧ p ≠ "" ∧ isValidEmail e = true := by
  have hm := mem_reported ((!false || d.nombre.defined) && nombreInvalido d.nombre)
    ((!false || d.email.defined) && emailInvalido d.email)
    ((!false || d.password.defined) && passwordInvalido d.password)
    (telefonoInvalido d.telefono) (rolInvalido d.rol) (fechaInvalida env d.fecha_nacimiento)
  simp only [← validateUsuarioData_eq env d false] at hm
  simp only [hv, List.not_mem_nil, false_iff, Bool.not_false, Bool.true_or, Bool.true_and,
    Bool.not_eq_true] at hm
  obtain ⟨h1, h2, h3, -⟩ := hm
  cases hn : d.nombre <;> cases he : d.email <;> cases hp : d.password <;>
    simp [hn, he, hp, nombreInvalido, emailInvalido, passwordInvalido] at h1 h2 h3
  exact ⟨_, _, _, rfl, rfl, rfl, h2.1, h3.1, h2.2⟩

/-- `emailExists` without an excluded id: one `count`, true exactly when some row has
the email. -/
theorem emailExists_none (c : Campo String) (db : Db) :
    UsuarioRepository.emailExists c (none : Option Nat) db =
      (.ok (decide (∃ r ∈ db.store.rows, Campo.valor r.email = c)), db.registrar .count) := by
  simp [UsuarioRepository.emailExists, Orm.count, List.countP_pos_iff]

/-- `createUsuario` on a body that passes validation: the conflict when the email is
taken, else the insert of `newUsuarioData`. -/
theorem createUsuario_of_valid {env : Env} {d : UsuarioData} (db : Db) {p : String}
    (hv : validateUsuarioData env d false = []) (hp : d.password = .valor p) :
    createUsuario env d db =
      if ∃ r ∈ db.store.rows, Campo.valor r.email = d.email then
        (.error (.error "Ya existe un usuario con este email"), db.registrar .count)
      else Orm.create env (newUsuarioData env d (env.hash p)) (db.registrar .count) := by
  unfold createUsuario
  simp only [hv, List.length_nil, gt_iff_lt, lt_self_iff_false, ↓reduceIte, emailExists_none,
    hp, hashPassword, UsuarioRepository.create]
  by_cases h : ∃ r ∈ db.store.rows, Campo.valor r.email = d.email
  · simp [h]
  · simp [h]

/-- The row an insert builds carries the identifier it is given and the values
supplied; a column left `undefined` takes its default. -/
theorem construir_eq_some {env : Env} {id : Nat} {v : UsuarioData} {u : Usuario}
    (h : construir env id v = some u) :
    u.id = id ∧ v.nombre = .valor u.nombre ∧ v.email = .valor u.email ∧
    v.password = .valor u.password ∧ u.telefono = v.telefono.aOpcion ∧
    u.fecha_nacimiento = v.fecha_nacimiento.aOpcion ∧
    v.activo.conDefecto true = some u.activo ∧ v.rol.conDefecto "usuario" = some u.rol ∧
    v.fecha_registro.conDefecto env.now = some u.fecha_registro ∧
    u.ultima_actividad = v.ultima_actividad.aOpcion := by
  unfold construir at h
  cases hn : v.nombre <;> cases he : v.email <;> cases hp : v.password <;>
    simp only [hn, he, hp, Campo.aOpcion, reduceCtorEq] at h
  cases ha : v.activo.conDefecto true <;> cases hr : v.rol.conDefecto "usuario" <;>
    cases hf : v.fecha_registro.conDefecto env.now <;>
    simp only [ha, hr, hf, Option.some.injEq, reduceCtorEq] at h
  subst h
  exact ⟨rfl, rfl, rfl, rfl, rfl, rfl, rfl, rfl, rfl, rfl⟩

/-- Whether an insert can be built does not depend on the identifier. -/
theorem construir_isSome (env : Env) (id id2 : Nat) (v : UsuarioData) :
    (construir env id v).isSome = (construir env id2 v).isSome := by
  unfold construir
  cases v.nombre.aOpcion <;> cases v.email.aOpcion <;> cases v.password.aOpcion <;>
    cases v.activo.conDefecto true <;> cases v.rol.conDefecto "usuario" <;>
    cases v.fecha_registro.conDefecto env.now <;> rfl

/-- A successful insert appends the row it returns and advances the counter. -/
theorem Orm.create_eq_ok {env : Env} {v : UsuarioData} {db : Db} {u : Usuario}
    (h : (Orm.create env v db).1 = .ok u) :
    construir env db.store.nextId v = some u ∧
    (∀ r ∈ db.store.rows, r.email ≠ u.email) ∧
    (Orm.create env v db).2.store =
      { rows := db.store.rows ++ [u], nextId := db.store.nextId + 1 } := by
  unfold Orm.create at h ⊢
  cases hc : construir env db.store.nextId v with
  | none => simp [hc] at h
  | some w =>
    by_cases h1 : camposValidos env v = true
    · by_cases h2 : (db.store.rows.any fun r => r.email == w.email) = true
      · simp [hc, h1, h2] at h
      · simp only [hc, h1, h2, Bool.not_true, Bool.false_eq_true, ↓reduceIte,
          Except.ok.injEq] at h
        subst h
        simp only [List.any_eq_true, beq_iff_eq, not_exists, not_and] at h2
        simp only [hc, h1, Bool.not_true, Bool.false_eq_true, ↓reduceIte, true_and]
        refine ⟨fun r hr => h2 r hr, ?_⟩
        have h3 : (db.store.rows.any fun r => r.email == w.email) = false := by
          simp only [List.any_eq_false, beq_iff_eq]
          exact fun r hr => h2 r hr
        simp [h3]
    · simp [hc, h1] at h

/-- An insert that the model accepts, of an email no row has, succeeds. -/
theorem Orm.create_ok_of_acepta {env : Env} {v : UsuarioData} (db : Db)
    (ha : Orm.acepta env v = true)
    (hfree : ¬ ∃ r ∈ db.store.rows, Campo.valor r.email = v.email) :
    ∃ u, (Orm.create env v db).1 = .ok u := by
  simp only [Orm.acepta, Bool.and_eq_true] at ha
  obtain ⟨hs, hc⟩ := ha
  rw [construir_isSome env 0 db.store.nextId v] at hs
  obtain ⟨u, hu⟩ := Option.isSome_iff_exists.mp hs
  have he := (construir_eq_some hu).2.2.1
  have h2 : (db.store.rows.any fun r => r.email == u.email) = false := by
    simp only [List.any_eq_false, beq_iff_eq]
    intro r hr heq
    exact hfree ⟨r, hr, by rw [he, heq]⟩
  exact ⟨u, by simp [Orm.create, hu, hc, h2]⟩

/-- An update that sets the flag `activo` only is never rejected. -/
theorem Orm.update_activo (env : Env) (b : Bool) (id : Nat) (db : Db) :
    Orm.update env { UsuarioData.vacio with activo := .valor b } id db =
      (.ok (Orm.affectedRows env.motor { UsuarioData.vacio with activo := .valor b } id
              db.store.rows),
       { store := { rows := db.store.rows.map (fun r =>
                      if r.id = id then { r with activo := b } else r),
                    nextId := db.store.nextId },
         log := db.log ++ [.update] }) := by
  simp [Orm.update, violaNotNull, camposValidos, campoValido, violaUnico, UsuarioData.vacio,
    Db.registrar, aplicar, Campo.sobre, Campo.sobreOpcion]

/-- The soft delete of the repository is never rejected: it reports whether a row was
affected and sets `activo = false` on the rows with the identifier. -/
theorem UsuarioRepository.delete_eq (env : Env) (id : Nat) (db : Db) :
    UsuarioRepository.delete env id db =
      (.ok (decide (Orm.affectedRows env.motor
              { UsuarioData.vacio with activo := .valor false } id db.store.rows > 0)),
       { store := { rows := db.store.rows.map (fun r =>
                      if r.id = id then { r with activo := false } else r),
                    nextId := db.store.nextId },
         log := db.log ++ [.update] }) := by
  simp [UsuarioRepository.delete, Orm.update_activo]

/-- The table after `deleteUsuario`: untouched when the identifier is refused or matches
no row, else the rows with the identifier have `activo = false`. -/
theorem deleteUsuario_store (env : Env) (id : Nat) (db : Db) :
    (deleteUsuario env id db).2.store = db.store ∨
    (deleteUsuario env id db).2.store =
      { rows := db.store.rows.map (fun r => if r.id = id then { r with activo := false } else r),
        nextId := db.store.nextId } := by
  unfold deleteUsuario
  by_cases h0 : idInvalido id = true
  · simp [h0]
  · cases hf : db.store.rows.find? (fun r => r.id == id) with
    | none => simp [h0, UsuarioRepository.findById, Orm.findByPk, hf, Db.registrar]
    | some u =>
      right
      obtain ⟨b, hb⟩ : ∃ b, UsuarioRepository.delete env id (db.registrar .findByPk) =
          (.ok b, ⟨⟨db.store.rows.map (fun r =>
            if r.id = id then { r with activo := false } else r), db.store.nextId⟩,
            db.log ++ [.findByPk] ++ [.update]⟩) :=
        ⟨_, UsuarioRepository.delete_eq env id (db.registrar .findByPk)⟩
      simp only [h0, UsuarioRepository.findById, Orm.findByPk, hf, hb, Ident.coincide_nat]
      cases b <;> rfl

/-- A soft delete changes no email and drops no row. -/
theorem deleteUsuario_emails (env : Env) (id : Nat) (db : Db) :
    (deleteUsuario env id db).2.store.rows.map (fun r => r.email) =
      db.store.rows.map (fun r => r.email) := by
  rcases deleteUsuario_store env id db with h | h
  · rw [h]
  · rw [h]
    simp only [List.map_map]
    apply List.map_congr_left
    intro r _
    by_cases hr : r.id = id <;> simp [hr]

/-- The soft delete of a row that exists and is active succeeds, on either engine. -/
theorem deleteUsuario_ok_of_active (env : Env) (db : Db) {u : Usuario}
    (hu : u ∈ db.store.rows) (hid : u.id ≠ 0) (hact : u.activo = true) :
    (deleteUsuario env u.id db).1 = .ok "Usuario eliminado correctamente" := by
  have h0 : idInvalido u.id = false := by simp [idInvalido, hid]
  have hfind : ∃ w, db.store.rows.find? (fun r => r.id == u.id) = some w := by
    cases hf : db.store.rows.find? (fun r => r.id == u.id) with
    | none =>
      rw [List.find?_eq_none] at hf
      exact absurd (by simp) (hf u hu)
    | some w => exact ⟨w, rfl⟩
  obtain ⟨w, hw⟩ := hfind
  have hpos : Orm.affectedRows env.motor { UsuarioData.vacio with activo := .valor false }
      u.id db.store.rows > 0 := by
    unfold Orm.affectedRows
    cases env.motor with
    | mysql =>
      apply List.countP_pos_iff.mpr
      refine ⟨u, hu, ?_⟩
      have hne : aplicar { UsuarioData.vacio with activo := .valor false } u ≠ u := by
        intro h
        have := congrArg Usuario.activo h
        simp [aplicar, Campo.sobre, hact] at this
      simp [hne]
    | sqlite =>
      apply List.countP_pos_iff.mpr
      exact ⟨u, hu, by simp⟩
  simp [deleteUsuario, h0, UsuarioRepository.findById, Orm.findByPk, hw,
    UsuarioRepository.delete_eq, Db.registrar, hpos]

/-- C5: for a body that passes validation, `createUsuario` fails with
`Ya existe un usuario con este email` exactly when some row of the table, active or
not, already has that email, and the table is then unchanged. Hence once a creation has
succeeded, a second creation of the same body is a conflict, also after the first user
has been soft-deleted in between (and that soft delete does succeed); and the first
creation succeeds whenever no row has the email and the model accepts the record. -/
theorem create_conflict_iff (env env2 env3 : Env) (d : UsuarioData) (db : Db)
    (hv : validateUsuarioData env d false = [])
    (hv2 : validateUsuarioData env2 d false = [])
    (hv3 : validateUsuarioData env3 d false = []) :
    ((createUsuario env d db).1 = .error (.error "Ya existe un usuario con este email") ↔
      ∃ r ∈ db.store.rows, Campo.valor r.email = d.email) ∧
    ((createUsuario env d db).1 = .error (.error "Ya existe un usuario con este email") →
      (createUsuario env d db).2.store = db.store) ∧
    (∀ u, (createUsuario env d db).1 = .ok u →
      (createUsuario env2 d (createUsuario env d db).2).1 =
        .error (.error "Ya existe un usuario con este email") ∧
      (createUsuario env3 d (deleteUsuario env2 u.id (createUsuario env d db).2).2).1 =
        .error (.error "Ya existe un usuario con este email") ∧
      (0 < db.store.nextId →
        (deleteUsuario env2 u.id (createUsuario env d db).2).1 =
          .ok "Usuario eliminado correctamente")) ∧
    ((¬ ∃ r ∈ db.store.rows, Campo.valor r.email = d.email) →
      (∀ p, d.password = .valor p →
        Orm.acepta env (newUsuarioData env d (env.hash p)) = true) →
      ∃ u, (createUsuario env d db).1 = .ok u) := by
  obtain ⟨n, e, p, hn, he, hp, -, -, -⟩ := valid_create_fields hv
  have hc := createUsuario_of_valid db hv hp
  have hiff : (createUsuario env d db).1 =
        .error (.error "Ya existe un usuario con este email") ↔
      ∃ r ∈ db.store.rows, Campo.valor r.email = d.email := by
    by_cases hex : ∃ r ∈ db.store.rows, Campo.valor r.email = d.email
    · simp only [hc, hex, ↓reduceIte]
    · simp only [hc, hex, ↓reduceIte, iff_false]
      exact Orm.create_ne_error _ _ _ _
  refine ⟨hiff, ?_, ?_, ?_⟩
  · intro h
    have hex := hiff.mp h
    simp only [hc, hex, ↓reduceIte, Db.registrar]
  · intro u hu
    have hnex : ¬ ∃ r ∈ db.store.rows, Campo.valor r.email = d.email := by
      intro hex
      rw [hiff.mpr hex] at hu
      simp at hu
    simp only [hc, hnex, ↓reduceIte] at hu
    obtain ⟨hcons, -, hst⟩ := Orm.create_eq_ok hu
    have hst2 : (createUsuario env d db).2.store =
        { rows := db.store.rows ++ [u], nextId := db.store.nextId + 1 } := by
      simp only [hc, hnex, ↓reduceIte]
      exact hst
    obtain ⟨huid, -, hue, -, -, -, hua, -⟩ := construir_eq_some hcons
    have hue2 : Campo.valor u.email = d.email := by
      simpa [newUsuarioData] using hue.symm
    have humem : u ∈ (createUsuario env d db).2.store.rows := by simp [hst2]
    refine ⟨?_, ?_, ?_⟩
    · exact ((createUsuario_of_valid _ hv2 hp).trans
        (if_pos ⟨u, humem, hue2⟩)) ▸ rfl
    · have hmem3 : ∃ r ∈ (deleteUsuario env2 u.id (createUsuario env d db).2).2.store.rows,
          Campo.valor r.email = d.email := by
        have hm : u.email ∈ (deleteUsuario env2 u.id (createUsuario env d db).2).2.store.rows.map
            (fun r => r.email) := by
          rw [deleteUsuario_emails]
          exact List.mem_map.mpr ⟨u, humem, rfl⟩
        obtain ⟨r, hr, hre⟩ := List.mem_map.mp hm
        exact ⟨r, hr, by rw [hre, hue2]⟩
      exact ((createUsuario_of_valid _ hv3 hp).trans (if_pos hmem3)) ▸ rfl
    · intro hpos
      apply deleteUsuario_ok_of_active env2 _ humem
      · rw [huid]; exact (Nat.pos_iff_ne_zero.mp hpos)
      · simpa [newUsuarioData, Campo.conDefecto] using hua.symm
  · intro hnex hacc
    simp only [hc, hnex, ↓reduceIte]
    apply Orm.create_ok_of_acepta _ (hacc p hp)
    simpa [newUsuarioData, Db.registrar] using hnex

/-- Witness of C5: on the empty table the first creation of `altaAna` succeeds and the
second is a conflict. -/
theorem create_conflict_iff_witness :
    (∃ u, (createUsuario envEjemplo altaAna dbVacia).1 = .ok u) ∧
    (createUsuario envEjemplo altaAna (createUsuario envEjemplo altaAna dbVacia).2).1 =
      .error (.error "Ya existe un usuario con este email") :=
  ⟨(create_conflict_iff envEjemplo envEjemplo envEjemplo altaAna dbVacia (by decide)
      (by decide) (by decide)).2.2.2 (by decide)
      (fun p hp => by cases hp; decide),
   ((create_conflict_iff envEjemplo envEjemplo envEjemplo altaAna dbVacia (by decide)
      (by decide) (by decide)).2.2.1
      { anaActiva with fecha_registro := 1000 } (by decide)).1⟩

/-- C6: for a body that passes validation, whose email no row has and whose record the
model accepts, `createUsuario` succeeds and appends exactly one row: its identifier is
the counter, `activo` is true and `fecha_registro` is the current time whatever the body
supplied for them, `password` is the bcrypt hash of the password of the body, and every
other column is the field of the body (`usuario` for a role left undefined). -/
theorem create_persists_record (env : Env) (d : UsuarioData) (db : Db)
    (hv : validateUsuarioData env d false = [])
    (hfree : ¬ ∃ r ∈ db.store.rows, Campo.valor r.email = d.email)
    (hacc : ∀ p, d.password = .valor p →
      Orm.acepta env (newUsuarioData env d (env.hash p)) = true) :
    ∃ u p, createUsuario env d db =
        (.ok u, ⟨⟨db.store.rows ++ [u], db.store.nextId + 1⟩, db.log ++ [.count, .create]⟩) ∧
      u.id = db.store.nextId ∧ u.activo = true ∧ u.fecha_registro = env.now ∧
      d.password = .valor p ∧ u.password = env.hash p ∧
      d.nombre = .valor u.nombre ∧ d.email = .valor u.email ∧
      u.telefono = d.telefono.aOpcion ∧ u.fecha_nacimiento = d.fecha_nacimiento.aOpcion ∧
      d.rol.conDefecto "usuario" = some u.rol ∧
      u.ultima_actividad = d.ultima_actividad.aOpcion := by
  obtain ⟨n, e, p, hn, he, hp, -, -, -⟩ := valid_create_fields hv
  have hc := createUsuario_of_valid db hv hp
  simp only [hfree, ↓reduceIte] at hc
  have hfree2 : ¬ ∃ r ∈ (db.registrar .count).store.rows,
      Campo.valor r.email = (newUsuarioData env d (env.hash p)).email := by
    simpa [newUsuarioData, Db.registrar] using hfree
  obtain ⟨u, hu⟩ := Orm.create_ok_of_acepta (db.registrar .count) (hacc p hp) hfree2
  obtain ⟨hcons, -, hst⟩ := Orm.create_eq_ok hu
  obtain ⟨h1, h2, h3, h4, h5, h6, h7, h8, h9, h10⟩ := construir_eq_some hcons
  have hlog : (Orm.create env (newUsuarioData env d (env.hash p)) (db.registrar .count)).2.log =
      db.log ++ [.count, .create] := by
    unfold Orm.create
    split
    · simp [Db.registrar]
    · split <;> [skip; split] <;> simp [Db.registrar]
  refine ⟨u, p, ?_, h1, ?_, ?_, hp, ?_, h2, h3, h5, h6, h8, h10⟩
  · rw [hc]
    refine Prod.ext hu ?_
    cases hx : (Orm.create env (newUsuarioData env d (env.hash p)) (db.registrar .count)).2 with
    | mk st lg =>
      rw [hx] at hst hlog
      simp only at hst hlog
      simp only [hst, hlog]
      rfl
  · simpa [newUsuarioData, Campo.conDefecto] using h7.symm
  · simpa [newUsuarioData, Campo.conDefecto] using h9.symm
  · simpa [newUsuarioData] using h4.symm

/-- Witness of C6: the body `altaAnaForzada` asks for `activo = false` and
`fecha_registro = 7`; the row persisted is active, registered at the current time 1000,
and holds the hash. -/
theorem create_persists_record_witness :
    ∃ u p, createUsuario envEjemplo altaAnaForzada dbVacia =
        (.ok u, ⟨⟨dbVacia.store.rows ++ [u], dbVacia.store.nextId + 1⟩,
          dbVacia.log ++ [.count, .create]⟩) ∧
      u.id = dbVacia.store.nextId ∧ u.activo = true ∧ u.fecha_registro = envEjemplo.now ∧
      altaAnaForzada.password = .valor p ∧ u.password = envEjemplo.hash p ∧
      altaAnaForzada.nombre = .valor u.nombre ∧ altaAnaForzada.email = .valor u.email ∧
      u.telefono = altaAnaForzada.telefono.aOpcion ∧
      u.fecha_nacimiento = altaAnaForzada.fecha_nacimiento.aOpcion ∧
      altaAnaForzada.rol.conDefecto "usuario" = some u.rol ∧
      u.ultima_actividad = altaAnaForzada.ultima_actividad.aOpcion :=
  create_persists_record envEjemplo altaAnaForzada dbVacia (by decide) (by decide)
    (fun p hp => by cases hp; decide)

/-! ## Update -/

/-- What `Usuario.update` raises is an error of the ORM, never an error of the service. -/
theorem Orm.update_ne_error {ι : Type} [Ident ι] (env : Env) (v : UsuarioData) (id : ι) (db : Db)
    (m : String) :
    (Orm.update env v id db).1 ≠ .error (.error m) := by
  unfold Orm.update
  split
  · simp
  · split <;> simp

/-- What the `update` of the repository raises is an error of the ORM. -/
theorem UsuarioRepository.update_raises_orm {ι : Type} [Ident ι] (env : Env) (id : ι)
    (v : UsuarioData) (db : Db) (m : String) : (UsuarioRepository.update env id v db).1 ≠ .error (.error m) := by
  unfold UsuarioRepository.update
  have h := Orm.update_ne_error env v id db m
  cases hx : Orm.update env v id db with
  | mk r db1 =>
    rw [hx] at h
    cases r with
    | error e => simpa using h
    | ok n =>
      by_cases hn : (n == 0) = true
      · simp [hn]
      · simp [hn]

/-- An email that passes the validation of an update is a non-empty string. -/
theorem valid_update_email {env : Env} {d : UsuarioData} {e : String}
    (hv : validateUsuarioData env d true = []) (he : d.email = .valor e) :
    e ≠ "" ∧ isValidEmail e = true := by
  have hm := mem_reported ((!true || d.nombre.defined) && nombreInvalido d.nombre)
    ((!true || d.email.defined) && emailInvalido d.email)
    ((!true || d.password.defined) && passwordInvalido d.password)
    (telefonoInvalido d.telefono) (rolInvalido d.rol) (fechaInvalida env d.fecha_nacimiento)
  simp only [← validateUsuarioData_eq env d true] at hm
  simp only [hv, List.not_mem_nil, false_iff, Bool.not_eq_true] at hm
  obtain ⟨-, h2, -⟩ := hm
  simpa [he, Campo.defined, emailInvalido] using h2

/-- `emailExists` with a truthy excluded id raises the `TypeError` of
`getConnection().Op.ne` and makes no query. -/
theorem emailExists_some {ι : Type} [Ident ι] (c : Campo String) {id : ι}
    (hid : Ident.falsy id = false) (db : Db) :
    UsuarioRepository.emailExists c (some id) db = (.error .typeError, db) := by
  simp [UsuarioRepository.emailExists, hid, UsuarioRepository.conexionOp]

/-- `emailExists` changes no row, whatever it answers. -/
theorem UsuarioRepository.emailExists_store {ι : Type} [Ident ι] (c : Campo String)
    (x : Option ι) (db : Db) :
    (UsuarioRepository.emailExists c x db).2.store = db.store := by
  unfold UsuarioRepository.emailExists
  cases x with
  | none => rfl
  | some id =>
    by_cases h : Ident.falsy id = true
    · simp [h, Orm.count, Db.registrar]
    · simp [h, UsuarioRepository.conexionOp]

/-- An update whose body carries a non-empty email, for an identifier that passes the
test and that a row has, with a body that passes validation: the service raises the
`TypeError` of `emailExists` after the lookup of the row, and nothing is written. -/
theorem updateUsuario_con_email {ι : Type} [Ident ι] (env : Env) (id : ι) (d : UsuarioData)
    (db : Db) {u : Usuario} {e : String} (hid : idInvalido id = false)
    (hu : db.store.rows.find? (fun r => Ident.coincide id r.id) = some u)
    (hv : validateUsuarioData env d true = []) (he : d.email = .valor e) :
    updateUsuario env id d db = (.error .typeError, db.registrar .findByPk) := by
  obtain ⟨hne, -⟩ := valid_update_email hv he
  have htr : (Campo.valor e).truthy = true := by simp [Campo.truthy, hne]
  unfold updateUsuario
  simp only [hid, Bool.false_eq_true, ↓reduceIte, UsuarioRepository.findById, Orm.findByPk, hu,
    hv, List.length_nil, gt_iff_lt, lt_self_iff_false, he, htr,
    emailExists_some _ (falsy_of_valido hid)]

/-- C7 (the code diverges): on the table of Ana (id 1, `ana@x.com`) and Luis (id 2,
`luis@x.com`), the update of user `1` with the body `{ email: 'luis@x.com' }`, which
passes validation, meets the condition of the claim for a conflict (a row with a
different id has the email). The service does not fail with
`Ya existe un usuario con este email`: `emailExists` raises a `TypeError` when it builds
the filter that excludes the id, before any count, so `updateUsuario` raises that error
after its lookup, the table is unchanged and the handler answers 500, not 409. The update
of the same user with her own email `ana@x.com` raises the same error instead of going
through. An update without email is not affected. -/
theorem update_conflict_not_reported :
    idInvalido rutaUno = false ∧
    (UsuarioRepository.findById rutaUno dbDos).1 = some anaActiva ∧
    validateUsuarioData envEjemplo { UsuarioData.vacio with email := .valor "luis@x.com" }
      true = [] ∧
    (∃ r ∈ dbDos.store.rows, r.id ≠ 1 ∧ r.email = "luis@x.com") ∧
    updateUsuario envEjemplo rutaUno { UsuarioData.vacio with email := .valor "luis@x.com" }
      dbDos = (.error .typeError, ⟨dbDos.store, [.findByPk]⟩) ∧
    (updateUsuario envEjemplo rutaUno { UsuarioData.vacio with email := .valor "luis@x.com" }
      dbDos).1 ≠ .error (.error "Ya existe un usuario con este email") ∧
    (Controller.updateUsuario procDesarrollo envEjemplo rutaUno
      { UsuarioData.vacio with email := .valor "luis@x.com" } dbDos).1 =
      { code := 500, status := "error", message := "Error interno del servidor",
        data := none, pagination := none,
        error := some "Cannot read properties of undefined (reading 'ne')" } ∧
    (¬ ∃ r ∈ dbDos.store.rows, r.id ≠ 1 ∧ r.email = "ana@x.com") ∧
    updateUsuario envEjemplo rutaUno { UsuarioData.vacio with email := .valor "ana@x.com" }
      dbDos = (.error .typeError, ⟨dbDos.store, [.findByPk]⟩) ∧
    (updateUsuario envEjemplo rutaUno { UsuarioData.vacio with nombre := .valor "Ana G." }
      dbDos).1 = .ok (some { anaActiva with nombre := "Ana G." }) := by
  decide!



/-! ## The unique index on `email` as an invariant -/

/-- An update keeps the identifier of a row. -/
theorem aplicar_id (v : UsuarioData) (r : Usuario) : (aplicar v r).id = r.id := rfl

/-- Rows after an update have the identifiers they had. -/
theorem map_update_ids {ι : Type} [Ident ι] (v : UsuarioData) (id : ι) (rows : List Usuario) :
    (rows.map (fun r => if Ident.coincide id r.id then aplicar v r else r)).map (fun r => r.id) =
      rows.map (fun r => r.id) := by
  rw [List.map_map]
  apply List.map_congr_left
  intro r _
  by_cases h : Ident.coincide id r.id = true <;> simp [h, aplicar_id]

/-- An update that the unique index lets through keeps the emails pairwise distinct. -/
theorem emails_nodup_update {ι : Type} [Ident ι] {rows : List Usuario} {id : ι}
    {v : UsuarioData}
    (hid : (rows.map (fun r => r.id)).Nodup) (hem : (rows.map (fun r => r.email)).Nodup)
    (hu : violaUnico rows id v.email = false) :
    ((rows.map (fun r => if Ident.coincide id r.id then aplicar v r else r)).map
      (fun r => r.email)).Nodup := by
  simp only [List.Nodup, List.pairwise_map] at hid hem ⊢
  refine (hid.and hem).imp_of_mem ?_
  intro a b ha hb hab
  obtain ⟨hidab, hemab⟩ := hab
  cases hv : v.email with
  | undefined =>
    by_cases h1 : Ident.coincide id a.id = true <;> by_cases h2 : Ident.coincide id b.id = true <;>
      simp [h1, h2, aplicar, Campo.sobre, hv, hemab]
  | null =>
    by_cases h1 : Ident.coincide id a.id = true <;> by_cases h2 : Ident.coincide id b.id = true <;>
      simp [h1, h2, aplicar, Campo.sobre, hv, hemab]
  | valor e =>
    simp only [violaUnico, hv, Bool.and_eq_false_imp, List.any_eq_true,
      List.any_eq_false, Bool.and_eq_true, Bool.not_eq_true', beq_iff_eq, not_and,
      forall_exists_index, and_imp] at hu
    by_cases h1 : Ident.coincide id a.id = true <;> by_cases h2 : Ident.coincide id b.id = true
    · exact absurd (Ident.unica id a.id b.id h1 h2) hidab
    · have := hu a ha h1 b hb (by simpa using h2)
      simp [h1, h2, aplicar, Campo.sobre, hv]
      exact fun h => this h.symm
    · have := hu b hb h2 a ha (by simpa using h1)
      simp [h1, h2, aplicar, Campo.sobre, hv]
      exact this
    · simp [h1, h2, hemab]

/-- `Usuario.create` keeps the constraints of the table. -/
theorem Orm.create_integra (env : Env) (v : UsuarioData) (db : Db)
    (h : db.store.Integra) : (Orm.create env v db).2.store.Integra := by
  cases hr : (Orm.create env v db).1 with
  | error e =>
    have : (Orm.create env v db).2.store = db.store := by
      unfold Orm.create at hr ⊢
      cases hc : construir env db.store.nextId v with
      | none => simp [Db.registrar]
      | some w =>
        by_cases h1 : camposValidos env v = true
        · by_cases h2 : (db.store.rows.any fun r => r.email == w.email) = true
          · simp [h1, h2, Db.registrar]
          · simp [hc, h1, h2] at hr
        · simp [h1, Db.registrar]
    rw [this]; exact h
  | ok u =>
    obtain ⟨hc, hfree, hst⟩ := Orm.create_eq_ok hr
    obtain ⟨⟨hids, hlt⟩, hem⟩ := h
    have huid : u.id = db.store.nextId := (construir_eq_some hc).1
    rw [hst]
    refine ⟨⟨?_, ?_⟩, ?_⟩
    · simp only [List.map_append, List.map_cons, List.map_nil]
      refine List.Nodup.append hids (List.nodup_singleton _) ?_
      intro x hx hx2
      simp only [List.mem_singleton] at hx2
      obtain ⟨r, hr1, hr2⟩ := List.mem_map.mp hx
      have := hlt r hr1
      omega
    · intro r hr1
      simp only [List.mem_append, List.mem_singleton] at hr1
      rcases hr1 with hr1 | hr1
      · exact Nat.lt_succ_of_lt (hlt r hr1)
      · rw [hr1, huid]; exact Nat.lt_succ_self _
    · simp only [Store.EmailsUnicos, List.map_append, List.map_cons, List.map_nil]
      refine List.Nodup.append hem (List.nodup_singleton _) ?_
      intro x hx hx2
      simp only [List.mem_singleton] at hx2
      obtain ⟨r, hr1, hr2⟩ := List.mem_map.mp hx
      exact hfree r hr1 (hr2.trans hx2)

/-- `Usuario.update` keeps the constraints of the table. -/
theorem Orm.update_integra {ι : Type} [Ident ι] (env : Env) (v : UsuarioData) (id : ι) (db : Db)
    (h : db.store.Integra) : (Orm.update env v id db).2.store.Integra := by
  unfold Orm.update
  split
  · exact h
  · split
    · exact h
    · rename_i h1 h2
      obtain ⟨⟨hids, hlt⟩, hem⟩ := h
      refine ⟨⟨?_, ?_⟩, ?_⟩
      · show ((db.store.rows.map _).map _).Nodup
        rw [map_update_ids]; exact hids
      · intro r hr
        obtain ⟨w, hw, hwr⟩ := List.mem_map.mp hr
        have hrid : r.id = w.id := by
          rw [← hwr]
          by_cases hc : Ident.coincide id w.id = true <;> simp [hc, aplicar_id]
        rw [hrid]
        exact hlt w hw
      · exact emails_nodup_update hids hem (by simpa using h2)

/-- `Usuario.destroy` keeps the constraints of the table. -/
theorem Orm.destroy_integra {ι : Type} [Ident ι] (id : ι) (db : Db) (h : db.store.Integra) :
    (Orm.destroy id db).2.store.Integra := by
  obtain ⟨⟨hids, hlt⟩, hem⟩ := h
  have hsub : (db.store.rows.filter (fun r => !Ident.coincide id r.id)).Sublist db.store.rows :=
    List.filter_sublist _
  refine ⟨⟨?_, ?_⟩, ?_⟩
  · exact List.Nodup.sublist (hsub.map _) hids
  · intro r hr
    exact hlt r (hsub.subset hr)
  · exact List.Nodup.sublist (hsub.map _) hem

/-- The `update` of the repository keeps the constraints of the table. -/
theorem UsuarioRepository.update_keeps_integra {ι : Type} [Ident ι] (env : Env) (id : ι)
    (v : UsuarioData) (db : Db)
    (h : db.store.Integra) : (UsuarioRepository.update env id v db).2.store.Integra := by
  have hi := Orm.update_integra env v id db h
  unfold UsuarioRepository.update
  cases hx : Orm.update env v id db with
  | mk r db1 =>
    rw [hx] at hi
    cases r with
    | error e => exact hi
    | ok n =>
      by_cases hn : (n == 0) = true
      · simpa [hn] using hi
      · simpa [hn, UsuarioRepository.findById, Orm.findByPk, Db.registrar] using hi

/-- The soft delete of the repository keeps the constraints of the table. -/
theorem UsuarioRepository.delete_keeps_integra {ι : Type} [Ident ι] (env : Env) (id : ι)
    (db : Db) (h : db.store.Integra) :
    (UsuarioRepository.delete env id db).2.store.Integra := by
  have hi := Orm.update_integra env { UsuarioData.vacio with activo := .valor false } id db h
  unfold UsuarioRepository.delete
  cases hx : Orm.update env { UsuarioData.vacio with activo := .valor false } id db with
  | mk r db1 =>
    rw [hx] at hi
    cases r <;> exact hi

/-- The state after `updateLastActivity` is the state after its update. -/
theorem UsuarioRepository.updateLastActivity_snd {ι : Type} [Ident ι] (env : Env) (id : ι)
    (db : Db) :
    (UsuarioRepository.updateLastActivity env id db).2 =
      (Orm.update env { UsuarioData.vacio with ultima_actividad := .valor env.now } id db).2 := by
  unfold UsuarioRepository.updateLastActivity
  cases Orm.update env { UsuarioData.vacio with ultima_actividad := .valor env.now } id db with
  | mk r db1 => cases r <;> rfl

/-- `createUsuario` keeps the constraints of the table. -/
theorem createUsuario_integra (env : Env) (d : UsuarioData) (db : Db)
    (h : db.store.Integra) : (createUsuario env d db).2.store.Integra := by
  unfold createUsuario
  by_cases hl : (validateUsuarioData env d false).length > 0
  · simpa [hl] using h
  · simp only [hl, ↓reduceIte, emailExists_none]
    by_cases hex : ∃ r ∈ db.store.rows, Campo.valor r.email = d.email
    · simpa [hex, Db.registrar] using h
    · simp only [hex, decide_False]
      cases hashPassword env d.password with
      | error e => exact h
      | ok hp => exact Orm.create_integra env _ (db.registrar .count) h

/-- `updateUsuario` keeps the constraints of the table. -/
theorem updateUsuario_integra {ι : Type} [Ident ι] (env : Env) (id : ι) (d : UsuarioData)
    (db : Db) (h : db.store.Integra) : (updateUsuario env id d db).2.store.Integra := by
  unfold updateUsuario
  by_cases h0 : idInvalido id = true
  · simpa [h0] using h
  · simp only [h0, Bool.false_eq_true, ↓reduceIte, UsuarioRepository.findById, Orm.findByPk]
    cases hf : db.store.rows.find? (fun r => Ident.coincide id r.id) with
    | none => exact h
    | some u =>
      simp only []
      by_cases hl : (validateUsuarioData env d true).length > 0
      · simpa [hl] using h
      · simp only [hl, ↓reduceIte]
        have h2 : (if d.email.truthy = true then
            UsuarioRepository.emailExists d.email (some id) (db.registrar .findByPk)
            else (.ok false, db.registrar .findByPk)).2.store.Integra := by
          split
          · rw [UsuarioRepository.emailExists_store]; exact h
          · exact h
        generalize (if d.email.truthy = true then
            UsuarioRepository.emailExists d.email (some id) (db.registrar .findByPk)
            else (.ok false, db.registrar .findByPk)) = pr at h2 ⊢
        obtain ⟨b, db2⟩ := pr
        cases b with
        | error e => exact h2
        | ok b =>
          cases b with
          | true => exact h2
          | false =>
            simp only []
            by_cases hp : d.password.truthy = true
            · simp only [hp, ↓reduceIte]
              cases hashPassword env d.password with
              | error e => exact h2
              | ok hh => exact UsuarioRepository.update_keeps_integra _ _ _ _ h2
            · simp only [hp]
              exact UsuarioRepository.update_keeps_integra _ _ _ _ h2

/-- `deleteUsuario` keeps the constraints of the table. -/
theorem deleteUsuario_integra {ι : Type} [Ident ι] (env : Env) (id : ι) (db : Db)
    (h : db.store.Integra) : (deleteUsuario env id db).2.store.Integra := by
  unfold deleteUsuario
  by_cases h0 : idInvalido id = true
  · simpa [h0] using h
  · simp only [h0, Bool.false_eq_true, ↓reduceIte, UsuarioRepository.findById, Orm.findByPk]
    cases hf : db.store.rows.find? (fun r => Ident.coincide id r.id) with
    | none => exact h
    | some u =>
      simp only []
      have := UsuarioRepository.delete_keeps_integra env id (db.registrar .findByPk) h
      cases hx : UsuarioRepository.delete env id (db.registrar .findByPk) with
      | mk r db1 =>
        rw [hx] at this
        cases r with
        | error e => exact this
        | ok b => cases b <;> exact this

/-- `destroyUsuario` keeps the constraints of the table. -/
theorem destroyUsuario_integra {ι : Type} [Ident ι] (id : ι) (db : Db)
    (h : db.store.Integra) : (destroyUsuario id db).2.store.Integra := by
  unfold destroyUsuario
  by_cases h0 : idInvalido id = true
  · simpa [h0] using h
  · have := Orm.destroy_integra id db h
    simp only [h0, Bool.false_eq_true, ↓reduceIte, UsuarioRepository.destroy]
    cases hx : Orm.destroy id db with
    | mk n db1 =>
      rw [hx] at this
      by_cases hn : n > 0 <;> simpa [hn] using this

/-- `toggleUsuarioStatus` keeps the constraints of the table. -/
theorem toggleUsuarioStatus_integra {ι : Type} [Ident ι] (env : Env) (id : ι) (db : Db)
    (h : db.store.Integra) : (toggleUsuarioStatus env id db).2.store.Integra := by
  unfold toggleUsuarioStatus
  by_cases h0 : idInvalido id = true
  · simpa [h0] using h
  · simp only [h0, Bool.false_eq_true, ↓reduceIte, UsuarioRepository.findById, Orm.findByPk]
    cases hf : db.store.rows.find? (fun r => Ident.coincide id r.id) with
    | none => exact h
    | some u =>
      simp only []
      have := UsuarioRepository.update_keeps_integra env id
        { UsuarioData.vacio with activo := .valor (!u.activo) } (db.registrar .findByPk) h
      cases hx : UsuarioRepository.update env id
        { UsuarioData.vacio with activo := .valor (!u.activo) } (db.registrar .findByPk) with
      | mk r db1 =>
        rw [hx] at this
        cases r <;> exact this

/-- `authenticateUsuario` keeps the constraints of the table. -/
theorem authenticateUsuario_integra (env : Env) (email password : String) (db : Db)
    (h : db.store.Integra) : (authenticateUsuario env email password db).2.store.Integra := by
  unfold authenticateUsuario
  by_cases h0 : (email == "" || password == "") = true
  · simpa [h0] using h
  · simp only [h0, Bool.false_eq_true, ↓reduceIte, UsuarioRepository.findByEmail, Orm.findOne]
    cases hf : db.store.rows.find? (fun r => r.email == email) with
    | none => exact h
    | some u =>
      simp only []
      split
      · exact h
      · split
        · exact h
        · have := Orm.update_integra env
            { UsuarioData.vacio with ultima_actividad := .valor env.now } u.id
            (db.registrar .findOne) h
          rw [← UsuarioRepository.updateLastActivity_snd] at this
          cases hx : UsuarioRepository.updateLastActivity env u.id (db.registrar .findOne) with
          | mk r db1 =>
            rw [hx] at this
            cases r <;> exact this

/-- Every call keeps the constraints of the table. -/
theorem Llamada.ejecutar_integra {ι : Type} [Ident ι] (env : Env) (c : Llamada ι) (db : Db)
    (h : db.store.Integra) : (c.ejecutar env db).store.Integra := by
  cases c with
  | create d => exact createUsuario_integra env d db h
  | update id d => exact updateUsuario_integra env id d db h
  | delete id => exact deleteUsuario_integra env id db h
  | destroy id => exact destroyUsuario_integra id db h
  | toggle id => exact toggleUsuarioStatus_integra env id db h
  | authenticate e p => exact authenticateUsuario_integra env e p db h

/-- C8: in a table that satisfies its primary key, if no two rows (active or inactive)
share an email, then after any sequence of `createUsuario`, `updateUsuario`,
`deleteUsuario`, `destroyUsuario`, `toggleUsuarioStatus` and `authenticateUsuario` calls,
successful or failed, each in its own environment and with whatever value as `id` (a
route parameter or a number), still no two rows share an email (and the primary key
still holds). -/
theorem email_unique_invariant {ι : Type} [Ident ι] (calls : List (Env × Llamada ι)) (db : Db)
    (hpk : db.store.ClavePrimaria) (hem : db.store.EmailsUnicos) :
    (ejecutarTodas calls db).store.EmailsUnicos ∧
    (ejecutarTodas calls db).store.ClavePrimaria := by
  have key : ∀ (cs : List (Env × Llamada ι)) (db : Db), db.store.Integra →
      (ejecutarTodas cs db).store.Integra := by
    intro cs
    induction cs with
    | nil => intro db h; exact h
    | cons c cs ih =>
      intro db h
      obtain ⟨env, c⟩ := c
      exact ih _ (Llamada.ejecutar_integra env c db h)
  have := key calls db ⟨hpk, hem⟩
  exact ⟨this.2, this.1⟩

/-- Witness of C8: the calls of `llamadasEjemplo` on `dbDos` leave the emails distinct;
the table they end in holds Luis, renamed and soft-deleted, with the email he had, and
the new user. -/
theorem email_unique_invariant_witness :
    (ejecutarTodas llamadasEjemplo dbDos).store.EmailsUnicos ∧
    (ejecutarTodas llamadasEjemplo dbDos).store.ClavePrimaria ∧
    (ejecutarTodas llamadasEjemplo dbDos).store.rows.map
        (fun r => (r.id, r.nombre, r.email, r.activo)) =
      [(2, "Lucho Paz", "luis@x.com", false), (3, "Ana Gomez", "eva@x.com", true)] :=
  ⟨(email_unique_invariant llamadasEjemplo dbDos (by decide) (by decide)).1,
   (email_unique_invariant llamadasEjemplo dbDos (by decide) (by decide)).2,
   by decide!⟩

/-! ## Toggle and soft delete -/

/-- An update of the flag `activo` that changes the flag of a row with the identifier
reports at least one affected row, on either engine. -/
theorem affectedRows_activo_pos (motor : Motor) (b : Bool) {id : Nat} {rows : List Usuario}
    {u : Usuario} (hu : u ∈ rows) (huid : u.id = id) (hne : u.activo ≠ b) :
    0 < Orm.affectedRows motor { UsuarioData.vacio with activo := .valor b } id rows := by
  unfold Orm.affectedRows
  cases motor with
  | mysql =>
    apply List.countP_pos_iff.mpr
    refine ⟨u, hu, ?_⟩
    have hne2 : aplicar { UsuarioData.vacio with activo := .valor b } u ≠ u := by
      intro h
      have := congrArg Usuario.activo h
      simp only [aplicar, Campo.sobre] at this
      exact hne this.symm
    simp [hne2, huid]
  | sqlite =>
    apply List.countP_pos_iff.mpr
    exact ⟨u, hu, by simp [huid]⟩

/-- The row `findByPk` returns after an update of the flag `activo`. -/
theorem find_after_activo (b : Bool) {id : Nat} {rows : List Usuario} {u : Usuario}
    (hf : rows.find? (fun r => r.id == id) = some u) :
    (rows.map (fun r => if r.id = id then { r with activo := b } else r)).find?
      (fun r => r.id == id) = some { u with activo := b } := by
  have huid : u.id = id := by simpa using List.find?_some hf
  have hcomp : ((fun r : Usuario => r.id == id) ∘
      (fun r => if r.id = id then { r with activo := b } else r)) =
      (fun r : Usuario => r.id == id) := by
    funext r
    by_cases h : r.id = id <;> simp [h]
  rw [List.find?_map, hcomp, hf]
  simp [huid]

/-- The result and the state of `toggleUsuarioStatus` on an identifier that a row has. -/
theorem toggleUsuarioStatus_eq (env : Env) {id : Nat} (db : Db) {u : Usuario} (hid : id ≠ 0)
    (hf : db.store.rows.find? (fun r => r.id == id) = some u) :
    toggleUsuarioStatus env id db =
      (.ok ⟨"Usuario " ++ (if !u.activo then "activado" else "desactivado") ++ " correctamente",
            some { u with activo := !u.activo }⟩,
       ⟨⟨db.store.rows.map (fun r => if r.id = id then { r with activo := !u.activo } else r),
         db.store.nextId⟩, db.log ++ [.findByPk, .update, .findByPk]⟩) := by
  have h0 : idInvalido id = false := by simp [idInvalido, hid]
  have humem : u ∈ db.store.rows := List.mem_of_find?_eq_some hf
  have huid : u.id = id := by simpa using List.find?_some hf
  have hpos := affectedRows_activo_pos env.motor (!u.activo) humem huid (by cases u.activo <;> simp)
  have hne : (Orm.affectedRows env.motor { UsuarioData.vacio with activo := .valor (!u.activo) }
      id db.store.rows == 0) = false := by
    simp only [beq_eq_false_iff_ne, ne_eq]
    exact Nat.pos_iff_ne_zero.mp hpos
  have hfa := find_after_activo (!u.activo) hf
  simp only [toggleUsuarioStatus, h0, Bool.false_eq_true, ↓reduceIte, UsuarioRepository.findById,
    Orm.findByPk, hf, UsuarioRepository.update, Orm.update_activo, Db.registrar, hne, hfa,
    List.append_assoc, List.singleton_append, Ident.coincide_nat]
  rfl

/-- C9: for an identifier that a row of a table with distinct identifiers has, the first
`toggleUsuarioStatus` answers `activado` or `desactivado` according to the NEW value of
the flag and returns the user with the flag negated; it changes that flag and nothing
else; the second call answers the opposite message, returns the user as it was, and the
table after the two calls is the table before them. -/
theorem toggle_twice_restores (env env2 : Env) (id : Nat) (db : Db) (u : Usuario)
    (hid : id ≠ 0) (hpk : (db.store.rows.map (fun r => r.id)).Nodup)
    (hu : (UsuarioRepository.findById id db).1 = some u) :
    (toggleUsuarioStatus env id db).1 =
      .ok ⟨"Usuario " ++ (if u.activo then "desactivado" else "activado") ++ " correctamente",
           some { u with activo := !u.activo }⟩ ∧
    (toggleUsuarioStatus env id db).2.store =
      ⟨db.store.rows.map (fun r => if r = u then { u with activo := !u.activo } else r),
       db.store.nextId⟩ ∧
    (toggleUsuarioStatus env2 id (toggleUsuarioStatus env id db).2).1 =
      .ok ⟨"Usuario " ++ (if u.activo then "activado" else "desactivado") ++ " correctamente",
           some u⟩ ∧
    (toggleUsuarioStatus env2 id (toggleUsuarioStatus env id db).2).2.store = db.store := by
  simp only [UsuarioRepository.findById, Orm.findByPk, Ident.coincide_nat] at hu
  have humem : u ∈ db.store.rows := List.mem_of_find?_eq_some hu
  have huid : u.id = id := by simpa using List.find?_some hu
  have h1 := toggleUsuarioStatus_eq env db hid hu
  have hu2 := find_after_activo (!u.activo) hu
  have h2 := toggleUsuarioStatus_eq env2 (toggleUsuarioStatus env id db).2 hid
    (by rw [h1]; exact hu2)
  have hrows : ∀ b, db.store.rows.map (fun r => if r.id = id then { r with activo := b } else r) =
      db.store.rows.map (fun r => if r = u then { u with activo := b } else r) := by
    intro b
    apply List.map_congr_left
    intro r hr
    by_cases hru : r = u
    · simp [hru, huid]
    · have : r.id ≠ id := fun h => hru (eq_of_id_eq hpk hr humem (h.trans huid.symm))
      simp [hru, this]
  refine ⟨?_, ?_, ?_, ?_⟩
  · rw [h1]
    cases u.activo <;> rfl
  · rw [h1]
    simp only [hrows]
  · rw [h2]
    cases hua : u.activo <;> simp
    all_goals
      cases u
      simp_all
  · rw [h2, h1]
    simp only [List.map_map, Bool.not_not]
    have : db.store.rows.map ((fun r => if r.id = id then { r with activo := u.activo } else r) ∘
        (fun r => if r.id = id then { r with activo := !u.activo } else r)) = db.store.rows := by
      conv_rhs => rw [← List.map_id db.store.rows]
      apply List.map_congr_left
      intro r hr
      by_cases hrid : r.id = id
      · have hru : r = u := eq_of_id_eq hpk hr humem (hrid.trans huid.symm)
        subst hru
        simp only [hrid, ↓reduceIte, Function.comp_apply, id_eq]
        cases r
        simp_all
      · simp [hrid]
    rw [this]

/-- Witness of C9: toggling Ana twice in `dbDos`. -/
theorem toggle_twice_restores_witness :
    (toggleUsuarioStatus envEjemplo 1 dbDos).1 =
      .ok ⟨"Usuario desactivado correctamente", some anaInactiva⟩ ∧
    (toggleUsuarioStatus envEjemplo 1 (toggleUsuarioStatus envEjemplo 1 dbDos).2).1 =
      .ok ⟨"Usuario activado correctamente", some anaActiva⟩ ∧
    (toggleUsuarioStatus envEjemplo 1 (toggleUsuarioStatus envEjemplo 1 dbDos).2).2.store =
      dbDos.store :=
  ⟨(toggle_twice_restores envEjemplo envEjemplo 1 dbDos anaActiva (by decide) (by decide)
      (by decide)).1,
   (toggle_twice_restores envEjemplo envEjemplo 1 dbDos anaActiva (by decide) (by decide)
      (by decide)).2.2.1,
   (toggle_twice_restores envEjemplo envEjemplo 1 dbDos anaActiva (by decide) (by decide)
      (by decide)).2.2.2⟩

/-- C10: when `deleteUsuario` (the soft delete) succeeds on the identifier of a row,
`getUsuarioById` on the same identifier still succeeds and returns that user with
`activo = false` and every other field as it was; the table has as many rows as before,
the rows with other identifiers are untouched, and the message is
`Usuario eliminado correctamente`. -/
theorem soft_delete_keeps_row (env : Env) (id : Nat) (db : Db) (u : Usuario) (m : String)
    (hu : (UsuarioRepository.findById id db).1 = some u)
    (hok : (deleteUsuario env id db).1 = .ok m) :
    (getUsuarioById id (deleteUsuario env id db).2).1 = .ok { u with activo := false } ∧
    (deleteUsuario env id db).2.store.rows.length = db.store.rows.length ∧
    (deleteUsuario env id db).2.store =
      ⟨db.store.rows.map (fun r => if r.id = id then { r with activo := false } else r),
       db.store.nextId⟩ ∧
    m = "Usuario eliminado correctamente" := by
  simp only [UsuarioRepository.findById, Orm.findByPk, Ident.coincide_nat] at hu
  have h0 : idInvalido id = false := by
    cases h : idInvalido id with
    | false => rfl
    | true => simp [deleteUsuario, h] at hok
  obtain ⟨b, hb⟩ : ∃ b, UsuarioRepository.delete env id (db.registrar .findByPk) =
      (.ok b, ⟨⟨db.store.rows.map (fun r =>
        if r.id = id then { r with activo := false } else r), db.store.nextId⟩,
        db.log ++ [.findByPk] ++ [.update]⟩) :=
    ⟨_, UsuarioRepository.delete_eq env id (db.registrar .findByPk)⟩
  have hd : deleteUsuario env id db =
      (match b with
        | false => .error (.error "No se pudo eliminar el usuario")
        | true => .ok "Usuario eliminado correctamente",
       ⟨⟨db.store.rows.map (fun r =>
        if r.id = id then { r with activo := false } else r), db.store.nextId⟩,
        db.log ++ [.findByPk] ++ [.update]⟩) := by
    simp only [deleteUsuario, h0, Bool.false_eq_true, ↓reduceIte, UsuarioRepository.findById,
      Orm.findByPk, hu, hb, Ident.coincide_nat]
    cases b <;> rfl
  rw [hd] at hok ⊢
  have hfa := find_after_activo false hu
  refine ⟨?_, by simp, rfl, ?_⟩
  · simp [getUsuarioById, h0, UsuarioRepository.findById, Orm.findByPk, hfa]
  · cases b with
    | false => simp at hok
    | true => simpa using hok.symm

/-- Witness of C10: the soft delete of Ana in `dbDos` succeeds and she is still found,
inactive. -/
theorem soft_delete_keeps_row_witness :
    (getUsuarioById 1 (deleteUsuario envEjemplo 1 dbDos).2).1 = .ok anaInactiva ∧
    (deleteUsuario envEjemplo 1 dbDos).2.store.rows.length = 2 :=
  ⟨(soft_delete_keeps_row envEjemplo 1 dbDos anaActiva "Usuario eliminado correctamente"
      (by decide) (by decide)).1,
   (soft_delete_keeps_row envEjemplo 1 dbDos anaActiva "Usuario eliminado correctamente"
      (by decide) (by decide)).2.1⟩

/-! ## Hard delete -/

/-- C11: for a valid identifier that a row has, `destroyUsuario` (the hard delete)
succeeds, and afterwards the row is unretrievable: `getUsuarioById` on the identifier
fails with `Usuario no encontrado`; the table is the table before without the rows that
carry the identifier, so every other row is there unchanged and no row is new. -/
theorem hard_delete_unretrievable (id : Nat) (db : Db) (u : Usuario) (hid : id ≠ 0)
    (hu : (UsuarioRepository.findById id db).1 = some u) :
    (destroyUsuario id db).1 = .ok "Usuario eliminado permanentemente" ∧
    (getUsuarioById id (destroyUsuario id db).2).1 = .error (.error "Usuario no encontrado") ∧
    (destroyUsuario id db).2.store =
      ⟨db.store.rows.filter (fun r => r.id != id), db.store.nextId⟩ ∧
    (∀ r, r ∈ (destroyUsuario id db).2.store.rows ↔ r ∈ db.store.rows ∧ r.id ≠ id) := by
  simp only [UsuarioRepository.findById, Orm.findByPk, Ident.coincide_nat] at hu
  have h0 : idInvalido id = false := by simp [idInvalido, hid]
  have humem : u ∈ db.store.rows := List.mem_of_find?_eq_some hu
  have huid : u.id = id := by simpa using List.find?_some hu
  have hpos : 0 < db.store.rows.countP (fun r => r.id == id) :=
    List.countP_pos_iff.mpr ⟨u, humem, by simp [huid]⟩
  have hd : destroyUsuario id db =
      (.ok "Usuario eliminado permanentemente",
       ⟨⟨db.store.rows.filter (fun r => r.id != id), db.store.nextId⟩,
        db.log ++ [.destroy]⟩) := by
    simp [destroyUsuario, h0, UsuarioRepository.destroy, Orm.destroy, Db.registrar, hpos]
    rfl
  have hnone : (db.store.rows.filter (fun r => r.id != id)).find? (fun r => r.id == id) =
      none := by
    rw [List.find?_eq_none]
    intro r hr
    have := (List.mem_filter.mp hr).2
    simpa using this
  refine ⟨by rw [hd], ?_, by rw [hd], ?_⟩
  · rw [hd]
    simp [getUsuarioById, h0, UsuarioRepository.findById, Orm.findByPk, hnone]
  · intro r
    rw [hd]
    simp [List.mem_filter]

/-- Witness of C11: the hard delete of Ana in `dbDos`; Luis stays. -/
theorem hard_delete_unretrievable_witness :
    (destroyUsuario 1 dbDos).1 = .ok "Usuario eliminado permanentemente" ∧
    (getUsuarioById 1 (destroyUsuario 1 dbDos).2).1 = .error (.error "Usuario no encontrado") ∧
    (destroyUsuario 1 dbDos).2.store = ⟨[luis], 3⟩ :=
  ⟨(hard_delete_unretrievable 1 dbDos anaActiva (by decide) (by decide)).1,
   (hard_delete_unretrievable 1 dbDos anaActiva (by decide) (by decide)).2.1,
   (hard_delete_unretrievable 1 dbDos anaActiva (by decide) (by decide)).2.2.1.trans
     (by decide)⟩

/-! ## Listing -/

/-- The offset `(page - 1) * limit` of a page from the first on, as a natural number. -/
theorem offset_toNat {page : Nat} (limit : Nat) (hp : 1 ≤ page) :
    (((page : Int) - 1) * (limit : Int)).toNat = (page - 1) * limit ∧
    ¬ (((page : Int) - 1) * (limit : Int) < 0) := by
  have h1 : ((page : Int) - 1) = ((page - 1 : Nat) : Int) := by omega
  rw [h1, ← Int.natCast_mul]
  exact ⟨Int.toNat_natCast _, by omega⟩

/-- The selection has as many rows as satisfy the filter. -/
theorem length_seleccionar (w : WhereClause) (rows : List Usuario) :
    (seleccionar w rows).length = (rows.filter w.cumple).length :=
  (List.perm_insertionSort masReciente _).length_eq

/-- The result of `getAllUsuarios` for a page from the first on. -/
theorem getAllUsuarios_eq (env : Env) (o : ListOptions) (db : Db) (hp : 1 ≤ o.page) :
    getAllUsuarios env o db =
      (.ok { data := ((seleccionar (whereClauseDe o) db.store.rows).drop
                        ((o.page - 1) * o.limit)).take o.limit,
             total := (db.store.rows.filter (whereClauseDe o).cumple).length,
             limit := o.limit,
             offset := ((o.page : Int) - 1) * (o.limit : Int) },
       db.registrar .findAndCountAll) := by
  obtain ⟨h1, h2⟩ := offset_toNat o.limit hp
  simp [getAllUsuarios, UsuarioRepository.findAll, Orm.findAndCountAll, h1, h2]

/-- The value `totalPages` is the ceiling of `total / limit`: the least number of pages of
`limit` rows that hold `total` rows. -/
theorem totalPages_spec (total : Nat) {limit : Nat} (hl : 1 ≤ limit) :
    ∃ k, Controller.totalPages total limit = some k ∧ total ≤ k * limit ∧
      ∀ j, total ≤ j * limit → k ≤ j := by
  refine ⟨(total + limit - 1) / limit, by simp [Controller.totalPages]; omega, ?_, ?_⟩
  · have := Nat.lt_mul_div_succ (total + limit - 1) (show 0 < limit by omega)
    have h2 : limit * ((total + limit - 1) / limit + 1) =
        ((total + limit - 1) / limit) * limit + limit := by ring
    omega
  · intro j hj
    have h2 : limit * (j + 1) = j * limit + limit := by ring
    have h3 : (total + limit - 1) / limit < j + 1 :=
      Nat.div_lt_of_lt_mul (by omega)
    omega

/-- C12: for `page ≥ 1` and `limit ≥ 1` on a table with `N` rows that satisfy the filter,
the listing skips `offset = (page - 1) * limit` rows of the ordered selection and returns
the next `limit` of them, that is `min limit (N - (page - 1) * limit)` rows (the
difference is `0` when the offset exceeds `N`); it reports `total = N`, and the controller
answers 200 with `totalPages` the ceiling of `N / limit`. -/
theorem listing_pagination (proc : Proceso) (env : Env) (o : ListOptions) (db : Db)
    (hp : 1 ≤ o.page) (hl : 1 ≤ o.limit) :
    ∃ pagina k, (getAllUsuarios env o db).1 = .ok pagina ∧
      pagina.data = ((seleccionar (whereClauseDe o) db.store.rows).drop
        ((o.page - 1) * o.limit)).take o.limit ∧
      pagina.data.length =
        min o.limit ((db.store.rows.filter (whereClauseDe o).cumple).length -
          (o.page - 1) * o.limit) ∧
      pagina.total = (db.store.rows.filter (whereClauseDe o).cumple).length ∧
      pagina.offset = (((o.page - 1) * o.limit : Nat) : Int) ∧
      (Controller.getAllUsuarios proc env o db).1 =
        exito 200 "Usuarios obtenidos correctamente"
          (some (.usuarios (pagina.data.map Usuario.toJSON)))
          (some { total := pagina.total, page := o.page, limit := o.limit,
                  totalPages := some k }) ∧
      pagina.total ≤ k * o.limit ∧ (∀ j, pagina.total ≤ j * o.limit → k ≤ j) := by
  have h := getAllUsuarios_eq env o db hp
  obtain ⟨k, hk1, hk2, hk3⟩ :=
    totalPages_spec (db.store.rows.filter (whereClauseDe o).cumple).length hl
  refine ⟨_, k, by rw [h], rfl, ?_, rfl, ?_, ?_, hk2, hk3⟩
  · simp [List.length_take, List.length_drop, length_seleccionar]
  · have h1 : ((o.page : Int) - 1) = ((o.page - 1 : Nat) : Int) := by omega
    simp only [h1, Int.natCast_mul]
  · simp only [Controller.getAllUsuarios, Controller.responderGetAllUsuarios,
      Controller.responder, h, hk1]

/-- Witness of C12: page 2 with limit 10 on the fifteen rows of `dbQuince` returns 5 rows
and `totalPages = 2`. -/
theorem listing_pagination_witness :
    ∃ pagina, (getAllUsuarios envEjemplo paginaDos dbQuince).1 = .ok pagina ∧
      pagina.data.length = 5 ∧ pagina.total = 15 ∧
      ((Controller.getAllUsuarios procEjemplo envEjemplo paginaDos dbQuince).1.pagination.map
        (fun p => p.totalPages)) = some (some 2) := by
  obtain ⟨pagina, k, h1, -, h3, h4, -, h6, h7, h8⟩ :=
    listing_pagination procEjemplo envEjemplo paginaDos dbQuince (by decide) (by decide)
  have hN : (dbQuince.store.rows.filter (whereClauseDe paginaDos).cumple).length = 15 := by
    decide
  rw [hN] at h3 h4
  have hk : k = 2 := by
    rw [h4] at h7 h8
    have := h8 2 (by decide)
    have h10 : paginaDos.limit = 10 := rfl
    rw [h10] at h7
    omega
  refine ⟨pagina, h1, h3.trans (by decide), h4, ?_⟩
  rw [h6, hk]
  rfl

/-- A row satisfies the filter of a listing exactly when its role is the one asked for,
if any, and its flag `activo` is the one asked for, if any. -/
theorem cumple_whereClauseDe (o : ListOptions) (r : Usuario) :
    (whereClauseDe o).cumple r = true ↔
      (o.rol = "" ∨ r.rol = o.rol) ∧ (o.activo = "" ∨ r.activo = (o.activo == "true")) := by
  unfold whereClauseDe WhereClause.cumple
  by_cases h1 : o.rol = "" <;> by_cases h2 : o.activo = "" <;> simp [h1, h2]

/-- C19: `getAllUsuarios` filters by `rol` and `activo` only. A row satisfies the filter
when `rol` is empty or is its role, and `activo` is empty (inactive rows are then
included like active ones) or its flag equals `activo === 'true'`. Whenever the call
returns (it does for every page from the first on, and for every page on SQLite), the
rows returned satisfy the filter, are ordered by `fecha_registro` descending, are the
page of the ordered rows that satisfy it, and are all of them when the first page is
asked with a limit that holds them; `total` counts the rows that satisfy the filter. The
option `search` changes nothing: two calls that differ in it alone return the same. -/
theorem listing_filter_and_order (env : Env) (o : ListOptions) (db : Db) :
    (∀ r, (whereClauseDe o).cumple r = true ↔
      (o.rol = "" ∨ r.rol = o.rol) ∧ (o.activo = "" ∨ r.activo = (o.activo == "true"))) ∧
    (1 ≤ o.page ∨ env.motor = .sqlite → ∃ pagina, (getAllUsuarios env o db).1 = .ok pagina) ∧
    (∀ pagina, (getAllUsuarios env o db).1 = .ok pagina →
      pagina.data = ((seleccionar (whereClauseDe o) db.store.rows).drop
        (((o.page : Int) - 1) * (o.limit : Int)).toNat).take o.limit ∧
      (seleccionar (whereClauseDe o) db.store.rows).Perm
        (db.store.rows.filter (whereClauseDe o).cumple) ∧
      pagina.data.Sorted masReciente ∧
      (∀ r ∈ pagina.data, r ∈ db.store.rows ∧ (whereClauseDe o).cumple r = true) ∧
      pagina.total = (db.store.rows.filter (whereClauseDe o).cumple).length ∧
      (o.page = 1 → pagina.total ≤ o.limit →
        pagina.data.Perm (db.store.rows.filter (whereClauseDe o).cumple))) ∧
    (∀ search, getAllUsuarios env { o with search := search } db = getAllUsuarios env o db) := by
  refine ⟨cumple_whereClauseDe o, ?_, ?_, fun _ => rfl⟩
  · intro h
    rcases h with h | h
    · exact ⟨_, by rw [getAllUsuarios_eq env o db h]⟩
    · exact ⟨_, by simp [getAllUsuarios, UsuarioRepository.findAll, Orm.findAndCountAll, h]; rfl⟩
  · intro pagina hpag
    have hperm : (seleccionar (whereClauseDe o) db.store.rows).Perm
        (db.store.rows.filter (whereClauseDe o).cumple) :=
      List.perm_insertionSort masReciente _
    have hsorted : (seleccionar (whereClauseDe o) db.store.rows).Sorted masReciente :=
      List.sorted_insertionSort masReciente _
    by_cases hrej : (((o.page : Int) - 1) * (o.limit : Int) < 0 && env.motor == .mysql) = true
    · simp [getAllUsuarios, UsuarioRepository.findAll, Orm.findAndCountAll, hrej] at hpag
    · simp only [getAllUsuarios, UsuarioRepository.findAll, Orm.findAndCountAll, hrej,
        Bool.false_eq_true, ↓reduceIte, Except.ok.injEq] at hpag
      subst hpag
      have hsub : (((seleccionar (whereClauseDe o) db.store.rows).drop
          (((o.page : Int) - 1) * (o.limit : Int)).toNat).take o.limit).Sublist
          (seleccionar (whereClauseDe o) db.store.rows) :=
        (List.take_sublist _ _).trans (List.drop_sublist _ _)
      refine ⟨rfl, hperm, hsorted.sublist hsub, ?_, rfl, ?_⟩
      · intro r hr
        have := hperm.subset (hsub.subset hr)
        exact ⟨(List.mem_filter.mp this).1, (List.mem_filter.mp this).2⟩
      · intro hp1 hle
        simp only at hle
        simp only [hp1, Nat.cast_one, sub_self, zero_mul, Int.toNat_zero, List.drop_zero]
        rw [List.take_of_length_le (by rw [length_seleccionar]; exact hle)]
        exact hperm

/-- Witness of C19: among the fifteen users, the inactive administrators are the users
4 and 10, the newer first, whatever the search text. -/
theorem listing_filter_and_order_witness :
    (∃ pagina, (getAllUsuarios envEjemplo soloAdminInactivos dbQuince).1 = .ok pagina) ∧
    getAllUsuarios envEjemplo { soloAdminInactivos with search := "" } dbQuince =
      getAllUsuarios envEjemplo soloAdminInactivos dbQuince ∧
    ((getAllUsuarios envEjemplo soloAdminInactivos dbQuince).1.toOption.map
      (fun p => p.data.map (fun r => r.id))) = some [10, 4] :=
  ⟨(listing_filter_and_order envEjemplo soloAdminInactivos dbQuince).2.1 (Or.inl (by decide)),
   (listing_filter_and_order envEjemplo soloAdminInactivos dbQuince).2.2.2 "",
   by decide⟩

/-! ## External representation -/

/-- The value of a key in an object from which another key was deleted. -/
theorem valor_borrar {values : JsObjeto} {key otra : String} (h : key ≠ otra) :
    (borrar otra values).valor key = values.valor key := by
  simp only [JsObjeto.valor, borrar, List.find?_filter]
  congr 2
  funext p
  by_cases hp : p.1 = key
  · simp [hp, h]
  · simp [hp]

/-- An object from which a key was deleted has no value for it. -/
theorem valor_borrar_self (values : JsObjeto) (key : String) :
    (borrar key values).valor key = none := by
  simp only [JsObjeto.valor, borrar, List.find?_filter, Option.map_eq_none']
  rw [List.find?_eq_none]
  intro p _
  by_cases hp : p.1 = key <;> simp [hp]

/-- A creation succeeds only on a body that passes validation. -/
theorem createUsuario_ok_valid {env : Env} {body : UsuarioData} {db : Db} {u : Usuario}
    (hok : (createUsuario env body db).1 = .ok u) :
    validateUsuarioData env body false = [] := by
  unfold createUsuario at hok
  by_cases hl : (validateUsuarioData env body false).length > 0
  · simp [hl] at hok
  · exact List.length_eq_zero.mp (by omega)

/-- The handler `createUsuario` answers a creation that succeeded with the instance that
`Usuario.create` returned. -/
theorem Controller.createUsuario_ok {proc : Proceso} {env : Env} {body : UsuarioData} {db : Db}
    {u : Usuario} (hok : (BossBudget.createUsuario env body db).1 = .ok u) :
    (Controller.createUsuario proc env body db).1 =
      exito 201 "Usuario creado correctamente"
        (some (.usuario (u.instanciaCreada (newUsuarioData env body u.password)).toJSON))
        none := by
  unfold Controller.createUsuario Controller.responderCreateUsuario Controller.responder
  cases hx : BossBudget.createUsuario env body db with
  | mk r db1 =>
    rw [hx] at hok
    simp only at hok
    subst hok
    rfl

/-- C13: the external representation `toJSON` of a user entity, whatever attributes it
holds, has no key `password`, and has every other key of the entity with its value
unchanged, and no other key; for an entity read from the table these are the nine
columns of the row other than the password. The handler `createUsuario` answers a successful
creation with status 201 and that representation of the instance `Usuario.create`
returned as `data`: it carries no password; it carries the identifier, the name, the
email, `activo`, the role and `fecha_registro` of the new row, and the phone, the birth
date and `ultima_actividad` exactly when the body supplied them. -/
theorem toJSON_hides_password (i : Instancia) :
    i.toJSON.valor "password" = none ∧
    (∀ p ∈ i.toJSON, p.1 ≠ "password") ∧
    (∀ key, key ≠ "password" → i.toJSON.valor key = i.get.valor key) ∧
    (∀ p, p ∈ i.toJSON ↔ p ∈ i.get ∧ p.1 ≠ "password") ∧
    (∀ u : Usuario,
      u.toJSON.valor "password" = none ∧
      u.toJSON.valor "id" = some (.num u.id) ∧
      u.toJSON.valor "nombre" = some (.str u.nombre) ∧
      u.toJSON.valor "email" = some (.str u.email) ∧
      u.toJSON.valor "telefono" = some (.deTexto u.telefono) ∧
      u.toJSON.valor "fecha_nacimiento" = some (.deTexto u.fecha_nacimiento) ∧
      u.toJSON.valor "activo" = some (.bool u.activo) ∧
      u.toJSON.valor "rol" = some (.str u.rol) ∧
      u.toJSON.valor "fecha_registro" = some (.num u.fecha_registro) ∧
      u.toJSON.valor "ultima_actividad" = some (.deFecha u.ultima_actividad)) ∧
    (∀ (proc : Proceso) (env : Env) (body : UsuarioData) (db : Db) (u : Usuario),
      (createUsuario env body db).1 = .ok u →
      ∃ o, (Controller.createUsuario proc env body db).1 =
          exito 201 "Usuario creado correctamente" (some (.usuario o)) none ∧
        o.valor "password" = none ∧ (∀ p ∈ o, p.1 ≠ "password") ∧
        (∀ p ∈ o, p.1 ∈ ["id", "nombre", "email", "telefono", "fecha_nacimiento", "activo",
          "rol", "fecha_registro", "ultima_actividad"]) ∧
        o.valor "id" = some (.num u.id) ∧ o.valor "nombre" = some (.str u.nombre) ∧
        o.valor "email" = some (.str u.email) ∧ o.valor "activo" = some (.bool u.activo) ∧
        o.valor "rol" = some (.str u.rol) ∧
        o.valor "fecha_registro" = some (.num u.fecha_registro) ∧
        o.valor "telefono" =
          (if body.telefono.defined then some (.deTexto u.telefono) else none) ∧
        o.valor "fecha_nacimiento" =
          (if body.fecha_nacimiento.defined then some (.deTexto u.fecha_nacimiento)
           else none) ∧
        o.valor "ultima_actividad" =
          (if body.ultima_actividad.defined then some (.deFecha u.ultima_actividad)
           else none)) := by
  have hmem : ∀ (j : Instancia) (p : String × JsValor),
      p ∈ j.toJSON ↔ p ∈ j.get ∧ p.1 ≠ "password" := by
    intro j p
    simp [Instancia.toJSON, borrar, List.mem_filter]
  refine ⟨valor_borrar_self _ _, fun p hp => ((hmem i p).mp hp).2,
    fun key hkey => valor_borrar hkey, hmem i,
    fun u => ⟨rfl, rfl, rfl, rfl, rfl, rfl, rfl, rfl, rfl, rfl⟩, ?_⟩
  intro proc env body db u hok
  obtain ⟨n, e, p, hn, he, -, -, -, -⟩ := valid_create_fields (createUsuario_ok_valid hok)
  have hkeys : ∀ p ∈ (u.instanciaCreada (newUsuarioData env body u.password)).toJSON,
      p.1 ∈ ["id", "nombre", "email", "telefono", "fecha_nacimiento", "activo",
        "rol", "fecha_registro", "ultima_actividad"] := by
    intro p hp
    obtain ⟨hp1, hp2⟩ := (hmem _ p).mp hp
    have hp3 : p ∈ u.instancia.dataValues := (List.mem_filter.mp hp1).1
    simp only [Usuario.instancia, List.mem_cons, List.mem_singleton, List.not_mem_nil,
      or_false] at hp3
    rcases hp3 with h | h | h | h | h | h | h | h | h | h <;> rw [h] at hp2 ⊢ <;> simp at hp2 ⊢
  refine ⟨_, Controller.createUsuario_ok hok, valor_borrar_self _ _,
    fun p hp => ((hmem _ p).mp hp).2, hkeys, ?_, ?_, ?_, ?_, ?_, ?_, ?_, ?_, ?_⟩
  all_goals
    simp only [Instancia.toJSON, Instancia.get, Usuario.instanciaCreada, Usuario.instancia,
      UsuarioData.tiene, newUsuarioData, hn, he]
    generalize body.telefono.defined = b1
    generalize body.fecha_nacimiento.defined = b2
    generalize body.ultima_actividad.defined = b3
    generalize body.rol.defined = b4
    cases b1 <;> cases b2 <;> cases b3 <;> cases b4 <;> rfl

/-- Witness of C13: the representation of Ana read from the table has no password and
has her email; the response to the creation of the specification example carries the
identifier, the name, the email, `activo`, the role and `fecha_registro`, and neither a
password nor the three attributes the body left out. -/
theorem toJSON_hides_password_witness :
    anaActiva.toJSON.valor "password" = none ∧
    anaActiva.toJSON.valor "email" = some (.str "ana@x.com") ∧
    ∃ o, (Controller.createUsuario procEjemplo envEjemplo altaAna dbVacia).1 =
        exito 201 "Usuario creado correctamente" (some (.usuario o)) none ∧
      o.valor "password" = none ∧
      o.valor "id" = some (.num 1) ∧ o.valor "nombre" = some (.str "Ana Gomez") ∧
      o.valor "email" = some (.str "ana@x.com") ∧ o.valor "activo" = some (.bool true) ∧
      o.valor "rol" = some (.str "usuario") ∧ o.valor "fecha_registro" = some (.num 1000) ∧
      o.valor "telefono" = none ∧ o.valor "fecha_nacimiento" = none ∧
      o.valor "ultima_actividad" = none := by
  refine ⟨(toJSON_hides_password anaActiva.instancia).1,
    ((toJSON_hides_password anaActiva.instancia).2.2.1 "email" (by decide)).trans (by decide),
    ?_⟩
  obtain ⟨o, h1, h2, -, -, h5, h6, h7, h8, h9, h10, h11, h12, h13⟩ :=
    (toJSON_hides_password anaActiva.instancia).2.2.2.2.2 procEjemplo envEjemplo altaAna dbVacia
      { anaActiva with fecha_registro := 1000 } (by decide)
  exact ⟨o, h1, h2, h5, h6, h7, h8, h9, h10, h11, h12, h13⟩

/-! ## Errors of the service at the controller -/

/-- The errors `createUsuario` throws itself: the validation error and the conflict. -/
theorem createUsuario_errors {env : Env} {d : UsuarioData} {db : Db} {m : String}
    (h : (createUsuario env d db).1 = .error (.error m)) :
    m = "Datos inválidos: " ++ ", ".intercalate (validateUsuarioData env d false) ∨
    m = "Ya existe un usuario con este email" := by
  unfold createUsuario at h
  by_cases hl : (validateUsuarioData env d false).length > 0
  · simp only [hl, ↓reduceIte, datosInvalidos, Except.error.injEq, ErrorJs.error.injEq] at h
    exact Or.inl h.symm
  · simp only [hl, ↓reduceIte, emailExists_none] at h
    by_cases hex : ∃ r ∈ db.store.rows, Campo.valor r.email = d.email
    · simp only [hex, decide_True, Except.error.injEq, ErrorJs.error.injEq] at h
      exact Or.inr h.symm
    · simp only [hex, decide_False] at h
      cases hh : hashPassword env d.password with
      | error e =>
        rw [hh] at h
        cases hd : d.password <;> simp [hashPassword, hd] at hh
        all_goals subst hh; simp at h
      | ok hashed =>
        rw [hh] at h
        exact absurd h (Orm.create_ne_error _ _ _ _)

/-- The errors `getUsuarioById` throws itself. -/
theorem getUsuarioById_errors {ι : Type} [Ident ι] {id : ι} {db : Db} {m : String}
    (h : (getUsuarioById id db).1 = .error (.error m)) :
    m = "ID de usuario inválido" ∨ m = "Usuario no encontrado" := by
  unfold getUsuarioById at h
  by_cases h0 : idInvalido id = true
  · simp only [h0, ↓reduceIte, Except.error.injEq, ErrorJs.error.injEq] at h
    exact Or.inl h.symm
  · simp only [h0, Bool.false_eq_true, ↓reduceIte, UsuarioRepository.findById,
      Orm.findByPk] at h
    cases hf : db.store.rows.find? (fun r => Ident.coincide id r.id) with
    | none =>
      simp only [hf, Except.error.injEq, ErrorJs.error.injEq] at h
      exact Or.inr h.symm
    | some u => simp [hf] at h

/-- The errors `updateUsuario` throws itself. -/
theorem updateUsuario_errors {ι : Type} [Ident ι] {env : Env} {id : ι} {d : UsuarioData}
    {db : Db} {m : String}
    (h : (updateUsuario env id d db).1 = .error (.error m)) :
    m = "ID de usuario inválido" ∨ m = "Usuario no encontrado" ∨
    m = "Datos inválidos: " ++ ", ".intercalate (validateUsuarioData env d true) ∨
    m = "Ya existe un usuario con este email" := by
  unfold updateUsuario at h
  by_cases h0 : idInvalido id = true
  · simp only [h0, ↓reduceIte, Except.error.injEq, ErrorJs.error.injEq] at h
    exact Or.inl h.symm
  · simp only [h0, Bool.false_eq_true, ↓reduceIte, UsuarioRepository.findById,
      Orm.findByPk] at h
    cases hf : db.store.rows.find? (fun r => Ident.coincide id r.id) with
    | none =>
      simp only [hf, Except.error.injEq, ErrorJs.error.injEq] at h
      exact Or.inr (Or.inl h.symm)
    | some u =>
      simp only [hf] at h
      by_cases hl : (validateUsuarioData env d true).length > 0
      · simp only [hl, ↓reduceIte, datosInvalidos, Except.error.injEq,
          ErrorJs.error.injEq] at h
        exact Or.inr (Or.inr (Or.inl h.symm))
      · simp only [hl, ↓reduceIte] at h
        have hpr : ∀ m2, (if d.email.truthy = true then
            UsuarioRepository.emailExists d.email (some id) (db.registrar .findByPk)
            else (.ok false, db.registrar .findByPk)).1 ≠ .error (.error m2) := by
          intro m2
          split
          · unfold UsuarioRepository.emailExists
            simp only [UsuarioRepository.conexionOp]
            split <;> simp [Orm.count]
          · simp
        generalize (if d.email.truthy = true then
            UsuarioRepository.emailExists d.email (some id) (db.registrar .findByPk)
            else (.ok false, db.registrar .findByPk)) = pr at h hpr
        obtain ⟨b, db2⟩ := pr
        cases b with
        | error e2 =>
          simp only [Except.error.injEq] at h
          exact absurd (by rw [h]) (hpr m)
        | ok b =>
          cases b with
          | true =>
            simp only [Except.error.injEq, ErrorJs.error.injEq] at h
            exact Or.inr (Or.inr (Or.inr h.symm))
          | false =>
            simp only [] at h
            by_cases hp : d.password.truthy = true
            · simp only [hp, ↓reduceIte] at h
              cases hh : hashPassword env d.password with
              | error e =>
                rw [hh] at h
                cases hd : d.password <;> simp [hashPassword, hd] at hh
                all_goals subst hh; simp at h
              | ok hashed =>
                rw [hh] at h
                exact absurd h (UsuarioRepository.update_raises_orm _ _ _ _ _)
            · simp only [hp] at h
              exact absurd h (UsuarioRepository.update_raises_orm _ _ _ _ _)

/-- What the soft delete of the repository raises is an error of the ORM. -/
theorem UsuarioRepository.delete_raises_orm {ι : Type} [Ident ι] (env : Env) (id : ι) (db : Db)
    (m : String) : (UsuarioRepository.delete env id db).1 ≠ .error (.error m) := by
  unfold UsuarioRepository.delete
  have h := Orm.update_ne_error env { UsuarioData.vacio with activo := .valor false } id db m
  cases hx : Orm.update env { UsuarioData.vacio with activo := .valor false } id db with
  | mk r db1 =>
    rw [hx] at h
    cases r with
    | error e => simpa using h
    | ok n => simp

/-- The errors `deleteUsuario` throws itself. -/
theorem deleteUsuario_errors {ι : Type} [Ident ι] {env : Env} {id : ι} {db : Db} {m : String}
    (h : (deleteUsuario env id db).1 = .error (.error m)) :
    m = "ID de usuario inválido" ∨ m = "Usuario no encontrado" ∨
    m = "No se pudo eliminar el usuario" := by
  unfold deleteUsuario at h
  by_cases h0 : idInvalido id = true
  · simp only [h0, ↓reduceIte, Except.error.injEq, ErrorJs.error.injEq] at h
    exact Or.inl h.symm
  · simp only [h0, Bool.false_eq_true, ↓reduceIte, UsuarioRepository.findById,
      Orm.findByPk] at h
    cases hf : db.store.rows.find? (fun r => Ident.coincide id r.id) with
    | none =>
      simp only [hf, Except.error.injEq, ErrorJs.error.injEq] at h
      exact Or.inr (Or.inl h.symm)
    | some u =>
      simp only [hf] at h
      have hd := UsuarioRepository.delete_raises_orm env id (db.registrar .findByPk) m
      cases hx : UsuarioRepository.delete env id (db.registrar .findByPk) with
      | mk r db1 =>
        rw [hx] at h hd
        cases r with
        | error e =>
          simp only [Except.error.injEq] at h
          exact absurd (by rw [h]) hd
        | ok b =>
          cases b with
          | false =>
            simp only [Except.error.injEq, ErrorJs.error.injEq] at h
            exact Or.inr (Or.inr h.symm)
          | true => simp at h

/-- The errors `destroyUsuario` throws itself. -/
theorem destroyUsuario_errors {ι : Type} [Ident ι] {id : ι} {db : Db} {m : String}
    (h : (destroyUsuario id db).1 = .error (.error m)) :
    m = "ID de usuario inválido" ∨ m = "No se pudo eliminar el usuario permanentemente" := by
  unfold destroyUsuario at h
  by_cases h0 : idInvalido id = true
  · simp only [h0, ↓reduceIte, Except.error.injEq, ErrorJs.error.injEq] at h
    exact Or.inl h.symm
  · simp only [h0, Bool.false_eq_true, ↓reduceIte] at h
    split at h
    · simp only [Except.error.injEq, ErrorJs.error.injEq] at h
      exact Or.inr h.symm
    · simp at h

/-- The errors `toggleUsuarioStatus` throws itself. -/
theorem toggleUsuarioStatus_errors {ι : Type} [Ident ι] {env : Env} {id : ι} {db : Db}
    {m : String}
    (h : (toggleUsuarioStatus env id db).1 = .error (.error m)) :
    m = "ID de usuario inválido" ∨ m = "Usuario no encontrado" := by
  unfold toggleUsuarioStatus at h
  by_cases h0 : idInvalido id = true
  · simp only [h0, ↓reduceIte, Except.error.injEq, ErrorJs.error.injEq] at h
    exact Or.inl h.symm
  · simp only [h0, Bool.false_eq_true, ↓reduceIte, UsuarioRepository.findById,
      Orm.findByPk] at h
    cases hf : db.store.rows.find? (fun r => Ident.coincide id r.id) with
    | none =>
      simp only [hf, Except.error.injEq, ErrorJs.error.injEq] at h
      exact Or.inr h.symm
    | some u =>
      simp only [hf] at h
      have hd := UsuarioRepository.update_raises_orm env id
        { UsuarioData.vacio with activo := .valor (!u.activo) } (db.registrar .findByPk) m
      cases hx : UsuarioRepository.update env id
        { UsuarioData.vacio with activo := .valor (!u.activo) } (db.registrar .findByPk) with
      | mk r db1 =>
        rw [hx] at h hd
        cases r with
        | error e =>
          simp only [Except.error.injEq] at h
          exact absurd (by rw [h]) hd
        | ok b => simp at h

/-- The errors `authenticateUsuario` throws itself. -/
theorem authenticateUsuario_errors {env : Env} {email password : String} {db : Db} {m : String}
    (h : (authenticateUsuario env email password db).1 = .error (.error m)) :
    m = "Email y contraseña son requeridos" ∨ m = "Credenciales inválidas" ∨
    m = "Usuario inactivo" := by
  unfold authenticateUsuario at h
  by_cases h0 : (email == "" || password == "") = true
  · simp only [h0, ↓reduceIte, Except.error.injEq, ErrorJs.error.injEq] at h
    exact Or.inl h.symm
  · simp only [h0, Bool.false_eq_true, ↓reduceIte, UsuarioRepository.findByEmail,
      Orm.findOne] at h
    cases hf : db.store.rows.find? (fun r => r.email == email) with
    | none =>
      simp only [hf, Except.error.injEq, ErrorJs.error.injEq] at h
      exact Or.inr (Or.inl h.symm)
    | some u =>
      simp only [hf] at h
      by_cases ha : (!u.activo) = true
      · simp only [ha, ↓reduceIte, Except.error.injEq, ErrorJs.error.injEq] at h
        exact Or.inr (Or.inr h.symm)
      · simp only [ha, Bool.false_eq_true, ↓reduceIte] at h
        by_cases hv : (!verifyPassword env password u.password) = true
        · simp only [hv, ↓reduceIte, Except.error.injEq, ErrorJs.error.injEq] at h
          exact Or.inr (Or.inl h.symm)
        · simp only [hv, Bool.false_eq_true, ↓reduceIte] at h
          obtain ⟨b, hb⟩ := updateLastActivity_eq env u.id (db.registrar .findOne)
          rw [hb] at h
          simp at h

/-- The validation error, whatever rules it reports, at the two handlers that can receive
it: status 400. -/
theorem catch_datosInvalidos (c1 c2 c3 c4 c5 c6 dev : Bool) :
    Controller.catchCreateUsuario dev ("Datos inválidos: " ++ ", ".intercalate
      (([(c1, msgNombre), (c2, msgEmail), (c3, msgPassword), (c4, msgTelefono),
         (c5, msgRol), (c6, msgFecha)].filter (fun p => p.1)).map (fun p => p.2))) =
      respuestaSegunSpec dev ("Datos inválidos: " ++ ", ".intercalate
      (([(c1, msgNombre), (c2, msgEmail), (c3, msgPassword), (c4, msgTelefono),
         (c5, msgRol), (c6, msgFecha)].filter (fun p => p.1)).map (fun p => p.2))) ∧
    Controller.catchUpdateUsuario dev ("Datos inválidos: " ++ ", ".intercalate
      (([(c1, msgNombre), (c2, msgEmail), (c3, msgPassword), (c4, msgTelefono),
         (c5, msgRol), (c6, msgFecha)].filter (fun p => p.1)).map (fun p => p.2))) =
      respuestaSegunSpec dev ("Datos inválidos: " ++ ", ".intercalate
      (([(c1, msgNombre), (c2, msgEmail), (c3, msgPassword), (c4, msgTelefono),
         (c5, msgRol), (c6, msgFecha)].filter (fun p => p.1)).map (fun p => p.2))) ∧
    estadoSegunSpec ("Datos inválidos: " ++ ", ".intercalate
      (([(c1, msgNombre), (c2, msgEmail), (c3, msgPassword), (c4, msgTelefono),
         (c5, msgRol), (c6, msgFecha)].filter (fun p => p.1)).map (fun p => p.2))) = 400 := by
  revert c1 c2 c3 c4 c5 c6 dev
  decide!

/-- The validation error of a body at the two handlers that can receive it. -/
theorem catch_validacion (env : Env) (d : UsuarioData) (isUpdate dev : Bool) :
    Controller.catchCreateUsuario dev
        ("Datos inválidos: " ++ ", ".intercalate (validateUsuarioData env d isUpdate)) =
      respuestaSegunSpec dev
        ("Datos inválidos: " ++ ", ".intercalate (validateUsuarioData env d isUpdate)) ∧
    Controller.catchUpdateUsuario dev
        ("Datos inválidos: " ++ ", ".intercalate (validateUsuarioData env d isUpdate)) =
      respuestaSegunSpec dev
        ("Datos inválidos: " ++ ", ".intercalate (validateUsuarioData env d isUpdate)) ∧
    estadoSegunSpec
      ("Datos inválidos: " ++ ", ".intercalate (validateUsuarioData env d isUpdate)) = 400 := by
  rw [validateUsuarioData_eq]
  exact catch_datosInvalidos _ _ _ _ _ _ dev

/-- The fixed messages of the service at the handlers that can receive them. -/
theorem catch_mensajes_fijos (dev : Bool) :
    Controller.catchCreateUsuario dev "Ya existe un usuario con este email" =
      respuestaSegunSpec dev "Ya existe un usuario con este email" ∧
    Controller.catchUpdateUsuario dev "Ya existe un usuario con este email" =
      respuestaSegunSpec dev "Ya existe un usuario con este email" ∧
    Controller.catchUpdateUsuario dev "ID de usuario inválido" =
      respuestaSegunSpec dev "ID de usuario inválido" ∧
    Controller.catchUpdateUsuario dev "Usuario no encontrado" =
      respuestaSegunSpec dev "Usuario no encontrado" ∧
    Controller.catchPorId dev "ID de usuario inválido" =
      respuestaSegunSpec dev "ID de usuario inválido" ∧
    Controller.catchPorId dev "Usuario no encontrado" =
      respuestaSegunSpec dev "Usuario no encontrado" ∧
    Controller.catchPorId dev "No se pudo eliminar el usuario" =
      respuestaSegunSpec dev "No se pudo eliminar el usuario" ∧
    Controller.catchDestroyUsuario dev "ID de usuario inválido" =
      respuestaSegunSpec dev "ID de usuario inválido" ∧
    Controller.catchDestroyUsuario dev "No se pudo eliminar el usuario permanentemente" =
      respuestaSegunSpec dev "No se pudo eliminar el usuario permanentemente" ∧
    Controller.catchAuthenticateUsuario dev "Email y contraseña son requeridos" =
      respuestaSegunSpec dev "Email y contraseña son requeridos" ∧
    Controller.catchAuthenticateUsuario dev "Email inválido" =
      respuestaSegunSpec dev "Email inválido" ∧
    Controller.catchAuthenticateUsuario dev "Credenciales inválidas" =
      respuestaSegunSpec dev "Credenciales inválidas" ∧
    Controller.catchAuthenticateUsuario dev "Usuario inactivo" =
      respuestaSegunSpec dev "Usuario inactivo" := by
  revert dev
  decide!

/-- An error whose message carries none of the texts the controller looks for is answered
with 500 by every handler. -/
theorem catch_sinPatron {m : String} (h : sinPatron m = true) (dev : Bool) :
    respuestaSegunSpec dev m = errorInterno dev m ∧
    Controller.catchCreateUsuario dev m = errorInterno dev m ∧
    Controller.catchSinReglas dev m = errorInterno dev m ∧
    Controller.catchPorId dev m = errorInterno dev m ∧
    Controller.catchUpdateUsuario dev m = errorInterno dev m ∧
    Controller.catchDestroyUsuario dev m = errorInterno dev m ∧
    Controller.catchAuthenticateUsuario dev m = errorInterno dev m := by
  simp only [sinPatron, Bool.not_eq_true', Bool.or_eq_false_iff] at h
  obtain ⟨⟨⟨⟨⟨⟨⟨h1, h2⟩, h3⟩, h4⟩, h5⟩, h6⟩, h7⟩, h8⟩ := h
  simp [respuestaSegunSpec, estadoSegunSpec, Controller.catchCreateUsuario,
    Controller.catchSinReglas, Controller.catchPorId, Controller.catchUpdateUsuario,
    Controller.catchDestroyUsuario, Controller.catchAuthenticateUsuario,
    h1, h2, h3, h4, h5, h6, h7, h8]

/-- The listing throws no error of its own. -/
theorem getAllUsuarios_errors {env : Env} {o : ListOptions} {db : Db} {m : String} :
    (getAllUsuarios env o db).1 ≠ .error (.error m) := by
  by_cases hrej : (((o.page : Int) - 1) * (o.limit : Int) < 0 && env.motor == .mysql) = true
  · simp [getAllUsuarios, UsuarioRepository.findAll, Orm.findAndCountAll, hrej]
  · simp [getAllUsuarios, UsuarioRepository.findAll, Orm.findAndCountAll, hrej]

/-- The answer of a handler to an outcome that is an error is the answer of its `catch`
block. -/
theorem Controller.responder_error {α : Type} (proc : Proceso) (exitoDe : α → Respuesta)
    (catch_ : Bool → String → Respuesta) {r : Except ErrorJs α × Db} {e : ErrorJs}
    (h : r.1 = .error e) :
    (Controller.responder proc exitoDe catch_ r).1 = catch_ proc.desarrollo (proc.mensaje e) := by
  obtain ⟨x, db1⟩ := r
  simp only at h
  subst h
  rfl

/-- C14: every handler answers an error of its service call by the content of the
message, as the specification tables it (`respuestaSegunSpec`): the validation error
400, the duplicate email 409, `Usuario no encontrado` 404, `ID de usuario inválido` 400,
the authentication failures 401, with the message of the error in the body; any other
error 500 with the fixed message `Error interno del servidor`, whose body carries the
message of the error exactly when `NODE_ENV` is `development`. First, for each handler
and every error its service call raises, an error the service throws itself or an error
of a library whose message carries none of the texts the controller looks for. Second,
for the `catch` block of each handler on any error at all whose message carries none of
those texts, also where the service call of the embedding raises none. Third, each
handler is its `try`/`catch` on the outcome of its service call. -/
theorem controller_error_mapping {ι : Type} [Ident ι] (proc : Proceso) (env : Env) :
    ((∀ body db e, (createUsuario env body db).1 = .error e →
        ((∃ m, e = .error m) ∨ sinPatron (proc.mensaje e) = true) →
        (Controller.createUsuario proc env body db).1 =
          respuestaSegunSpec proc.desarrollo (proc.mensaje e)) ∧
     (∀ o db e, (getAllUsuarios env o db).1 = .error e →
        ((∃ m, e = .error m) ∨ sinPatron (proc.mensaje e) = true) →
        (Controller.getAllUsuarios proc env o db).1 =
          respuestaSegunSpec proc.desarrollo (proc.mensaje e)) ∧
     (∀ (id : ι) db e, (getUsuarioById id db).1 = .error e →
        ((∃ m, e = .error m) ∨ sinPatron (proc.mensaje e) = true) →
        (Controller.getUsuarioById proc id db).1 =
          respuestaSegunSpec proc.desarrollo (proc.mensaje e)) ∧
     (∀ (id : ι) body db e, (updateUsuario env id body db).1 = .error e →
        ((∃ m, e = .error m) ∨ sinPatron (proc.mensaje e) = true) →
        (Controller.updateUsuario proc env id body db).1 =
          respuestaSegunSpec proc.desarrollo (proc.mensaje e)) ∧
     (∀ (id : ι) db e, (deleteUsuario env id db).1 = .error e →
        ((∃ m, e = .error m) ∨ sinPatron (proc.mensaje e) = true) →
        (Controller.deleteUsuario proc env id db).1 =
          respuestaSegunSpec proc.desarrollo (proc.mensaje e)) ∧
     (∀ (id : ι) db e, (destroyUsuario id db).1 = .error e →
        ((∃ m, e = .error m) ∨ sinPatron (proc.mensaje e) = true) →
        (Controller.destroyUsuario proc id db).1 =
          respuestaSegunSpec proc.desarrollo (proc.mensaje e)) ∧
     (∀ (id : ι) db e, (toggleUsuarioStatus env id db).1 = .error e →
        ((∃ m, e = .error m) ∨ sinPatron (proc.mensaje e) = true) →
        (Controller.toggleUsuarioStatus proc env id db).1 =
          respuestaSegunSpec proc.desarrollo (proc.mensaje e)) ∧
     (∀ email password db e,
        (authenticateUsuario env (email.sobre "") (password.sobre "") db).1 = .error e →
        ((∃ m, e = .error m) ∨ sinPatron (proc.mensaje e) = true) →
        (Controller.authenticateUsuario proc env email password db).1 =
          respuestaSegunSpec proc.desarrollo (proc.mensaje e))) ∧
    (∀ e db1, sinPatron (proc.mensaje e) = true →
      (∀ body, Controller.responderCreateUsuario proc env body (.error e, db1) =
        (respuestaSegunSpec proc.desarrollo (proc.mensaje e), db1)) ∧
      (∀ o, Controller.responderGetAllUsuarios proc o (.error e, db1) =
        (respuestaSegunSpec proc.desarrollo (proc.mensaje e), db1)) ∧
      Controller.responderGetUsuarioById proc (.error e, db1) =
        (respuestaSegunSpec proc.desarrollo (proc.mensaje e), db1) ∧
      Controller.responderUpdateUsuario proc (.error e, db1) =
        (respuestaSegunSpec proc.desarrollo (proc.mensaje e), db1) ∧
      Controller.responderDeleteUsuario proc (.error e, db1) =
        (respuestaSegunSpec proc.desarrollo (proc.mensaje e), db1) ∧
      Controller.responderDestroyUsuario proc (.error e, db1) =
        (respuestaSegunSpec proc.desarrollo (proc.mensaje e), db1) ∧
      Controller.responderToggleUsuarioStatus proc (.error e, db1) =
        (respuestaSegunSpec proc.desarrollo (proc.mensaje e), db1) ∧
      Controller.responderGetStats proc (.error e, db1) =
        (respuestaSegunSpec proc.desarrollo (proc.mensaje e), db1) ∧
      Controller.responderAuthenticateUsuario proc (.error e, db1) =
        (respuestaSegunSpec proc.desarrollo (proc.mensaje e), db1) ∧
      respuestaSegunSpec proc.desarrollo (proc.mensaje e) =
        { code := 500, status := "error", message := "Error interno del servidor",
          data := none, pagination := none,
          error := if proc.nodeEnv = some "development" then some (proc.mensaje e)
            else none }) ∧
    ((∀ body db, Controller.createUsuario proc env body db =
        Controller.responderCreateUsuario proc env body (createUsuario env body db)) ∧
     (∀ o db, Controller.getAllUsuarios proc env o db =
        Controller.responderGetAllUsuarios proc o (getAllUsuarios env o db)) ∧
     (∀ (id : ι) db, Controller.getUsuarioById proc id db =
        Controller.responderGetUsuarioById proc (getUsuarioById id db)) ∧
     (∀ (id : ι) body db, Controller.updateUsuario proc env id body db =
        Controller.responderUpdateUsuario proc (updateUsuario env id body db)) ∧
     (∀ (id : ι) db, Controller.deleteUsuario proc env id db =
        Controller.responderDeleteUsuario proc (deleteUsuario env id db)) ∧
     (∀ (id : ι) db, Controller.destroyUsuario proc id db =
        Controller.responderDestroyUsuario proc (destroyUsuario id db)) ∧
     (∀ (id : ι) db, Controller.toggleUsuarioStatus proc env id db =
        Controller.responderToggleUsuarioStatus proc (toggleUsuarioStatus env id db)) ∧
     (∀ db, Controller.getStats proc db =
        Controller.responderGetStats proc (getStats db)) ∧
     (∀ email password db, Controller.authenticateUsuario proc env email password db =
        Controller.responderAuthenticateUsuario proc
          (authenticateUsuario env (email.sobre "") (password.sobre "") db))) ∧
    ((∀ d isUpdate, estadoSegunSpec
        ("Datos inválidos: " ++ ", ".intercalate (validateUsuarioData env d isUpdate)) = 400) ∧
     estadoSegunSpec "Ya existe un usuario con este email" = 409 ∧
     estadoSegunSpec "Usuario no encontrado" = 404 ∧
     estadoSegunSpec "ID de usuario inválido" = 400 ∧
     estadoSegunSpec "Email y contraseña son requeridos" = 401 ∧
     estadoSegunSpec "Email inválido" = 401 ∧
     estadoSegunSpec "Credenciales inválidas" = 401 ∧
     estadoSegunSpec "Usuario inactivo" = 401 ∧
     (∀ m, estadoSegunSpec m ≠ 500 →
       respuestaSegunSpec proc.desarrollo m =
         { code := estadoSegunSpec m, status := "error", message := m, data := none,
           pagination := none, error := none }) ∧
     (∀ m, estadoSegunSpec m = 500 →
       respuestaSegunSpec proc.desarrollo m =
         { code := 500, status := "error", message := "Error interno del servidor",
           data := none, pagination := none,
           error := if proc.nodeEnv = some "development" then some m else none })) := by
  have hfix := catch_mensajes_fijos proc.desarrollo
  obtain ⟨f1, f2, f3, f4, f5, f6, f7, f8, f9, f10, -, f12, f13⟩ := hfix
  have h500 : ∀ m, estadoSegunSpec m = 500 →
      respuestaSegunSpec proc.desarrollo m =
        { code := 500, status := "error", message := "Error interno del servidor",
          data := none, pagination := none,
          error := if proc.nodeEnv = some "development" then some m else none } := by
    intro m hm
    simp [respuestaSegunSpec, hm, errorInterno, Proceso.desarrollo]
  have hsin500 : ∀ m, sinPatron m = true → estadoSegunSpec m = 500 := by
    intro m h
    simp only [sinPatron, Bool.not_eq_true', Bool.or_eq_false_iff] at h
    obtain ⟨⟨⟨⟨⟨⟨⟨h1, h2⟩, h3⟩, h4⟩, h5⟩, h6⟩, h7⟩, h8⟩ := h
    simp [estadoSegunSpec, h1, h2, h3, h4, h5, h6, h7, h8]
  refine ⟨⟨?_, ?_, ?_, ?_, ?_, ?_, ?_, ?_⟩, ?_,
    ⟨fun _ _ => rfl, fun _ _ => rfl, fun _ _ => rfl, fun _ _ _ => rfl, fun _ _ => rfl,
     fun _ _ => rfl, fun _ _ => rfl, fun _ => rfl, fun _ _ _ => rfl⟩,
    ⟨fun d isUpdate => (catch_validacion env d isUpdate false).2.2,
     by decide!, by decide!, by decide!, by decide!, by decide!, by decide!, by decide!, ?_,
     h500⟩⟩
  · intro body db e h he
    have hc := Controller.responder_error proc
      (fun usuario => exito 201 "Usuario creado correctamente"
        (some (.usuario
          (usuario.instanciaCreada (newUsuarioData env body usuario.password)).toJSON)) none)
      Controller.catchCreateUsuario h
    rw [show (Controller.createUsuario proc env body db).1 = _ from hc]
    rcases he with ⟨m, rfl⟩ | hs
    · rcases createUsuario_errors h with rfl | rfl
      · exact (catch_validacion env body false _).1
      · exact f1
    · rw [(catch_sinPatron hs _).1, (catch_sinPatron hs _).2.1]
  · intro o db e h he
    have hc := Controller.responder_error proc
      (fun result => exito 200 "Usuarios obtenidos correctamente"
        (some (.usuarios (result.data.map Usuario.toJSON)))
        (some { total := result.total, page := o.page, limit := o.limit,
                totalPages := Controller.totalPages result.total o.limit }))
      Controller.catchSinReglas h
    rw [show (Controller.getAllUsuarios proc env o db).1 = _ from hc]
    rcases he with ⟨m, rfl⟩ | hs
    · exact absurd h getAllUsuarios_errors
    · rw [(catch_sinPatron hs _).1, (catch_sinPatron hs _).2.2.1]
  · intro id db e h he
    have hc := Controller.responder_error proc
      (fun usuario => exito 200 "Usuario obtenido correctamente"
        (some (.usuario usuario.toJSON)) none)
      Controller.catchPorId h
    rw [show (Controller.getUsuarioById proc id db).1 = _ from hc]
    rcases he with ⟨m, rfl⟩ | hs
    · rcases getUsuarioById_errors h with rfl | rfl
      · exact f5
      · exact f6
    · rw [(catch_sinPatron hs _).1, (catch_sinPatron hs _).2.2.2.1]
  · intro id body db e h he
    have hc := Controller.responder_error proc
      (fun usuario => exito 200 "Usuario actualizado correctamente"
        (some (Datos.deUsuario usuario)) none)
      Controller.catchUpdateUsuario h
    rw [show (Controller.updateUsuario proc env id body db).1 = _ from hc]
    rcases he with ⟨m, rfl⟩ | hs
    · rcases updateUsuario_errors h with rfl | rfl | rfl | rfl
      · exact f3
      · exact f4
      · exact (catch_validacion env body true _).2.1
      · exact f2
    · rw [(catch_sinPatron hs _).1, (catch_sinPatron hs _).2.2.2.2.1]
  · intro id db e h he
    have hc := Controller.responder_error proc
      (fun message => exito 200 message none none) Controller.catchPorId h
    rw [show (Controller.deleteUsuario proc env id db).1 = _ from hc]
    rcases he with ⟨m, rfl⟩ | hs
    · rcases deleteUsuario_errors h with rfl | rfl | rfl
      · exact f5
      · exact f6
      · exact f7
    · rw [(catch_sinPatron hs _).1, (catch_sinPatron hs _).2.2.2.1]
  · intro id db e h he
    have hc := Controller.responder_error proc
      (fun message => exito 200 message none none) Controller.catchDestroyUsuario h
    rw [show (Controller.destroyUsuario proc id db).1 = _ from hc]
    rcases he with ⟨m, rfl⟩ | hs
    · rcases destroyUsuario_errors h with rfl | rfl
      · exact f8
      · exact f9
    · rw [(catch_sinPatron hs _).1, (catch_sinPatron hs _).2.2.2.2.2.1]
  · intro id db e h he
    have hc := Controller.responder_error proc
      (fun result => exito 200 result.message (some (Datos.deUsuario result.usuario)) none)
      Controller.catchPorId h
    rw [show (Controller.toggleUsuarioStatus proc env id db).1 = _ from hc]
    rcases he with ⟨m, rfl⟩ | hs
    · rcases toggleUsuarioStatus_errors h with rfl | rfl
      · exact f5
      · exact f6
    · rw [(catch_sinPatron hs _).1, (catch_sinPatron hs _).2.2.2.1]
  · intro email password db e h he
    have hc := Controller.responder_error proc
      (fun usuario => exito 200 "Autenticación exitosa" (some (.usuario usuario.toJSON)) none)
      Controller.catchAuthenticateUsuario h
    rw [show (Controller.authenticateUsuario proc env email password db).1 = _ from hc]
    rcases he with ⟨m, rfl⟩ | hs
    · rcases authenticateUsuario_errors h with rfl | rfl | rfl
      · exact f10
      · exact f12
      · exact f13
    · rw [(catch_sinPatron hs _).1, (catch_sinPatron hs _).2.2.2.2.2.2]
  · intro e db1 hs
    obtain ⟨c0, c1, c2, c3, c4, c5, c6⟩ := catch_sinPatron hs proc.desarrollo
    refine ⟨?_, ?_, ?_, ?_, ?_, ?_, ?_, ?_, ?_, h500 _ (hsin500 _ hs)⟩
    · intro body
      simp only [Controller.responderCreateUsuario, Controller.responder, c0, c1]
    · intro o
      simp only [Controller.responderGetAllUsuarios, Controller.responder, c0, c2]
    · simp only [Controller.responderGetUsuarioById, Controller.responder, c0, c3]
    · simp only [Controller.responderUpdateUsuario, Controller.responder, c0, c4]
    · simp only [Controller.responderDeleteUsuario, Controller.responder, c0, c3]
    · simp only [Controller.responderDestroyUsuario, Controller.responder, c0, c5]
    · simp only [Controller.responderToggleUsuarioStatus, Controller.responder, c0, c3]
    · simp only [Controller.responderGetStats, Controller.responder, c0, c2]
    · simp only [Controller.responderAuthenticateUsuario, Controller.responder, c0, c6]
  · intro m hm
    simp [respuestaSegunSpec, hm, errorCliente]

/-- Witness of C14, with route parameters: an identifier that no row has, `0` included, is
answered 404 by `getUsuarioById`; a parameter that is no number is answered 400; the hard
delete of an unknown identifier is answered 500, without the message in production; the
listing of page 0, which MySQL rejects, is answered 500; and the `catch` block of
`getStats` answers an error of the storage with 500 and, in development, its message. -/
theorem controller_error_mapping_witness :
    (Controller.getUsuarioById procEjemplo rutaAusente dbDos).1 =
      { code := 404, status := "error", message := "Usuario no encontrado", data := none,
        pagination := none, error := none } ∧
    (Controller.getUsuarioById procEjemplo rutaCero dbDos).1 =
      { code := 404, status := "error", message := "Usuario no encontrado", data := none,
        pagination := none, error := none } ∧
    (Controller.getUsuarioById procEjemplo rutaTexto dbDos).1 =
      { code := 400, status := "error", message := "ID de usuario inválido", data := none,
        pagination := none, error := none } ∧
    (Controller.destroyUsuario procEjemplo rutaAusente dbDos).1 =
      { code := 500, status := "error", message := "Error interno del servidor", data := none,
        pagination := none, error := none } ∧
    (Controller.getAllUsuarios procEjemplo envEjemplo { paginaDos with page := 0 } dbDos).1 =
      { code := 500, status := "error", message := "Error interno del servidor", data := none,
        pagination := none, error := none } ∧
    Controller.responderGetStats procDesarrollo (.error .databaseError, dbDos) =
      ({ code := 500, status := "error", message := "Error interno del servidor", data := none,
         pagination := none, error := some "SQLITE_ERROR: no such table: usuarios" }, dbDos) := by
  have hp := @controller_error_mapping IdRuta _ procEjemplo envEjemplo
  have hd := @controller_error_mapping IdRuta _ procDesarrollo envEjemplo
  refine ⟨?_, ?_, ?_, ?_, ?_, ?_⟩
  · exact (hp.1.2.2.1 rutaAusente dbDos (.error "Usuario no encontrado") (by decide)
      (Or.inl ⟨_, rfl⟩)).trans (by decide!)
  · exact (hp.1.2.2.1 rutaCero dbDos (.error "Usuario no encontrado") (by decide)
      (Or.inl ⟨_, rfl⟩)).trans (by decide!)
  · exact (hp.1.2.2.1 rutaTexto dbDos (.error "ID de usuario inválido") (by decide)
      (Or.inl ⟨_, rfl⟩)).trans (by decide!)
  · exact (hp.1.2.2.2.2.2.1 rutaAusente dbDos
      (.error "No se pudo eliminar el usuario permanentemente") (by decide)
      (Or.inl ⟨_, rfl⟩)).trans (by decide!)
  · exact (hp.1.2.1 { paginaDos with page := 0 } dbDos .databaseError (by decide)
      (Or.inr (by decide!))).trans (by decide!)
  · exact ((hd.2.1 .databaseError dbDos (by decide!)).2.2.2.2.2.2.2.1).trans (by decide!)

/-! ## Readiness wait of the repository -/

/-- `getModels` fails exactly when the models are not there, always with the same
error. -/
theorem getModels_eq_error {dm : DatabaseManager} (h : dm.models = none) :
    DatabaseManager.getModels dm = .error (.error "Los modelos no han sido inicializados") := by
  simp [DatabaseManager.getModels, h]

/-- The loop from attempt `a` on, when the first success is at the call number `k`. -/
theorem initBucle_success (estados : Nat → DatabaseManager) (repo : RepoState) (k : Nat)
    (m : Modelos) (hk : k < 10) (hm : DatabaseManager.getModels (estados k) = .ok m) :
    ∀ (fuel a : Nat), a ≤ k → 10 - a ≤ fuel → (∀ j, a ≤ j → j < k → (estados j).models = none) →
      UsuarioRepository.initBucle estados fuel a a a repo =
        ⟨.retorna, { Usuario := some m, initialized := true }, k + 1, k⟩ := by
  intro fuel
  induction fuel with
  | zero => intro a hak hf; omega
  | succ fuel ih =>
    intro a hak hf hfail
    unfold UsuarioRepository.initBucle
    have ha : a < UsuarioRepository.maxAttempts := by
      unfold UsuarioRepository.maxAttempts; omega
    by_cases hek : a = k
    · subst hek
      simp [ha, hm]
    · have hlt : a < k := by omega
      have hmax : ¬ (a + 1 ≥ UsuarioRepository.maxAttempts) := by
        unfold UsuarioRepository.maxAttempts; omega
      simp only [ha, ↓reduceIte, getModels_eq_error (hfail a (Nat.le_refl a) hlt), hmax]
      exact ih (a + 1) (by omega) (by omega) (fun j h1 h2 => hfail j (by omega) h2)

/-- The loop from attempt `a` on, when every call up to the tenth fails. -/
theorem initBucle_failure (estados : Nat → DatabaseManager) (repo : RepoState) :
    ∀ (fuel a : Nat), a < 10 → 10 - a ≤ fuel → (∀ j, a ≤ j → j < 10 → (estados j).models = none) →
      UsuarioRepository.initBucle estados fuel a a a repo =
        ⟨.lanza (.error "Los modelos no han sido inicializados"), repo, 10, 9⟩ := by
  intro fuel
  induction fuel with
  | zero => intro a ha hf; omega
  | succ fuel ih =>
    intro a ha10 hf hfail
    unfold UsuarioRepository.initBucle
    have ha : a < UsuarioRepository.maxAttempts := by
      unfold UsuarioRepository.maxAttempts; omega
    simp only [ha, ↓reduceIte, getModels_eq_error (hfail a (Nat.le_refl a) ha10)]
    by_cases h9 : a = 9
    · subst h9
      simp [UsuarioRepository.maxAttempts]
    · have hmax : ¬ (a + 1 ≥ UsuarioRepository.maxAttempts) := by
        unfold UsuarioRepository.maxAttempts; omega
      simp only [hmax, ↓reduceIte]
      exact ih (a + 1) (by omega) (by omega) (fun j h1 h2 => hfail j (by omega) h2)

/-- C15: `init` of the repository is a bounded loop. Whatever the manager does, ten
iterations are enough for the run to end (with more, the run is the same): it calls
`getModels` at most 10 times and waits 500 ms at most 9 times, once after each failed
attempt but the tenth. It makes no call when the repository is initialized already; it
returns with `initialized = true` and the models at the first attempt that succeeds,
after as many waits as attempts failed before; and when the ten attempts fail it throws
the error of the tenth, `Los modelos no han sido inicializados`, and the repository is
left uninitialized. -/
theorem repository_init_bounded (estados : Nat → DatabaseManager) (fuel : Nat)
    (repo : RepoState) (hfuel : 10 ≤ fuel) :
    (UsuarioRepository.init estados fuel repo).salida ≠ .sinCombustible ∧
    (UsuarioRepository.init estados fuel repo).llamadas ≤ 10 ∧
    (UsuarioRepository.init estados fuel repo).esperas ≤ 9 ∧
    UsuarioRepository.init estados fuel repo = UsuarioRepository.init estados 10 repo ∧
    (repo.initialized = true →
      UsuarioRepository.init estados fuel repo = ⟨.retorna, repo, 0, 0⟩) ∧
    (repo.initialized = false →
      (∀ k m, k < 10 → DatabaseManager.getModels (estados k) = .ok m →
        (∀ j, j < k → (estados j).models = none) →
        UsuarioRepository.init estados fuel repo =
          ⟨.retorna, { Usuario := some m, initialized := true }, k + 1, k⟩) ∧
      ((∀ j, j < 10 → (estados j).models = none) →
        UsuarioRepository.init estados fuel repo =
          ⟨.lanza (.error "Los modelos no han sido inicializados"), repo, 10, 9⟩)) := by
  have hsucc : ∀ fuel, 10 ≤ fuel → repo.initialized = false →
      ∀ k m, k < 10 → DatabaseManager.getModels (estados k) = .ok m →
        (∀ j, j < k → (estados j).models = none) →
        UsuarioRepository.init estados fuel repo =
          ⟨.retorna, { Usuario := some m, initialized := true }, k + 1, k⟩ := by
    intro fuel hf hi k m hk hm hfail
    simp only [UsuarioRepository.init, hi, Bool.false_eq_true, ↓reduceIte]
    exact initBucle_success estados repo k m hk hm fuel 0 (Nat.zero_le k) (by omega)
      (fun j _ h2 => hfail j h2)
  have hfailure : ∀ fuel, 10 ≤ fuel → repo.initialized = false →
      (∀ j, j < 10 → (estados j).models = none) →
        UsuarioRepository.init estados fuel repo =
          ⟨.lanza (.error "Los modelos no han sido inicializados"), repo, 10, 9⟩ := by
    intro fuel hf hi hfail
    simp only [UsuarioRepository.init, hi, Bool.false_eq_true, ↓reduceIte]
    exact initBucle_failure estados repo fuel 0 (by omega) (by omega) (fun j _ h2 => hfail j h2)
  have hinit : repo.initialized = true → ∀ fuel,
      UsuarioRepository.init estados fuel repo = ⟨.retorna, repo, 0, 0⟩ := by
    intro hi fuel
    simp [UsuarioRepository.init, hi]
  refine ⟨?_, ?_, ?_, ?_, fun hi => hinit hi fuel, fun hi => ⟨hsucc fuel hfuel hi, hfailure fuel hfuel hi⟩⟩
  all_goals
    cases hi : repo.initialized with
    | true => simp [hinit hi]
    | false =>
      by_cases hall : ∀ j, j < 10 → (estados j).models = none
      · simp [hfailure _ hfuel hi hall, hfailure 10 (Nat.le_refl 10) hi hall]
      · have hex : ∃ j, j < 10 ∧ (estados j).models ≠ none := by
          by_contra hne
          exact hall (fun j hj => by_contra fun hn => hne ⟨j, hj, hn⟩)
        have hk := Nat.find_spec hex
        have hmin : ∀ j, j < Nat.find hex → (estados j).models = none := by
          intro j hj
          have := Nat.find_min hex hj
          by_contra hn
          exact this ⟨by omega, hn⟩
        obtain ⟨k, hk, hmin⟩ : ∃ k, (k < 10 ∧ (estados k).models ≠ none) ∧
            ∀ j, j < k → (estados j).models = none := ⟨Nat.find hex, hk, hmin⟩
        obtain ⟨m, hm⟩ : ∃ m, DatabaseManager.getModels (estados k) = .ok m := by
          cases hmod : (estados k).models with
          | none => exact absurd hmod hk.2
          | some m => exact ⟨m, by simp [DatabaseManager.getModels, hmod]⟩
        have hk1 := hk.1
        rw [hsucc _ hfuel hi _ m hk.1 hm hmin]
        first
          | rw [hsucc 10 (Nat.le_refl 10) hi _ m hk.1 hm hmin]
          | (show k + 1 ≤ 10; omega)
          | (show k ≤ 9; omega)
          | simp

/-- Witness of C15: with a manager ready from the fourth call on, `init` returns after
four calls and three waits. -/
theorem repository_init_bounded_witness :
    UsuarioRepository.init estadosEjemplo 10 ⟨none, false⟩ =
      ⟨.retorna, { Usuario := some ⟨some .sqlite⟩, initialized := true }, 4, 3⟩ :=
  (repository_init_bounded estadosEjemplo 10 ⟨none, false⟩ (by decide)).2.2.2.2.2 rfl
    |>.1 3 ⟨some .sqlite⟩ (by decide) (by decide) (by decide)

/-! ## Database manager -/

/-- C16: `DatabaseManager.init` as a function of the outcomes of the primary connect, the
fallback connect and the schema sync. Its result is the one the specification words
(`initSegunSpec`): an error of the primary engine is never the error of `init` but leads
to the fallback connect; an error of the fallback connect is the error of `init`, and no
schema sync is attempted; after a connection an error of the schema sync is the error of
`init`; otherwise `init` succeeds, with `isConnected = true`, the connection of the engine
that answered and the models set on it. The fallback is attempted exactly when the
primary connect failed. -/
theorem manager_init_outcomes (a : Arranque) (dm : DatabaseManager) :
    (DatabaseManager.init a dm).1 = initSegunSpec a ∧
    (DatabaseManager.init a dm).2.2 = pasosSegunSpec a ∧
    (Paso.conectarSqlite ∈ (DatabaseManager.init a dm).2.2 ↔
      ∃ e, a.mysql.resultado = .error e) ∧
    (∀ e, a.mysql.resultado = .error e → a.sqlite.resultado = .ok () → a.esquema = .ok () →
      (DatabaseManager.init a dm).1 = .ok ()) ∧
    (∀ e1 e2, a.mysql.resultado = .error e1 → a.sqlite.resultado = .error e2 →
      (DatabaseManager.init a dm).1 = .error e2 ∧
      Paso.sincronizar ∉ (DatabaseManager.init a dm).2.2 ∧
      (DatabaseManager.init a dm).2.1.isConnected = dm.isConnected ∧
      (DatabaseManager.init a dm).2.1.models = dm.models) ∧
    (∀ motor e, motorSegunSpec a = some motor → a.esquema = .error e →
      (DatabaseManager.init a dm).1 = .error e) ∧
    ((DatabaseManager.init a dm).1 = .ok () →
      ∃ motor, motorSegunSpec a = some motor ∧
        (DatabaseManager.init a dm).2.1 =
          { sequelize := some motor, models := some ⟨some motor⟩, isConnected := true }) := by
  obtain ⟨⟨mc, ma⟩, ⟨sc, sa⟩, im, sy⟩ := a
  rcases mc with e1 | ⟨⟨⟩⟩ <;> rcases ma with e2 | ⟨⟨⟩⟩ <;> rcases sc with e3 | ⟨⟨⟩⟩ <;>
    rcases sa with e4 | ⟨⟨⟩⟩ <;> rcases im with e5 | ⟨⟨⟩⟩ <;> rcases sy with e6 | ⟨⟨⟩⟩ <;>
    simp [DatabaseManager.init, DatabaseManager.conectarMysql, DatabaseManager.setupSQLite,
      DatabaseManager.setupModels, initSegunSpec, pasosSegunSpec, motorSegunSpec,
      Apertura.resultado, Arranque.esquema]

/-- Witness of C16: MySQL refuses the connection, SQLite answers, the sync goes well. -/
theorem manager_init_outcomes_witness :
    DatabaseManager.init arranqueSinMysql DatabaseManager.nuevo =
      (.ok (), gestorListo, [.conectarMysql, .conectarSqlite, .sincronizar]) :=
  Prod.ext ((manager_init_outcomes arranqueSinMysql DatabaseManager.nuevo).2.2.2.1 _
      rfl rfl rfl)
    (Prod.ext (by
        obtain ⟨motor, h1, h2⟩ := (manager_init_outcomes arranqueSinMysql
          DatabaseManager.nuevo).2.2.2.2.2.2 rfl
        rw [h2]
        cases h1
        rfl)
      ((manager_init_outcomes arranqueSinMysql DatabaseManager.nuevo).2.1.trans rfl))

/-- After `init` on a new manager, whatever the outcomes, a manager that is connected has
a connection object. -/
theorem init_connected_has_connection (a : Arranque) :
    (DatabaseManager.init a DatabaseManager.nuevo).2.1.isConnected = true →
      (DatabaseManager.init a DatabaseManager.nuevo).2.1.sequelize ≠ none := by
  obtain ⟨⟨mc, ma⟩, ⟨sc, sa⟩, im, sy⟩ := a
  rcases mc with e1 | ⟨⟨⟩⟩ <;> rcases ma with e2 | ⟨⟨⟩⟩ <;> rcases sc with e3 | ⟨⟨⟩⟩ <;>
    rcases sa with e4 | ⟨⟨⟩⟩ <;> rcases im with e5 | ⟨⟨⟩⟩ <;> rcases sy with e6 | ⟨⟨⟩⟩ <;>
    simp [DatabaseManager.init, DatabaseManager.conectarMysql, DatabaseManager.setupSQLite,
      DatabaseManager.setupModels, DatabaseManager.nuevo]

/-- C17 (as stated, refuted): on the connected manager `gestorListo`, a first call of
`close` in which `sequelize.close()` rejects throws before the flag is cleared, so
calling it once leaves `isConnected = true`; a second call in which it resolves clears
the flag. Calling `close` twice does not leave the state of calling it once. -/
theorem close_twice_differs :
    (DatabaseManager.close (.error "SequelizeConnectionError") gestorListo).1 =
      .error "SequelizeConnectionError" ∧
    (DatabaseManager.close (.error "SequelizeConnectionError") gestorListo).2.isConnected =
      true ∧
    (DatabaseManager.close (.ok ())
      (DatabaseManager.close (.error "SequelizeConnectionError") gestorListo).2).2.isConnected =
      false ∧
    (DatabaseManager.close (.ok ())
      (DatabaseManager.close (.error "SequelizeConnectionError") gestorListo).2).2 ≠
      (DatabaseManager.close (.error "SequelizeConnectionError") gestorListo).2 := by
  decide

/-- C17 (amended): in every state of the manager, `getConnection` fails, with
`La base de datos no está conectada`, exactly when `isConnected` is false and otherwise
returns the connection; `getModels` fails, with `Los modelos no han sido inicializados`,
exactly when `models` is null and otherwise returns them. `close` is idempotent once a
call has resolved: after a first call that resolves, a second call leaves the state of
the first, whether `sequelize.close()` resolves or rejects in it (`cierre2`); a call in
which `sequelize.close()` rejects throws that error and leaves the state as it was. When
`sequelize.close()` resolves, `close` resolves, and `isConnected` is false afterwards in
every state where a connected manager has a connection object, as every state that
`init` reaches from a new manager has. -/
theorem manager_accessors (dm : DatabaseManager) (cierre1 cierre2 : Except String Unit) :
    (DatabaseManager.getConnection dm =
        .error (.error "La base de datos no está conectada") ↔ dm.isConnected = false) ∧
    ((∃ e, DatabaseManager.getConnection dm = .error e) ↔ dm.isConnected = false) ∧
    (dm.isConnected = true → DatabaseManager.getConnection dm = .ok dm.sequelize) ∧
    (DatabaseManager.getModels dm =
        .error (.error "Los modelos no han sido inicializados") ↔ dm.models = none) ∧
    ((∃ e, DatabaseManager.getModels dm = .error e) ↔ dm.models = none) ∧
    (∀ m, dm.models = some m → DatabaseManager.getModels dm = .ok m) ∧
    ((DatabaseManager.close cierre1 dm).1 = .ok () →
      (DatabaseManager.close cierre2 (DatabaseManager.close cierre1 dm).2).2 =
        (DatabaseManager.close cierre1 dm).2) ∧
    (∀ e, (DatabaseManager.close cierre1 dm).1 = .error e →
      cierre1 = .error e ∧ (DatabaseManager.close cierre1 dm).2 = dm) ∧
    ((DatabaseManager.close (.ok ()) dm).1 = .ok () ∧
     (DatabaseManager.close (.ok ()) dm).2.sequelize = dm.sequelize ∧
     (DatabaseManager.close (.ok ()) dm).2.models = dm.models) ∧
    ((dm.isConnected = true → dm.sequelize ≠ none) →
      (DatabaseManager.close (.ok ()) dm).2.isConnected = false ∧
      (DatabaseManager.close cierre2 (DatabaseManager.close (.ok ()) dm).2).2.isConnected =
        false) ∧
    (∀ a, (DatabaseManager.close (.ok ())
      (DatabaseManager.init a DatabaseManager.nuevo).2.1).2.isConnected = false) := by
  have hclose : (dm.isConnected = true → dm.sequelize ≠ none) →
      (DatabaseManager.close (.ok ()) dm).2.isConnected = false := by
    intro h
    unfold DatabaseManager.close
    cases hs : dm.sequelize with
    | some c => rfl
    | none =>
      cases hc : dm.isConnected with
      | false => simp [hc]
      | true => exact absurd hs (h hc)
  have hidem : (DatabaseManager.close cierre1 dm).1 = .ok () →
      (DatabaseManager.close cierre2 (DatabaseManager.close cierre1 dm).2).2 =
        (DatabaseManager.close cierre1 dm).2 := by
    intro h
    unfold DatabaseManager.close at h ⊢
    cases hs : dm.sequelize with
    | none => simp [hs]
    | some c =>
      cases cierre1 with
      | error e => simp [hs] at h
      | ok v => cases cierre2 <;> simp [hs]
  refine ⟨?_, ?_, ?_, ?_, ?_, ?_, hidem, ?_, ?_, ?_, ?_⟩
  · cases h : dm.isConnected <;> simp [DatabaseManager.getConnection, h]
  · cases h : dm.isConnected <;> simp [DatabaseManager.getConnection, h]
  · intro h
    simp [DatabaseManager.getConnection, h]
  · cases h : dm.models <;> simp [DatabaseManager.getModels, h]
  · cases h : dm.models <;> simp [DatabaseManager.getModels, h]
  · intro m h
    simp [DatabaseManager.getModels, h]
  · intro e h
    unfold DatabaseManager.close at h ⊢
    cases hs : dm.sequelize with
    | none => simp [hs] at h
    | some c =>
      cases cierre1 with
      | error e2 =>
        simp only [hs, Except.error.injEq] at h
        simp [hs, h]
      | ok v => simp [hs] at h
  · unfold DatabaseManager.close
    cases hs : dm.sequelize <;> simp [hs]
  · intro h
    refine ⟨hclose h, ?_⟩
    have h1 : (DatabaseManager.close (.ok ()) dm).1 = .ok () := by
      unfold DatabaseManager.close
      cases hs : dm.sequelize <;> simp [hs]
    have h2 : (DatabaseManager.close cierre2 (DatabaseManager.close (.ok ()) dm).2).2 =
        (DatabaseManager.close (.ok ()) dm).2 := by
      unfold DatabaseManager.close
      cases hs : dm.sequelize with
      | none => simp [hs]
      | some c => cases cierre2 <;> simp [hs]
    rw [h2]
    exact hclose h
  · intro a
    unfold DatabaseManager.close
    have hinv := init_connected_has_connection a
    cases hs : (DatabaseManager.init a DatabaseManager.nuevo).2.1.sequelize with
    | some c => rfl
    | none =>
      cases hc : (DatabaseManager.init a DatabaseManager.nuevo).2.1.isConnected with
      | false => simp [hc]
      | true => exact absurd hs (hinv hc)

/-- Witness of C17 (amended): the new manager gives neither connection nor models; the
ready one gives both; after a close of it that resolves, a second close in which
`sequelize.close()` rejects leaves the state of the first, with `isConnected = false`. -/
theorem manager_accessors_witness :
    DatabaseManager.getConnection DatabaseManager.nuevo =
      .error (.error "La base de datos no está conectada") ∧
    DatabaseManager.getConnection gestorListo = .ok (some .sqlite) ∧
    DatabaseManager.getModels gestorListo = .ok ⟨some .sqlite⟩ ∧
    (DatabaseManager.close (.error "ConnectionManager was closed")
      (DatabaseManager.close (.ok ()) gestorListo).2).2 =
      (DatabaseManager.close (.ok ()) gestorListo).2 ∧
    (DatabaseManager.close (.ok ()) gestorListo).2.isConnected = false :=
  ⟨(manager_accessors DatabaseManager.nuevo (.ok ()) (.ok ())).1.mpr rfl,
   (manager_accessors gestorListo (.ok ()) (.ok ())).2.2.1 rfl,
   (manager_accessors gestorListo (.ok ()) (.ok ())).2.2.2.2.2.1 _ rfl,
   (manager_accessors gestorListo (.ok ())
      (.error "ConnectionManager was closed")).2.2.2.2.2.2.1 rfl,
   ((manager_accessors gestorListo (.ok ()) (.ok ())).2.2.2.2.2.2.2.2.2.1 (by decide)).1⟩

/-! ## Statistics -/

/-- Assigning, one after the other, entries whose keys are distinct and new to the object
appends them. -/
theorem foldl_asignar (l : List (String × Nat)) :
    ∀ acc : List (String × Nat), (l.map (fun p => p.1)).Nodup →
      (∀ p ∈ l, ∀ q ∈ acc, q.1 ≠ p.1) →
      l.foldl (fun acc item => asignar acc item.1 item.2) acc = acc ++ l := by
  induction l with
  | nil => intro acc _ _; simp
  | cons p l ih =>
    intro acc hn hd
    simp only [List.map_cons, List.nodup_cons] at hn
    have hnew : (acc.any fun q => q.1 == p.1) = false := by
      simp only [List.any_eq_false, beq_iff_eq]
      exact fun q hq => hd p (List.mem_cons_self _ _) q hq
    have hstep : asignar acc p.1 p.2 = acc ++ [(p.1, p.2)] := by simp [asignar, hnew]
    rw [List.foldl_cons, hstep, ih (acc ++ [(p.1, p.2)]) hn.2]
    · simp
    · intro x hx q hq
      simp only [List.mem_append, List.mem_singleton] at hq
      rcases hq with hq | hq
      · exact hd x (List.mem_cons_of_mem _ hx) q hq
      · rw [hq]
        intro h
        exact hn.1 (List.mem_map.mpr ⟨x, hx, h.symm⟩)

/-- The result of `getStats` of the repository. -/
theorem getStats_eq (db : Db) :
    getStats db =
      (.ok { total := db.store.rows.length,
             activos := db.store.rows.countP (fun r => r.activo),
             inactivos := db.store.rows.countP (fun r => !r.activo),
             porRol := ((db.store.rows.map (fun r => r.rol)).dedup).map
               (fun rol => (rol, db.store.rows.countP (fun r => r.rol == rol))) },
       ⟨db.store, db.log ++ [.count, .count, .count, .findAll]⟩) := by
  have hf := foldl_asignar (((db.store.rows.map (fun r => r.rol)).dedup).map
      (fun rol => (rol, db.store.rows.countP (fun r => r.rol == rol)))) []
    (by
      rw [List.map_map]
      have : ((fun p : String × Nat => p.1) ∘
          fun rol => (rol, db.store.rows.countP (fun r => r.rol == rol))) = id := rfl
      rw [this, List.map_id]
      exact List.nodup_dedup _)
    (by simp)
  simp only [List.nil_append] at hf
  simp only [getStats, UsuarioRepository.getStats, Orm.count, Orm.countByRol, Db.registrar, hf,
    List.countP_true, beq_true, beq_false, List.append_assoc, List.singleton_append]
  rfl

/-- C18: `getStats` always returns, with `total` the number of rows, `activos` the number
of rows with `activo = true`, `inactivos` the number with `activo = false`, and `porRol`
an object with exactly one key for each role that occurs in the table, its value the
number of rows with that role. So `total = activos + inactivos`, `total` is the sum of
the values of `porRol`, and on an empty table the result is
`total 0, activos 0, inactivos 0, porRol` empty. The table is only read. -/
theorem stats_counts (db : Db) :
    ∃ s, (getStats db).1 = .ok s ∧ (getStats db).2.store = db.store ∧
      s.total = db.store.rows.length ∧
      s.activos = db.store.rows.countP (fun r => r.activo == true) ∧
      s.inactivos = db.store.rows.countP (fun r => r.activo == false) ∧
      (s.porRol.map (fun p => p.1)).Nodup ∧
      (∀ rol, rol ∈ s.porRol.map (fun p => p.1) ↔ ∃ r ∈ db.store.rows, r.rol = rol) ∧
      (∀ rol n, (rol, n) ∈ s.porRol ↔
        (∃ r ∈ db.store.rows, r.rol = rol) ∧
          n = db.store.rows.countP (fun r => r.rol == rol)) ∧
      s.total = s.activos + s.inactivos ∧
      s.total = (s.porRol.map (fun p => p.2)).sum ∧
      (db.store.rows = [] →
        s = { total := 0, activos := 0, inactivos := 0, porRol := [] }) := by
  refine ⟨_, by rw [getStats_eq], by rw [getStats_eq], rfl, ?_, ?_, ?_, ?_, ?_, ?_, ?_, ?_⟩
  · simp
  · simp
  · rw [List.map_map]
    have : ((fun p : String × Nat => p.1) ∘
        fun rol => (rol, db.store.rows.countP (fun r => r.rol == rol))) = id := rfl
    rw [this, List.map_id]
    exact List.nodup_dedup _
  · intro rol
    simp [List.mem_dedup]
  · intro rol n
    simp only [List.mem_map, List.mem_dedup, Prod.mk.injEq]
    constructor
    · rintro ⟨x, ⟨r, hr, hrx⟩, hx, hn⟩
      subst hx
      exact ⟨⟨r, hr, hrx⟩, hn.symm⟩
    · rintro ⟨⟨r, hr, hrx⟩, hn⟩
      exact ⟨rol, ⟨r, hr, hrx⟩, rfl, hn.symm⟩
  · have := List.length_eq_countP_add_countP (fun r : Usuario => r.activo) db.store.rows
    simpa using this
  · simp only [List.map_map]
    have hcount : ((fun p : String × Nat => p.2) ∘
        fun rol => (rol, db.store.rows.countP (fun r => r.rol == rol))) =
        fun rol => (db.store.rows.map (fun r => r.rol)).count rol := by
      funext rol
      simp [List.count_eq_countP, List.countP_map, Function.comp_def]
    rw [hcount, List.sum_map_count_dedup_eq_length]
    simp
  · intro h
    simp [h]

/-- Witness of C18: the statistics of the empty table and of the fifteen users. -/
theorem stats_counts_witness :
    (getStats dbVacia).1 = .ok { total := 0, activos := 0, inactivos := 0, porRol := [] } ∧
    (getStats dbQuince).1 =
      .ok { total := 15, activos := 8, inactivos := 7,
            porRol := [("admin", 5), ("usuario", 10)] } := by
  obtain ⟨s, h1, -, -, -, -, -, -, -, -, -, h11⟩ := stats_counts dbVacia
  exact ⟨by rw [h1, h11 rfl], by decide⟩

/-! ## The name rule -/

/-- A sublist has at most as many UTF-16 code units. -/
theorem utf16Length_sublist {l1 l2 : List Char} (h : l1.Sublist l2) :
    utf16Length l1 ≤ utf16Length l2 := by
  induction h with
  | slnil => exact Nat.le_refl _
  | cons a _ ih =>
    simp only [utf16Length]
    omega
  | cons₂ a _ ih =>
    simp only [utf16Length]
    omega

/-- Trimming does not lengthen a string. -/
theorem jsLength_jsTrim_le (s : String) : jsLength (jsTrim s) ≤ jsLength s := by
  apply utf16Length_sublist
  show (trimChars s.data).Sublist s.data
  unfold trimChars
  have h1 : ((s.data.dropWhile jsWhiteSpace).reverse.dropWhile jsWhiteSpace).Sublist
      (s.data.dropWhile jsWhiteSpace).reverse := List.dropWhile_sublist _
  have h2 := h1.reverse
  rw [List.reverse_reverse] at h2
  exact h2.trans (List.dropWhile_sublist _)

/-- C20 (as stated, refuted): the name `A ` has length 2, so the rule `name length >= 2`
as worded is not violated, yet `validateUsuarioData` reports the name error: the service
measures the name after `trim()`. -/
theorem name_rule_counts_trimmed_length :
    altaNombreConBlanco.nombre = .valor "A " ∧ jsLength "A " = 2 ∧
    nombreCortoSegunSpec altaNombreConBlanco.nombre = false ∧
    "El nombre debe tener al menos 2 caracteres" ∈
      validateUsuarioData envEjemplo altaNombreConBlanco false ∧
    ¬ ("El nombre debe tener al menos 2 caracteres" ∈
        validateUsuarioData envEjemplo altaNombreConBlanco false ↔
      nombreCortoSegunSpec altaNombreConBlanco.nombre = true) := by
  decide

/-- C20 (amended): on creation `validateUsuarioData` reports the name error exactly when
the name is missing (`undefined`, `null` or empty) or its length after `trim()`, that is
without the white space at its two ends, is less than 2; in particular a name that is
missing or shorter than 2 is always reported. -/
theorem name_rule_trimmed (env : Env) (d : UsuarioData) :
    ("El nombre debe tener al menos 2 caracteres" ∈ validateUsuarioData env d false ↔
      (d.nombre = .undefined ∨ d.nombre = .null ∨ d.nombre = .valor "" ∨
        ∃ s, d.nombre = .valor s ∧ jsLength (jsTrim s) < 2)) ∧
    (nombreCortoSegunSpec d.nombre = true →
      "El nombre debe tener al menos 2 caracteres" ∈ validateUsuarioData env d false) := by
  have hm := mem_reported ((!false || d.nombre.defined) && nombreInvalido d.nombre)
    ((!false || d.email.defined) && emailInvalido d.email)
    ((!false || d.password.defined) && passwordInvalido d.password)
    (telefonoInvalido d.telefono) (rolInvalido d.rol) (fechaInvalida env d.fecha_nacimiento)
  simp only [← validateUsuarioData_eq env d false] at hm
  have h1 : "El nombre debe tener al menos 2 caracteres" ∈ validateUsuarioData env d false ↔
      nombreInvalido d.nombre = true := by
    have := hm.1
    simpa [msgNombre] using this
  refine ⟨?_, ?_⟩
  · rw [h1]
    cases hn : d.nombre with
    | undefined => simp [nombreInvalido]
    | null => simp [nombreInvalido]
    | valor s => simp [nombreInvalido]
  · intro hs
    rw [h1]
    cases hn : d.nombre with
    | undefined => rfl
    | null => rfl
    | valor s =>
      simp only [hn, nombreCortoSegunSpec, Bool.or_eq_true, beq_iff_eq, decide_eq_true_eq] at hs
      simp only [nombreInvalido, Bool.or_eq_true, beq_iff_eq, decide_eq_true_eq]
      rcases hs with hs | hs
      · exact Or.inl hs
      · exact Or.inr (Nat.lt_of_le_of_lt (jsLength_jsTrim_le s) hs)

/-- Witness of C20 (amended): the name `A ` is reported, its length after `trim()`
being 1. -/
theorem name_rule_trimmed_witness :
    "El nombre debe tener al menos 2 caracteres" ∈
      validateUsuarioData envEjemplo altaNombreConBlanco false :=
  (name_rule_trimmed envEjemplo altaNombreConBlanco).1.mpr
    (Or.inr (Or.inr (Or.inr ⟨"A ", rfl, by decide⟩)))

/-! ## Hard delete of an identifier that no row has -/

/-- The answers of the handlers to the two messages of an unknown identifier. -/
theorem catch_unknown_id (dev : Bool) :
    Controller.catchDestroyUsuario dev "No se pudo eliminar el usuario permanentemente" =
      errorInterno dev "No se pudo eliminar el usuario permanentemente" ∧
    Controller.catchPorId dev "Usuario no encontrado" =
      errorCliente 404 "Usuario no encontrado" := by
  revert dev
  decide!

/-- C22: the hard delete does not look the row up first. For a valid identifier that no
row has, `destroyUsuario` fails with `No se pudo eliminar el usuario permanentemente`
(not with `Usuario no encontrado`) after the one `destroy` call on the model, the table is
unchanged, and its handler answers 500; `deleteUsuario` and `toggleUsuarioStatus` on the
same identifier fail with `Usuario no encontrado` after their lookup, the table is
unchanged, and their handlers answer 404. -/
theorem hard_delete_unknown_id (proc : Proceso) (env : Env) (id : Nat) (db : Db)
    (hid : id ≠ 0) (hno : ∀ r ∈ db.store.rows, r.id ≠ id) :
    destroyUsuario id db =
      (.error (.error "No se pudo eliminar el usuario permanentemente"),
       ⟨db.store, db.log ++ [.destroy]⟩) ∧
    (destroyUsuario id db).1 ≠ .error (.error "Usuario no encontrado") ∧
    (Controller.destroyUsuario proc id db).1 =
      { code := 500, status := "error", message := "Error interno del servidor",
        data := none, pagination := none,
        error := if proc.desarrollo then
          some "No se pudo eliminar el usuario permanentemente" else none } ∧
    deleteUsuario env id db =
      (.error (.error "Usuario no encontrado"), ⟨db.store, db.log ++ [.findByPk]⟩) ∧
    (Controller.deleteUsuario proc env id db).1 =
      { code := 404, status := "error", message := "Usuario no encontrado",
        data := none, pagination := none, error := none } ∧
    toggleUsuarioStatus env id db =
      (.error (.error "Usuario no encontrado"), ⟨db.store, db.log ++ [.findByPk]⟩) ∧
    (Controller.toggleUsuarioStatus proc env id db).1 =
      { code := 404, status := "error", message := "Usuario no encontrado",
        data := none, pagination := none, error := none } := by
  have h0 : idInvalido id = false := by simp [idInvalido, hid]
  have hfind : db.store.rows.find? (fun r => r.id == id) = none := by
    rw [List.find?_eq_none]
    intro r hr
    simpa using hno r hr
  have hcount : db.store.rows.countP (fun r => r.id == id) = 0 := by
    rw [List.countP_eq_zero]
    intro r hr
    simpa using hno r hr
  have hfilter : db.store.rows.filter (fun r => r.id != id) = db.store.rows := by
    rw [List.filter_eq_self]
    intro r hr
    simpa using hno r hr
  have hd : destroyUsuario id db =
      (.error (.error "No se pudo eliminar el usuario permanentemente"),
       ⟨db.store, db.log ++ [.destroy]⟩) := by
    have hfilter2 : db.store.rows.filter (fun r => !(r.id == id)) = db.store.rows := hfilter
    simp [destroyUsuario, h0, UsuarioRepository.destroy, Orm.destroy, Db.registrar, hcount,
      hfilter2]
  have hdel : deleteUsuario env id db =
      (.error (.error "Usuario no encontrado"), ⟨db.store, db.log ++ [.findByPk]⟩) := by
    simp [deleteUsuario, h0, UsuarioRepository.findById, Orm.findByPk, hfind, Db.registrar]
  have htog : toggleUsuarioStatus env id db =
      (.error (.error "Usuario no encontrado"), ⟨db.store, db.log ++ [.findByPk]⟩) := by
    simp [toggleUsuarioStatus, h0, UsuarioRepository.findById, Orm.findByPk, hfind,
      Db.registrar]
  obtain ⟨c1, c2⟩ := catch_unknown_id proc.desarrollo
  refine ⟨hd, by rw [hd]; simp, ?_, hdel, ?_, htog, ?_⟩
  · simp only [Controller.destroyUsuario, Controller.responderDestroyUsuario,
      Controller.responder, hd, Proceso.mensaje, c1]
    rfl
  · simp only [Controller.deleteUsuario, Controller.responderDeleteUsuario,
      Controller.responder, hdel, Proceso.mensaje, c2]
    rfl
  · simp only [Controller.toggleUsuarioStatus, Controller.responderToggleUsuarioStatus,
      Controller.responder, htog, Proceso.mensaje, c2]
    rfl

/-- Witness of C22: the identifier 99 in `dbDos`. -/
theorem hard_delete_unknown_id_witness :
    (destroyUsuario 99 dbDos).1 =
      .error (.error "No se pudo eliminar el usuario permanentemente") ∧
    (Controller.destroyUsuario procEjemplo 99 dbDos).1.code = 500 ∧
    (Controller.deleteUsuario procEjemplo envEjemplo 99 dbDos).1.code = 404 ∧
    (Controller.toggleUsuarioStatus procEjemplo envEjemplo 99 dbDos).1.code = 404 :=
  ⟨congrArg Prod.fst
      (hard_delete_unknown_id procEjemplo envEjemplo 99 dbDos (by decide) (by decide)).1,
   congrArg Respuesta.code
      (hard_delete_unknown_id procEjemplo envEjemplo 99 dbDos (by decide) (by decide)).2.2.1,
   congrArg Respuesta.code
      (hard_delete_unknown_id procEjemplo envEjemplo 99 dbDos (by decide)
        (by decide)).2.2.2.2.1,
   congrArg Respuesta.code
      (hard_delete_unknown_id procEjemplo envEjemplo 99 dbDos (by decide)
        (by decide)).2.2.2.2.2.2⟩

/-! ## The email pattern, as the specification words it -/

/-- C21: `isValidEmail` accepts exactly the strings of the shape `local@domain.tld`: a
string is accepted if and only if it contains no white space (the class `\s` of
JavaScript), contains exactly one `@`, has a non-empty part before the `@`, and the part
after the `@` contains a `.` that is neither its first nor its last character. -/
theorem isValidEmail_shape (e : String) : isValidEmail e = true ↔ formaEmailSegunSpec e := by
  rw [isValidEmail_iff_runs]
  exact forma_iff_runs e

/-- Witness of C21: `ana@x.com` is accepted and has the shape; `ana@x` and `a@b@c.d` are
refused. -/
theorem isValidEmail_shape_witness :
    formaEmailSegunSpec "ana@x.com" ∧ ¬ formaEmailSegunSpec "ana@x" ∧
    ¬ formaEmailSegunSpec "a@b@c.d" :=
  ⟨(isValidEmail_shape "ana@x.com").mp (by decide),
   fun h => absurd ((isValidEmail_shape "ana@x").mpr h) (by decide),
   fun h => absurd ((isValidEmail_shape "a@b@c.d").mpr h) (by decide)⟩

end BossBudget
